import Mathlib

/-!
# AR0144 / AR0234 image sensor driver: control-plane model

Shallow embedding of `drivers/media/i2c/ar0144.c`.

Conventions
* `unsigned int` / `u32` values are natural numbers reduced with `u32`
  wherever the C arithmetic can wrap; `unsigned long` and `u64` are 64 bit
  wide (the driver targets arm64) and are reduced with `u64`; `u16` register
  values are reduced with `u16`.
* `int` return codes are integers: `0` on success, `-EINVAL = -22`,
  `-EBUSY = -16`, `- EIO = -5`.
* A `while` loop is a step function iterated under a fuel bound; a result
  `none` means that the fuel ran out before the loop left.
-/

namespace AR0144

/-! ## Machine words and kernel helpers -/

/-- Truncation to a 16 bit register value. -/
def u16 (n : Nat) : Nat := n % 2 ^ 16

/-- Truncation to `unsigned int`. -/
def u32 (n : Nat) : Nat := n % 2 ^ 32

/-- Truncation to `unsigned long` / `u64`. -/
def u64 (n : Nat) : Nat := n % 2 ^ 64

/-- Conversion of a signed `int` to `unsigned int`. -/
def int_to_u32 (x : Int) : Nat := (x % 2 ^ 32).toNat

/-- Conversion of an `unsigned int` to a signed 32 bit `int`. -/
def u32_to_int (n : Nat) : Int :=
  if u32 n < 2 ^ 31 then (u32 n : Int) else (u32 n : Int) - 2 ^ 32

/-- Kernel `min_t(unsigned int, a, b)` on already converted operands. -/
def min_t (a b : Nat) : Nat := if a < b then a else b

/-- Kernel `max_t(unsigned int, a, b)` on already converted operands. -/
def max_t (a b : Nat) : Nat := if a > b then a else b

/-- Kernel `clamp_t(unsigned int, val, lo, hi)`: `min(max(val, lo), hi)`. -/
def clamp_t (val lo hi : Nat) : Nat := min_t (max_t val lo) hi

/-- Kernel `ALIGN(x, 2)` of a signed 32 bit value, seen as `unsigned int`:
`(x + 1) & ~1` in two's complement. -/
def ALIGN2 (x : Int) : Nat :=
  let y := int_to_u32 (x + 1)
  y - y % 2

def EINVAL : Int := 22
def EBUSY : Int := 16
def EIO : Int := 5

/-! ## Data model -/

inductive ar0144_chip where
  | AR0144
  | AR0234
deriving DecidableEq, Repr

inductive ar0144_color where
  | AR0144_MODEL_UNKNOWN
  | AR0144_MODEL_COLOR
  | AR0144_MODEL_MONOCHROME
deriving DecidableEq, Repr

structure limit_range where
  min : Nat
  max : Nat
deriving DecidableEq, Repr

structure ar0144_sensor_limits where
  x : limit_range
  y : limit_range
  hlen : limit_range
  vlen : limit_range
  hblank : limit_range
  vblank : limit_range
  ext_clk : limit_range
  div_lim : limit_range
  mul_lim : limit_range
  vt_div_lim : limit_range
  word_clk_lim : limit_range
  vco_lim : limit_range
deriving DecidableEq, Repr

/-- The fields of `struct ar0144_model_data` used by the control plane (the
MIPI timing tables are left out). -/
structure ar0144_model_data where
  max_lanes : Nat
  multiplier : Nat
  max_parallel_link_freq : Nat
  max_mipi_link_freq : Nat
  max_parallel_again : Nat
  max_mipi_again : Nat
  max_tp_color : Nat
  aec_min_exposure : Nat
  def_width : Nat
  def_height : Nat
  def_offset_x : Nat
  def_offset_y : Nat
  limits : ar0144_sensor_limits
deriving DecidableEq, Repr

structure ar0144_model where
  chip : ar0144_chip
  color : ar0144_color
  chip_version : Nat
  data : ar0144_model_data
deriving DecidableEq, Repr

structure ar0144_format where
  code : Nat
  bpp : Nat
deriving DecidableEq, Repr

/-- The bus types of `enum v4l2_mbus_type` that the driver tells apart; every
type other than `V4L2_MBUS_PARALLEL` takes the serial path of the PLL code. -/
inductive v4l2_mbus_type where
  | V4L2_MBUS_UNKNOWN
  | V4L2_MBUS_PARALLEL
  | V4L2_MBUS_CSI2_DPHY
deriving DecidableEq, Repr

structure ar0144_businfo where
  bus_type : v4l2_mbus_type
  flags : Nat
  target_link_frequency : Nat
  num_lanes : Nat
deriving DecidableEq, Repr

structure ar0144_pll_config where
  pre_pll_div : Nat
  pre_pll_mul : Nat
  vt_sys_div : Nat
  vt_pix_div : Nat
  op_sys_div : Nat
  op_pix_div : Nat
  vco_freq : Nat
  pix_freq : Nat
  ser_freq : Nat
deriving DecidableEq, Repr

/-! ## Chip tables -/

def ar0144_limits : ar0144_sensor_limits :=
  { x := ⟨0, 1295⟩
    y := ⟨0, 807⟩
    hlen := ⟨1488, 65534⟩
    vlen := ⟨29, 65535⟩
    hblank := ⟨208, 65535⟩
    vblank := ⟨22, 65535⟩
    ext_clk := ⟨6000000, 48000000⟩
    div_lim := ⟨1, 63⟩
    mul_lim := ⟨32, 254⟩
    vt_div_lim := ⟨1, 16⟩
    word_clk_lim := ⟨0, 74250000⟩
    vco_lim := ⟨384000000, 768000000⟩ }

def ar0234_limits : ar0144_sensor_limits :=
  { x := ⟨0, 1927⟩
    y := ⟨0, 1215⟩
    hlen := ⟨2448, 65534⟩
    vlen := ⟨29, 65535⟩
    hblank := ⟨200, 65535⟩
    vblank := ⟨16, 65535⟩
    ext_clk := ⟨6000000, 54000000⟩
    div_lim := ⟨1, 63⟩
    mul_lim := ⟨32, 254⟩
    vt_div_lim := ⟨1, 16⟩
    word_clk_lim := ⟨0, 90000000⟩
    vco_lim := ⟨384000000, 768000000⟩ }

def ar0144_data : ar0144_model_data :=
  { max_lanes := 2
    multiplier := 1
    max_parallel_link_freq := 74250000
    max_mipi_link_freq := 384000000
    max_parallel_again := 16000
    max_mipi_again := 16000
    max_tp_color := 4095
    aec_min_exposure := 1
    def_width := 1280
    def_height := 800
    def_offset_x := 4
    def_offset_y := 4
    limits := ar0144_limits }

def ar0234_data : ar0144_model_data :=
  { max_lanes := 4
    multiplier := 4
    max_parallel_link_freq := 360000000
    max_mipi_link_freq := 450000000
    max_parallel_again := 8000
    max_mipi_again := 16000
    max_tp_color := 1023
    aec_min_exposure := 2
    def_width := 1920
    def_height := 1200
    def_offset_x := 6
    def_offset_y := 6
    limits := ar0234_limits }

def AR0144_CHIP_VERSION : Nat := 0x0356
def AR0234_CHIP_VERSION : Nat := 0x0a56

open ar0144_chip ar0144_color v4l2_mbus_type

def ar0144_unknown : ar0144_model := ⟨AR0144, AR0144_MODEL_UNKNOWN, AR0144_CHIP_VERSION, ar0144_data⟩
def ar0144_col : ar0144_model := ⟨AR0144, AR0144_MODEL_COLOR, AR0144_CHIP_VERSION, ar0144_data⟩
def ar0144_mono : ar0144_model := ⟨AR0144, AR0144_MODEL_MONOCHROME, AR0144_CHIP_VERSION, ar0144_data⟩
def ar0234_unknown : ar0144_model := ⟨AR0234, AR0144_MODEL_UNKNOWN, AR0234_CHIP_VERSION, ar0234_data⟩
def ar0234_col : ar0144_model := ⟨AR0234, AR0144_MODEL_COLOR, AR0234_CHIP_VERSION, ar0234_data⟩
def ar0234_mono : ar0144_model := ⟨AR0234, AR0144_MODEL_MONOCHROME, AR0234_CHIP_VERSION, ar0234_data⟩

/-- The models of the device tables `ar0144_id_table` / `ar0144_of_match`. -/
def ar0144_models : List ar0144_model :=
  [ar0144_unknown, ar0144_col, ar0144_mono, ar0234_unknown, ar0234_col, ar0234_mono]

/-! ## Register transport -/

/-- One message pair handed to `i2c_transfer`: a 16 bit register read or a
16 bit register write. -/
inductive i2c_msg where
  | read (reg : Nat)
  | write (reg val : Nat)
deriving DecidableEq, Repr

/-- The register transport behind `v4l2_get_subdevdata`: the register file
of the chip, the outcome that the environment gives to every call of
`i2c_transfer` (`none`: the transfer completes and returns the number of
messages; `some ret`: it returns `ret` instead, a negative errno or a short
count) and the transfers issued so far. -/
structure i2c_client where
  regs : Nat → Nat
  fault : Nat → Option Int
  log : List i2c_msg

/-! ## Device state -/

structure v4l2_rect where
  left : Int
  top : Int
  width : Nat
  height : Nat
deriving DecidableEq, Repr

/-- The fields of `struct v4l2_mbus_framefmt` that the driver computes
itself; `xfer_func`, `ycbcr_enc` and `quantization` are fixed functions of
`colorspace` given by header macros and are left out. -/
structure v4l2_mbus_framefmt where
  width : Nat
  height : Nat
  code : Nat
  field : Nat
  colorspace : Nat
deriving DecidableEq, Repr

inductive v4l2_subdev_format_whence where
  | V4L2_SUBDEV_FORMAT_TRY
  | V4L2_SUBDEV_FORMAT_ACTIVE
deriving DecidableEq, Repr

/-- The try format and try crop of the single pad held in
`struct v4l2_subdev_state`. -/
structure v4l2_subdev_state where
  try_fmt : v4l2_mbus_framefmt
  try_crop : v4l2_rect
deriving DecidableEq, Repr

structure v4l2_subdev_format where
  which : v4l2_subdev_format_whence
  format : v4l2_mbus_framefmt
deriving DecidableEq, Repr

structure v4l2_subdev_selection where
  which : v4l2_subdev_format_whence
  target : Nat
  r : v4l2_rect
deriving DecidableEq, Repr

/-- The value slots of `struct v4l2_ctrl` that the driver reads and writes:
`val`, the value being set, and `cur.val`, the committed value. -/
structure v4l2_ctrl where
  val : Int
  cur_val : Int
deriving DecidableEq, Repr

/-- Source `struct ar0144_gains`; the control pointers are modelled by the
control objects they point to. -/
structure ar0144_gains where
  dig_ctrl : v4l2_ctrl
  ana_ctrl : v4l2_ctrl
  red_ctrl : v4l2_ctrl
  greenb_ctrl : v4l2_ctrl
  greenr_ctrl : v4l2_ctrl
  blue_ctrl : v4l2_ctrl
  red : Nat
  greenb : Nat
  greenr : Nat
  blue : Nat
  min_ref : Nat
  max_again : Nat
deriving DecidableEq, Repr

/-- The per-device context `struct ar0144` (framework handles, the lock and
the vendor mode table are left out; `i2c` is the transport reached through
the subdevice). -/
structure ar0144 where
  fmt : v4l2_mbus_framefmt
  crop : v4l2_rect
  bpp : Nat
  w_scale : Nat
  h_scale : Nat
  vblank : Nat
  hblank : Nat
  hlen : Nat
  vlen : Nat
  embedded_data : Bool
  embedded_stat : Bool
  model : ar0144_model
  info : ar0144_businfo
  pll : List ar0144_pll_config
  formats : List ar0144_format
  gains : ar0144_gains
  power_user : Int
  is_streaming : Bool
  trigger : Bool
  i2c : i2c_client

/-! ## PLL synthesizer -/

/-- Source `ar0144_clk_mul_div`: `freq * mul / div` in 64 bit arithmetic,
`0` when `div` is zero. -/
def ar0144_clk_mul_div (freq mul div : Nat) : Nat :=
  if div = 0 then 0 else u64 (freq * mul) / div

/-- The values that `ar0144_calculate_pll` fixes before its loop. -/
structure pll_args where
  limits : ar0144_sensor_limits
  bus_type : v4l2_mbus_type
  lanes : Nat
  ext_freq : Nat
  bpp : Nat
  pix_target : Nat
  pix_clk_multiplier : Nat

/-- The local variables of the loop of `ar0144_calculate_pll` together with
the configuration written so far. -/
structure pll_sweep where
  div : Nat
  mul : Nat
  vt_sys_div : Nat
  vt_pix_div : Nat
  op_multiplier : Nat
  diff_old : Nat
  pll : ar0144_pll_config

/-- Source lines 3173-3174: `if (mul % 2 != 0) mul++;`. -/
def pll_round_mul (s : pll_sweep) : pll_sweep :=
  if s.mul % 2 ≠ 0 then { s with mul := u32 (s.mul + 1) } else s

/-- Source lines 3176-3179: past the last multiplier, restart the
multiplier and step the system divider 1, 2, 4, 6, ... -/
def pll_carry_mul (a : pll_args) (s : pll_sweep) : pll_sweep :=
  if s.mul > a.limits.mul_lim.max then
    { s with
      mul := u32 a.limits.mul_lim.min
      vt_sys_div := if s.vt_sys_div = 1 then 2 else u32 (s.vt_sys_div + 2) }
  else s

/-- Source lines 3181-3184: past the last system divider, restart it and
step the pre-divider. -/
def pll_carry_vt (a : pll_args) (s : pll_sweep) : pll_sweep :=
  if s.vt_sys_div > a.limits.vt_div_lim.max then
    { s with vt_sys_div := u32 a.limits.vt_div_lim.min, div := u32 (s.div + 1) }
  else s

/-- Source lines 3186-3197: past the last pre-divider, either leave the
loop (`none`) or restart the sweep with the pixel divider and the
operational multiplier halved. -/
def pll_next_pass (a : pll_args) (s : pll_sweep) : Option pll_sweep :=
  if s.div > a.limits.div_lim.max then
    if s.vt_pix_div < a.bpp then none
    else if s.op_multiplier ≤ 1 then none
    else
      some { s with
        div := u32 a.limits.div_lim.min
        vt_pix_div := s.vt_pix_div >>> 1
        op_multiplier := s.op_multiplier >>> 1 }
  else some s

/-- First half of the loop body (source lines 3173-3197): round the
multiplier up to an even value and carry into the system divider, the
pre-divider and the pixel-divider pass. `none` is a `break`. -/
def pll_advance (a : pll_args) (s : pll_sweep) : Option pll_sweep :=
  pll_next_pass a (pll_carry_vt a (pll_carry_mul a (pll_round_mul s)))

/-- VCO frequency of the candidate held in the loop variables. -/
def pll_vco (a : pll_args) (s : pll_sweep) : Nat :=
  ar0144_clk_mul_div a.ext_freq s.mul s.div

/-- Word clock of the candidate held in the loop variables. -/
def pll_word_clk (a : pll_args) (s : pll_sweep) : Nat :=
  ar0144_clk_mul_div (pll_vco a s) 1 (u32 (s.vt_pix_div * s.vt_sys_div))

/-- Pixel clock of the candidate held in the loop variables. -/
def pll_pix_clk (a : pll_args) (s : pll_sweep) : Nat :=
  u64 (pll_word_clk a s * a.pix_clk_multiplier)

/-- Second half of the loop body (source lines 3199-3253): check the
candidate and store it when it comes closer to the target than the best one
so far. Every path ends with `mul++`. -/
def pll_try (a : pll_args) (s : pll_sweep) : pll_sweep :=
  let next : pll_sweep := { s with mul := u32 (s.mul + 1) }
  if u32 (s.vt_sys_div * s.op_multiplier) > a.limits.vt_div_lim.max then next
  else
    let vco := ar0144_clk_mul_div a.ext_freq s.mul s.div
    if vco < a.limits.vco_lim.min ∨ vco > a.limits.vco_lim.max then next
    else
      let word_clk := ar0144_clk_mul_div vco 1 (u32 (s.vt_pix_div * s.vt_sys_div))
      let pix_clk := u64 (word_clk * a.pix_clk_multiplier)
      if word_clk > a.limits.word_clk_lim.max then next
      else if pix_clk > a.pix_target then next
      else
        let diff := a.pix_target - pix_clk
        if diff ≥ s.diff_old then next
        else
          { next with
            diff_old := diff
            pll :=
              { s.pll with
                pre_pll_div := s.div
                pre_pll_mul := s.mul
                op_sys_div := u32 (s.op_multiplier * s.vt_sys_div)
                vt_sys_div := s.vt_sys_div
                vt_pix_div := s.vt_pix_div
                vco_freq := vco
                pix_freq := pix_clk
                ser_freq :=
                  if a.bus_type = V4L2_MBUS_PARALLEL then pix_clk
                  else ar0144_clk_mul_div pix_clk a.bpp (u32 (2 * a.lanes)) } }

/-- One iteration of `while (div <= limits->div_lim.max)`; `none` when the
loop is left (condition false or `break`). -/
def pll_iter (a : pll_args) (s : pll_sweep) : Option pll_sweep :=
  if s.div ≤ a.limits.div_lim.max then (pll_advance a s).map (pll_try a) else none

/-- The loop of `ar0144_calculate_pll`: the loop variables when it is left,
or `none` when the fuel runs out first. -/
def pll_loop (a : pll_args) : Nat → pll_sweep → Option pll_sweep
  | 0, _ => none
  | fuel + 1, s =>
    match pll_iter a s with
    | none => some s
    | some s1 => pll_loop a fuel s1

/-- The candidates examined by the loop, in order: the loop variables at
each entry into the second half of the body. -/
def pll_visited (a : pll_args) : Nat → pll_sweep → List pll_sweep
  | 0, _ => []
  | fuel + 1, s =>
    if s.div ≤ a.limits.div_lim.max then
      match pll_advance a s with
      | none => []
      | some t => t :: pll_visited a fuel (pll_try a t)
    else []

/-- Setup of `ar0144_calculate_pll` before the loop: target pixel rate and
pixel clock multiplier. -/
def pll_setup (sensor : ar0144) (ext_freq link_freq bpp : Nat) : pll_args :=
  { limits := sensor.model.data.limits
    bus_type := sensor.info.bus_type
    lanes := sensor.info.num_lanes
    ext_freq := ext_freq
    bpp := bpp
    pix_target :=
      if sensor.info.bus_type = V4L2_MBUS_PARALLEL then u64 link_freq
      else ar0144_clk_mul_div link_freq (u32 (2 * sensor.info.num_lanes)) bpp
    pix_clk_multiplier := if sensor.model.chip = AR0234 then sensor.info.num_lanes else 1 }

/-- Loop variables of `ar0144_calculate_pll` at loop entry. -/
def pll_start (sensor : ar0144) (pll : ar0144_pll_config)
    (ext_freq link_freq bpp : Nat) : pll_sweep :=
  let a := pll_setup sensor ext_freq link_freq bpp
  { div := u32 a.limits.div_lim.min
    mul := u32 a.limits.mul_lim.min
    vt_sys_div := u32 a.limits.vt_div_lim.min
    vt_pix_div := bpp
    op_multiplier := if sensor.model.chip = AR0144 then sensor.info.num_lanes else 2
    diff_old := a.pix_target
    pll :=
      { pll with
        pre_pll_div := 1
        pre_pll_mul := 0
        vt_sys_div := 1
        vt_pix_div := bpp
        op_sys_div := 2
        op_pix_div := bpp } }

/-- Source `ar0144_calculate_pll`: return code and the configuration left
in `*pll`. `pll` is the content of `*pll` on entry. -/
def ar0144_calculate_pll (fuel : Nat) (sensor : ar0144) (pll : ar0144_pll_config)
    (ext_freq link_freq bpp : Nat) : Option (Int × ar0144_pll_config) :=
  match pll_loop (pll_setup sensor ext_freq link_freq bpp) fuel
      (pll_start sensor pll ext_freq link_freq bpp) with
  | none => none
  | some s => if s.pll.pre_pll_mul = 0 then some (-EINVAL, s.pll) else some (0, s.pll)

/-! ## Register access -/

def AR0144_Y_ADDR_START : Nat := 0x3002
def AR0144_X_ADDR_START : Nat := 0x3004
def AR0144_Y_ADRR_END : Nat := 0x3006
def AR0144_X_ADRR_END : Nat := 0x3008
def AR0144_FRAME_LENGTH_LINES : Nat := 0x300a
def AR0144_LINE_LENGTH_PCK : Nat := 0x300c
def AR0144_RESET_REGISTER : Nat := 0x301a
def BIT_GROUPED_PARAM_HOLD : Nat := 2 ^ 15
def AR0144_SMIA_TEST : Nat := 0x3064
def BIT_EMBEDDED_STATS_EN : Nat := 2 ^ 7
def AR0144_X_ODD_INC : Nat := 0x30a2
def AR0144_Y_ODD_INC : Nat := 0x30a6

/-- Kernel `i2c_transfer` of `num` messages: the transfer is logged, its
return value is `num` unless the environment makes it fail, and a complete
write transfer updates the register file. -/
def i2c_transfer (c : i2c_client) (m : i2c_msg) (num : Int) : Int × i2c_client :=
  let ret := (c.fault c.log.length).getD num
  match m with
  | i2c_msg.read _ => (ret, { c with log := c.log ++ [m] })
  | i2c_msg.write reg val =>
    (ret,
      { c with
        log := c.log ++ [m]
        regs := if ret = num then fun r => if r = reg then val else c.regs r else c.regs })

/-- Source `ar0144_read`: the error code, or the 16 bit value read. -/
def ar0144_read (sensor : ar0144) (reg : Nat) : Except Int Nat × ar0144 :=
  let (ret, c) := i2c_transfer sensor.i2c (i2c_msg.read (u16 reg)) 2
  let ret := if ret ≥ 0 ∧ ret ≠ 2 then - EIO else ret
  if ret < 0 then (Except.error ret, { sensor with i2c := c })
  else (Except.ok (u16 (sensor.i2c.regs (u16 reg))), { sensor with i2c := c })

/-- Source `ar0144_write`. -/
def ar0144_write (sensor : ar0144) (reg val : Nat) : Int × ar0144 :=
  let (ret, c) := i2c_transfer sensor.i2c (i2c_msg.write (u16 reg) (u16 val)) 1
  let ret := if ret ≥ 0 ∧ ret ≠ 1 then - EIO else ret
  if ret < 0 then (ret, { sensor with i2c := c }) else (0, { sensor with i2c := c })

/-- Source `ar0144_update_bits`: read, modify under the mask, write back
only when the value changed. -/
def ar0144_update_bits (sensor : ar0144) (reg mask val : Nat) : Int × ar0144 :=
  match ar0144_read sensor reg with
  | (Except.error ret, s1) => (ret, s1)
  | (Except.ok orig, s1) =>
    let tmp := (orig &&& (0xffff - u16 mask)) ||| (u16 val &&& u16 mask)
    if tmp ≠ orig then ar0144_write s1 reg tmp else (0, s1)

/-- Source `ar0144_set_bits`. -/
def ar0144_set_bits (sensor : ar0144) (reg val : Nat) : Int × ar0144 :=
  ar0144_update_bits sensor reg val val

/-- Source `ar0144_clear_bits`. -/
def ar0144_clear_bits (sensor : ar0144) (reg val : Nat) : Int × ar0144 :=
  ar0144_update_bits sensor reg val 0

/-- The C idiom `ret = step; if (ret) return ret;`: run the next step only
when the previous one returned zero. -/
def and_then (r : Int × ar0144) (f : ar0144 → Int × ar0144) : Int × ar0144 :=
  if r.1 ≠ 0 then r else f r.2

/-! ## Format and crop negotiation -/

def MEDIA_BUS_FMT_Y8_1X8 : Nat := 0x2001
def MEDIA_BUS_FMT_Y10_1X10 : Nat := 0x200a
def MEDIA_BUS_FMT_Y12_1X12 : Nat := 0x2013
def MEDIA_BUS_FMT_SGRBG8_1X8 : Nat := 0x3002
def MEDIA_BUS_FMT_SGRBG10_1X10 : Nat := 0x300a
def MEDIA_BUS_FMT_SGRBG12_1X12 : Nat := 0x3012
def V4L2_FIELD_NONE : Nat := 1
def V4L2_COLORSPACE_SRGB : Nat := 8
def V4L2_COLORSPACE_RAW : Nat := 11
def V4L2_SEL_TGT_CROP : Nat := 0

def ar0144_mono_formats : List ar0144_format :=
  [⟨MEDIA_BUS_FMT_Y8_1X8, 8⟩, ⟨MEDIA_BUS_FMT_Y10_1X10, 10⟩, ⟨MEDIA_BUS_FMT_Y12_1X12, 12⟩]

def ar0144_col_formats : List ar0144_format :=
  [⟨MEDIA_BUS_FMT_SGRBG8_1X8, 8⟩, ⟨MEDIA_BUS_FMT_SGRBG10_1X10, 10⟩,
    ⟨MEDIA_BUS_FMT_SGRBG12_1X12, 12⟩]

def ar0234_mono_formats : List ar0144_format :=
  [⟨MEDIA_BUS_FMT_Y8_1X8, 8⟩, ⟨MEDIA_BUS_FMT_Y10_1X10, 10⟩]

def ar0234_col_formats : List ar0144_format :=
  [⟨MEDIA_BUS_FMT_SGRBG8_1X8, 8⟩, ⟨MEDIA_BUS_FMT_SGRBG10_1X10, 10⟩]

/-- The format tables that `ar0144_set_defaults` chooses from. -/
def ar0144_format_tables : List (List ar0144_format) :=
  [ar0144_mono_formats, ar0144_col_formats, ar0234_mono_formats, ar0234_col_formats]

/-- Source `ar0144_find_format`: the first entry with the requested code,
else the last entry of the table. -/
def ar0144_find_format (sensor : ar0144) (code : Nat) : ar0144_format :=
  match sensor.formats.find? (fun f => f.code = code) with
  | some f => f
  | none => sensor.formats.getLastD ⟨0, 0⟩

/-- Source `ar0144_find_skipfactor`: `i` runs from 0 and stops at the first
`i < 4` with `(input >> i) <= output`, or at 4; the result is `1 << i`. -/
def ar0144_find_skipfactor (input output : Nat) : Nat :=
  let i := ((List.range 4).find? (fun i => input >>> i ≤ output)).getD 4
  1 <<< i

/-- Source `ar0144_get_hlength`. -/
def ar0144_get_hlength (sensor : ar0144) : Nat :=
  clamp_t (u32 (sensor.fmt.width + sensor.hblank))
    (u32 sensor.model.data.limits.hlen.min) (u32 sensor.model.data.limits.hlen.max)

/-- Source `ar0144_get_vlength`. -/
def ar0144_get_vlength (sensor : ar0144) : Nat :=
  clamp_t (u32 (sensor.fmt.height + sensor.vblank))
    (u32 sensor.model.data.limits.vlen.min) (u32 sensor.model.data.limits.vlen.max)

open v4l2_subdev_format_whence

/-- Source `ar0144_set_fmt`: return code, device state, pad state and the
format handed back to the caller. -/
def ar0144_set_fmt (sensor : ar0144) (state : v4l2_subdev_state)
    (format : v4l2_subdev_format) :
    Int × ar0144 × v4l2_subdev_state × v4l2_subdev_format :=
  if sensor.is_streaming = true ∧ format.which = V4L2_SUBDEV_FORMAT_ACTIVE then
    (-EBUSY, sensor, state, format)
  else
    let fmt0 :=
      match format.which with
      | V4L2_SUBDEV_FORMAT_TRY => state.try_fmt
      | V4L2_SUBDEV_FORMAT_ACTIVE => sensor.fmt
    let crop := sensor.crop
    let sensor_format := ar0144_find_format sensor format.format.code
    let width := clamp_t format.format.width 1 crop.width
    let height := clamp_t format.format.height 1 crop.height
    let w_scale := ar0144_find_skipfactor crop.width width
    let h_scale := ar0144_find_skipfactor crop.height height
    let fmt : v4l2_mbus_framefmt :=
      { fmt0 with
        colorspace :=
          if sensor.model.color = AR0144_MODEL_COLOR then V4L2_COLORSPACE_RAW
          else V4L2_COLORSPACE_SRGB
        field := V4L2_FIELD_NONE
        code := sensor_format.code
        width := crop.width / w_scale
        height := crop.height / h_scale }
    match format.which with
    | V4L2_SUBDEV_FORMAT_TRY =>
      (0, sensor, { state with try_fmt := fmt }, { format with format := fmt })
    | V4L2_SUBDEV_FORMAT_ACTIVE =>
      let s1 : ar0144 :=
        { sensor with fmt := fmt, bpp := sensor_format.bpp, w_scale := w_scale, h_scale := h_scale }
      let s2 : ar0144 := { s1 with hlen := ar0144_get_hlength s1 }
      let s3 : ar0144 := { s2 with vlen := ar0144_get_vlength s2 }
      (0, s3, state, { format with format := fmt })

/-- Source `ar0144_config_frame`: the geometry registers, written in order
until the first transport error. -/
def ar0144_config_frame (sensor : ar0144) : Int × ar0144 :=
  let height := u32 (sensor.fmt.height * sensor.h_scale)
  let width := u32 (sensor.fmt.width * sensor.w_scale)
  let y_end0 := u16 (int_to_u32 sensor.crop.top + height + (2 ^ 32 - 1))
  let y_end1 := if sensor.embedded_stat then u16 (y_end0 + (2 ^ 16 - 2)) else y_end0
  let y_end := if sensor.embedded_data then u16 (y_end1 + (2 ^ 16 - 2)) else y_end1
  let x_end := u16 (int_to_u32 sensor.crop.left + width + (2 ^ 32 - 1))
  and_then (ar0144_write sensor AR0144_Y_ADDR_START (int_to_u32 sensor.crop.top)) fun s =>
  and_then (ar0144_write s AR0144_X_ADDR_START (int_to_u32 sensor.crop.left)) fun s =>
  and_then (ar0144_write s AR0144_Y_ADRR_END y_end) fun s =>
  and_then (ar0144_write s AR0144_X_ADRR_END x_end) fun s =>
  and_then (ar0144_write s AR0144_FRAME_LENGTH_LINES sensor.vlen) fun s =>
  and_then (ar0144_write s AR0144_LINE_LENGTH_PCK
    (sensor.hlen / sensor.model.data.multiplier)) fun s =>
  and_then (ar0144_write s AR0144_X_ODD_INC (u32 (u32 (sensor.w_scale * 2) + (2 ^ 32 - 1)))) fun s =>
  and_then (ar0144_write s AR0144_Y_ODD_INC (u32 (u32 (sensor.h_scale * 2) + (2 ^ 32 - 1)))) fun s =>
  ar0144_set_bits s AR0144_SMIA_TEST BIT_EMBEDDED_STATS_EN

/-- Source `ar0144_group_param_hold`. -/
def ar0144_group_param_hold (sensor : ar0144) : Int × ar0144 :=
  ar0144_set_bits sensor AR0144_RESET_REGISTER BIT_GROUPED_PARAM_HOLD

/-- Source `ar0144_group_param_release`. -/
def ar0144_group_param_release (sensor : ar0144) : Int × ar0144 :=
  ar0144_clear_bits sensor AR0144_RESET_REGISTER BIT_GROUPED_PARAM_HOLD

/-- Source lines 1977-1984 of `ar0144_set_selection`: the requested
rectangle aligned to even offsets and clamped to the pixel array. -/
def ar0144_clamp_crop (limits : ar0144_sensor_limits) (r : v4l2_rect) : v4l2_rect :=
  let max_w := u32 (u64 (u64 (limits.x.max + (2 ^ 64 - u64 limits.x.min)) + 1))
  let max_h := u32 (u64 (u64 (limits.y.max + (2 ^ 64 - u64 limits.y.min)) + 1))
  let top := u32_to_int (min_t (ALIGN2 r.top) max_h)
  let left := u32_to_int (min_t (ALIGN2 r.left) max_w)
  let width := min_t (u32 r.width) (u32 (max_w + (2 ^ 32 - int_to_u32 left)))
  let height := min_t (u32 r.height) (u32 (max_h + (2 ^ 32 - int_to_u32 top)))
  { left := left, top := top, width := width, height := height }

/-- Source lines 1986-1998 of `ar0144_set_selection`: while streaming the
new geometry is written under a grouped parameter hold. -/
def ar0144_live_crop (sensor : ar0144) : Int × ar0144 :=
  if sensor.is_streaming then
    and_then (ar0144_group_param_hold sensor) fun s =>
    and_then (ar0144_config_frame s) fun s =>
    ar0144_group_param_release s
  else (0, sensor)

/-- Source `ar0144_set_selection`: return code, device state, pad state and
the selection handed back to the caller. -/
def ar0144_set_selection (sensor : ar0144) (state : v4l2_subdev_state)
    (sel : v4l2_subdev_selection) :
    Int × ar0144 × v4l2_subdev_state × v4l2_subdev_selection :=
  if sel.target ≠ V4L2_SEL_TGT_CROP then (-EINVAL, sensor, state, sel)
  else if sensor.is_streaming = true ∧
      (sel.r.width ≠ sensor.crop.width ∨ sel.r.height ≠ sensor.crop.height) then
    (-EBUSY, sensor, state, sel)
  else
    let crop := ar0144_clamp_crop sensor.model.data.limits sel.r
    let s1 : ar0144 :=
      match sel.which with
      | V4L2_SUBDEV_FORMAT_TRY => sensor
      | V4L2_SUBDEV_FORMAT_ACTIVE => { sensor with crop := crop }
    let state1 : v4l2_subdev_state :=
      match sel.which with
      | V4L2_SUBDEV_FORMAT_TRY => { state with try_crop := crop }
      | V4L2_SUBDEV_FORMAT_ACTIVE => state
    let r := ar0144_live_crop s1
    if r.1 ≠ 0 then (r.1, r.2, state1, sel) else (0, r.2, state1, { sel with r := crop })

/-- The controls of `ar0144_s_ctrl` that set the frame timing. -/
inductive v4l2_ctrl_id where
  | V4L2_CID_VBLANK
  | V4L2_CID_HBLANK
deriving DecidableEq, Repr

open v4l2_ctrl_id

/-- Source `ar0144_s_ctrl`, blanking cases; `val` is `ctrl->val`. -/
def ar0144_s_ctrl (sensor : ar0144) (id : v4l2_ctrl_id) (val : Int) : Int × ar0144 :=
  match id with
  | V4L2_CID_VBLANK =>
    let r : Int × ar0144 :=
      if sensor.is_streaming then ar0144_group_param_hold sensor else (0, sensor)
    if r.1 ≠ 0 then r
    else
      let s1 : ar0144 := { r.2 with vblank := int_to_u32 val }
      let s2 : ar0144 := { s1 with vlen := ar0144_get_vlength s1 }
      if s2.is_streaming then
        and_then (ar0144_config_frame s2) fun s => ar0144_group_param_release s
      else (0, s2)
  | V4L2_CID_HBLANK =>
    let r : Int × ar0144 :=
      if sensor.is_streaming then ar0144_group_param_hold sensor else (0, sensor)
    if r.1 ≠ 0 then r
    else
      let s1 : ar0144 := { r.2 with hblank := int_to_u32 val }
      let s2 : ar0144 := { s1 with hlen := ar0144_get_hlength s1 }
      if s2.is_streaming then
        and_then (ar0144_config_frame s2) fun s => ar0144_group_param_release s
      else (0, s2)

/-- Source `ar0144_set_defaults`. -/
def ar0144_set_defaults (sensor : ar0144) : ar0144 :=
  let data := sensor.model.data
  let formats :=
    match sensor.model.chip with
    | AR0144 =>
      if sensor.model.color = AR0144_MODEL_MONOCHROME then ar0144_mono_formats
      else ar0144_col_formats
    | AR0234 =>
      if sensor.model.color = AR0144_MODEL_MONOCHROME then ar0234_mono_formats
      else ar0234_col_formats
  let last := formats.getLastD ⟨0, 0⟩
  let vblank := u32 data.limits.vblank.min
  { sensor with
    crop :=
      { left := u32_to_int data.def_offset_x
        top := u32_to_int data.def_offset_y
        width := data.def_width
        height := data.def_height }
    fmt :=
      { sensor.fmt with
        width := data.def_width
        height := data.def_height
        field := V4L2_FIELD_NONE
        colorspace := V4L2_COLORSPACE_SRGB
        code := last.code }
    formats := formats
    bpp := last.bpp
    w_scale := 1
    h_scale := 1
    hblank := u32 data.limits.hblank.min
    vblank := vblank
    hlen := u32 data.limits.hlen.min
    vlen := u32 (data.def_height + vblank)
    gains := { sensor.gains with red := 1000, greenr := 1000, greenb := 1000, blue := 1000,
                                 min_ref := 1000 } }

/-- One request of the frame-geometry interface: a `set_fmt` call or a
write of the vertical or horizontal blanking control. -/
inductive geom_op where
  | set_fmt (state : v4l2_subdev_state) (format : v4l2_subdev_format)
  | s_ctrl (id : v4l2_ctrl_id) (val : Int)

/-- Device state after one request (the return code is dropped). -/
def geom_step (sensor : ar0144) : geom_op → ar0144
  | geom_op.set_fmt state format => (ar0144_set_fmt sensor state format).2.1
  | geom_op.s_ctrl id val => (ar0144_s_ctrl sensor id val).2

/-- Device state after a sequence of requests. -/
def geom_run (sensor : ar0144) (ops : List geom_op) : ar0144 :=
  ops.foldl geom_step sensor

/-! ## Predicates used to state the PLL properties -/

/-- The divider and multiplier ranges shared by both chip tables, and the
size bounds on the VCO and word-clock limits that keep the 32 bit divisor
arithmetic meaningful. -/
def pll_limits_ok (l : ar0144_sensor_limits) : Prop :=
  l.div_lim = ⟨1, 63⟩ ∧ l.mul_lim = ⟨32, 254⟩ ∧ l.vt_div_lim = ⟨1, 16⟩ ∧
    l.vco_lim.max < 2 ^ 32 ∧ l.word_clk_lim.max ≤ 90000000

instance (l : ar0144_sensor_limits) : Decidable (pll_limits_ok l) := by
  unfold pll_limits_ok; infer_instance

/-- The operational divider of the candidate in the loop variables is in
range (source line 3199); candidates that fail here are skipped before any
frequency is computed. -/
def pll_guard (a : pll_args) (t : pll_sweep) : Prop :=
  u32 (t.vt_sys_div * t.op_multiplier) ≤ a.limits.vt_div_lim.max

instance (a : pll_args) (t : pll_sweep) : Decidable (pll_guard a t) := by
  unfold pll_guard; infer_instance

/-- The three frequency checks of the loop body (source lines 3206-3222):
VCO in range, word clock under the ceiling, pixel clock not above the
target. -/
def pll_checks (a : pll_args) (t : pll_sweep) : Prop :=
  (a.limits.vco_lim.min ≤ pll_vco a t ∧ pll_vco a t ≤ a.limits.vco_lim.max) ∧
    pll_word_clk a t ≤ a.limits.word_clk_lim.max ∧
    pll_pix_clk a t ≤ a.pix_target

instance (a : pll_args) (t : pll_sweep) : Decidable (pll_checks a t) := by
  unfold pll_checks; infer_instance

/-- The candidate in the loop variables gets through all checks that
precede the comparison with the best candidate so far. -/
def pll_passes (a : pll_args) (t : pll_sweep) : Prop :=
  pll_guard a t ∧ pll_checks a t

instance (a : pll_args) (t : pll_sweep) : Decidable (pll_passes a t) := by
  unfold pll_passes; infer_instance

/-- The configuration that the loop body stores for the candidate in the
loop variables. -/
def pll_store (a : pll_args) (t : pll_sweep) : ar0144_pll_config :=
  { t.pll with
    pre_pll_div := t.div
    pre_pll_mul := t.mul
    op_sys_div := u32 (t.op_multiplier * t.vt_sys_div)
    vt_sys_div := t.vt_sys_div
    vt_pix_div := t.vt_pix_div
    vco_freq := pll_vco a t
    pix_freq := pll_pix_clk a t
    ser_freq :=
      if a.bus_type = V4L2_MBUS_PARALLEL then pll_pix_clk a t
      else ar0144_clk_mul_div (pll_pix_clk a t) a.bpp (u32 (2 * a.lanes)) }

/-- Initial operational multiplier of `ar0144_calculate_pll`. -/
def pll_op_multiplier (sensor : ar0144) : Nat :=
  if sensor.model.chip = AR0144 then sensor.info.num_lanes else 2

/-- A number of loop iterations that `ar0144_calculate_pll` never exceeds
with the chip tables: one sweep of 63 pre-dividers, 9 system dividers and
the multipliers takes fewer than 258048 iterations, and every further sweep
halves the operational multiplier. -/
def pll_fuel (sensor : ar0144) : Nat :=
  (Nat.log 2 (pll_op_multiplier sensor) + 1) * 258048

/-- The loop variables at every entry into the second half of the loop body
of `ar0144_calculate_pll`, in sweep order. -/
def pll_sweep_points (sensor : ar0144) (pll : ar0144_pll_config)
    (ext_freq link_freq bpp : Nat) : List pll_sweep :=
  pll_visited (pll_setup sensor ext_freq link_freq bpp) (pll_fuel sensor)
    (pll_start sensor pll ext_freq link_freq bpp)

/-- The candidates of the sweep of `ar0144_calculate_pll`: the sweep points
whose operational divider is in range, so that the frequency checks are
applied to them. -/
def pll_candidates (sensor : ar0144) (pll : ar0144_pll_config)
    (ext_freq link_freq bpp : Nat) : List pll_sweep :=
  (pll_sweep_points sensor pll ext_freq link_freq bpp).filter
    (fun t => decide (pll_guard (pll_setup sensor ext_freq link_freq bpp) t))

/-- Pixel clock multiplier of `ar0144_calculate_pll`: the lane count on the
AR0234, 1 on the AR0144. -/
def pll_pix_multiplier (sensor : ar0144) : Nat :=
  if sensor.model.chip = AR0234 then sensor.info.num_lanes else 1

/-- Pixel clock of the candidate `(d, m, v)` as the specification gives it:
VCO `ext_freq * m / d`, word clock `VCO / (bpp * v)`, times the pixel clock
multiplier. -/
def pll_spec_pix (sensor : ar0144) (ext_freq bpp d m v : Nat) : Nat :=
  ext_freq * m / d / (bpp * v) * pll_pix_multiplier sensor

/-- The target pixel rate as the specification gives it: the link frequency
on the parallel bus, `link_freq * 2 * lanes / bpp` on the serial bus. -/
def pll_target_spec (bus_type : v4l2_mbus_type) (link_freq lanes bpp : Nat) : Nat :=
  if bus_type = V4L2_MBUS_PARALLEL then link_freq else link_freq * 2 * lanes / bpp

/-- An accepted candidate as the specification describes it: pre-divider,
even multiplier and system divider inside their ranges, VCO inside its
range, word clock not above the ceiling, pixel clock not above the
target. -/
def pll_spec_candidate (sensor : ar0144) (ext_freq link_freq bpp d m v : Nat) : Prop :=
  let l := sensor.model.data.limits
  (l.div_lim.min ≤ d ∧ d ≤ l.div_lim.max) ∧
    (l.mul_lim.min ≤ m ∧ m ≤ l.mul_lim.max ∧ m % 2 = 0) ∧
    (l.vt_div_lim.min ≤ v ∧ v ≤ l.vt_div_lim.max) ∧
    (l.vco_lim.min ≤ ext_freq * m / d ∧ ext_freq * m / d ≤ l.vco_lim.max) ∧
    ext_freq * m / d / (bpp * v) ≤ l.word_clk_lim.max ∧
    pll_spec_pix sensor ext_freq bpp d m v ≤
      pll_target_spec sensor.info.bus_type link_freq sensor.info.num_lanes bpp

instance (sensor : ar0144) (ext_freq link_freq bpp d m v : Nat) :
    Decidable (pll_spec_candidate sensor ext_freq link_freq bpp d m v) := by
  unfold pll_spec_candidate; infer_instance

/-- Zero-initialised `struct ar0144_pll_config` (an entry of the table
allocated by `ar0144_setup_pll`). -/
def pll_zero : ar0144_pll_config := ⟨0, 0, 0, 0, 0, 0, 0, 0, 0⟩

/-- A transport on which every transfer completes, with all registers zero. -/
def i2c_idle : i2c_client := ⟨fun _ => 0, fun _ => none, []⟩

/-- The device context as `ar0144_probe` leaves it before registration:
zero-initialised, with the model of the matched table entry, the bus
information parsed by `ar0144_of_probe` and the transport. -/
def ar0144_alloc (model : ar0144_model) (info : ar0144_businfo) (i2c : i2c_client) : ar0144 :=
  { fmt := ⟨0, 0, 0, 0, 0⟩
    crop := ⟨0, 0, 0, 0⟩
    bpp := 0
    w_scale := 0
    h_scale := 0
    vblank := 0
    hblank := 0
    hlen := 0
    vlen := 0
    embedded_data := false
    embedded_stat := false
    model := model
    info := info
    pll := []
    formats := []
    gains := ⟨⟨0, 0⟩, ⟨0, 0⟩, ⟨0, 0⟩, ⟨0, 0⟩, ⟨0, 0⟩, ⟨0, 0⟩, 0, 0, 0, 0, 0, 0⟩
    power_user := 0
    is_streaming := false
    trigger := false
    i2c := i2c }

/-- An AR0144 on the parallel bus; the PLL code sees one lane there. -/
def ar0144_on_parallel (link_freq : Nat) : ar0144 :=
  ar0144_alloc ar0144_mono ⟨V4L2_MBUS_PARALLEL, 0, link_freq, 1⟩ i2c_idle

/-- An AR0144 on the MIPI CSI-2 bus with `lanes` data lanes. -/
def ar0144_on_mipi (link_freq lanes : Nat) : ar0144 :=
  ar0144_alloc ar0144_mono ⟨V4L2_MBUS_CSI2_DPHY, 0, link_freq, lanes⟩ i2c_idle

/-- Values of the video-timing system divider that the sweep steps through:
1 and the even numbers up to 16. -/
def pll_vt_step (v : Nat) : Prop := v = 1 ∨ (v % 2 = 0 ∧ 2 ≤ v ∧ v ≤ 16)

instance (v : Nat) : Decidable (pll_vt_step v) := by
  unfold pll_vt_step; infer_instance

/-- Loop-head range of the sweep variables with the chip tables. -/
def pll_head (s : pll_sweep) : Prop :=
  1 ≤ s.div ∧ s.div ≤ 63 ∧ 32 ≤ s.mul ∧ s.mul ≤ 255 ∧ pll_vt_step s.vt_sys_div

/-- The grid of the sweep with the chip tables: pre-divider 1..63, system
divider 1 or even up to 16, even multiplier 32..254. -/
def pll_grid (d v m : Nat) : Prop :=
  1 ≤ d ∧ d ≤ 63 ∧ pll_vt_step v ∧ 32 ≤ m ∧ m ≤ 254 ∧ m % 2 = 0

instance (d v m : Nat) : Decidable (pll_grid d v m) := by
  unfold pll_grid; infer_instance

/-- The grid point `(d, v, m)` is not before the loop variables in sweep
order (pre-divider outermost, then system divider, then multiplier). -/
def pll_pos_le (s : pll_sweep) (d v m : Nat) : Prop :=
  s.div < d ∨ (s.div = d ∧ (s.vt_sys_div < v ∨ (s.vt_sys_div = v ∧ s.mul ≤ m)))

/-- Number of iterations left, at most, from the loop variables `s`. -/
def pll_measure (s : pll_sweep) : Nat :=
  Nat.log 2 s.op_multiplier * 258048 + (63 - s.div) * 4096 + (16 - s.vt_sys_div) * 256 +
    (256 - s.mul)

/-- A stored configuration: the values written by the loop body for a grid
point that passed the checks during pixel-divider pass `k`. -/
def pll_stored (a : pll_args) (op0 : Nat) (p : ar0144_pll_config) : Prop :=
  ∃ d m v k, pll_grid d v m ∧ (op0 ≤ 1 → k = 0) ∧ (k ≤ 1 ∨ a.bpp = 0) ∧
    pll_passes a ⟨d, m, v, a.bpp >>> k, op0 >>> k, 0, p⟩ ∧
    pll_store a ⟨d, m, v, a.bpp >>> k, op0 >>> k, 0, p⟩ = p

/-- Loop invariant of `ar0144_calculate_pll` with the chip tables; `op0`
is the initial operational multiplier. -/
def pll_inv (a : pll_args) (op0 : Nat) (s : pll_sweep) : Prop :=
  pll_head s ∧
    (∃ k, s.vt_pix_div = a.bpp >>> k ∧ s.op_multiplier = op0 >>> k ∧ (op0 ≤ 1 → k = 0) ∧
      (k ≤ 1 ∨ a.bpp = 0)) ∧
    s.diff_old ≤ a.pix_target ∧
    (s.pll.pre_pll_mul = 0 → s.diff_old = a.pix_target) ∧
    (s.pll.pre_pll_mul ≠ 0 →
      pll_stored a op0 s.pll ∧ s.pll.pix_freq + s.diff_old = a.pix_target ∧
        0 < s.pll.pix_freq)

/-- The frame lengths are inside the limits of the chip table. -/
def frame_in_limits (sensor : ar0144) : Prop :=
  sensor.model.data.limits.hlen.min ≤ sensor.hlen ∧
    sensor.hlen ≤ sensor.model.data.limits.hlen.max ∧
    sensor.model.data.limits.vlen.min ≤ sensor.vlen ∧
    sensor.vlen ≤ sensor.model.data.limits.vlen.max

/-- An AR0144 after `ar0144_set_defaults`: crop and format 1280x800, not
streaming. -/
def ar0144_registered : ar0144 :=
  ar0144_set_defaults (ar0144_on_parallel 74250000)

/-- Pad state with an empty try format and try crop. -/
def state_zero : v4l2_subdev_state := ⟨⟨0, 0, 0, 0, 0⟩, ⟨0, 0, 0, 0⟩⟩

/-- A request for the active format with the given size and the 12 bit
monochrome code. -/
def fmt_request (width height : Nat) : v4l2_subdev_format :=
  ⟨V4L2_SUBDEV_FORMAT_ACTIVE, ⟨width, height, MEDIA_BUS_FMT_Y12_1X12, 0, 0⟩⟩

/-- The factor `s` is the smallest one in {1, 2, 4, 8} with `C / s ≤ R`. -/
def skip_choice (C R s : Nat) : Prop :=
  s ∈ [1, 2, 4, 8] ∧ C / s ≤ R ∧ ∀ s1 ∈ [1, 2, 4, 8], C / s1 ≤ R → s ≤ s1

instance (C R s : Nat) : Decidable (skip_choice C R s) := by
  unfold skip_choice; infer_instance

/-- The registered AR0144 after its crop has been set to 4x4 at the origin
with `ar0144_set_selection`. -/
def ar0144_small_crop : ar0144 :=
  (ar0144_set_selection ar0144_registered state_zero
    ⟨V4L2_SUBDEV_FORMAT_ACTIVE, V4L2_SEL_TGT_CROP, ⟨0, 0, 4, 4⟩⟩).2.1

/-- The transport calls change nothing but the transport: `s1` is `s` with
another transport state. -/
def same_config (s s1 : ar0144) : Prop := s1 = { s with i2c := s1.i2c }

/-- The registered AR0144 while streaming. -/
def ar0144_streaming : ar0144 := { ar0144_registered with is_streaming := true }

def V4L2_SEL_TGT_CROP_DEFAULT : Nat := 1

/-! ## Streaming and power state machine -/

def BIT_SMIA_SER_DIS : Nat := 2 ^ 12
def BIT_FORCED_PLL_ON : Nat := 2 ^ 11
def BIT_MASK_BAD : Nat := 2 ^ 9
def BIT_GPI_EN : Nat := 2 ^ 8
def BIT_PARALLEL_EN : Nat := 2 ^ 7
def BIT_DRIVE_PINS : Nat := 2 ^ 6
def BIT_STREAM : Nat := 2 ^ 2
def AR0144_VT_PIX_CLK_DIV : Nat := 0x302a
def AR0144_VT_SYS_CLK_DIV : Nat := 0x302c
def AR0144_PRE_PLL_CLK_DIV : Nat := 0x302e
def AR0144_PLL_MUL : Nat := 0x3030
def AR0144_OP_PIX_CLK_DIV : Nat := 0x3036
def AR0144_OP_SYS_CLK_DIV : Nat := 0x3038
def AR0144_FRAME_STATUS : Nat := 0x303c
def BIT_STANDBY_STATUS : Nat := 2 ^ 1
def AR0144_DIGITAL_TEST : Nat := 0x30b0
def BIT_MONOCHROME_OP : Nat := 2 ^ 7
def AR0144_DATA_FORMAT_BITS : Nat := 0x31ac
def AR0144_SER_CTRL_STAT : Nat := 0x31c6
def BIT_FRAMER_TEST_MODE : Nat := 2 ^ 7
def AR0144_SERIAL_TEST : Nat := 0x31d8
def AR0144_MIPI_CNTRL : Nat := 0x3354
def AR0144_TEST_LANE_0 : Nat := 0x1 <<< 8
def AR0144_TEST_LANE_1 : Nat := 0x2 <<< 8
def AR0144_TEST_MODE_LP11 : Nat := 0x1 <<< 4
def AR0144_CSI2_DATA_RAW8 : Nat := 0x2a
def AR0144_CSI2_DATA_RAW10 : Nat := 0x2b
def AR0144_CSI2_DATA_RAW12 : Nat := 0x2c

/-- Source `ar0144_start_stream`. -/
def ar0144_start_stream (sensor : ar0144) : Int × ar0144 :=
  ar0144_update_bits sensor AR0144_RESET_REGISTER
    (BIT_STREAM ||| BIT_MASK_BAD ||| BIT_GPI_EN ||| BIT_FORCED_PLL_ON)
    (BIT_STREAM ||| BIT_MASK_BAD)

/-- Source `ar0144_start_trigger`. -/
def ar0144_start_trigger (sensor : ar0144) : Int × ar0144 :=
  ar0144_update_bits sensor AR0144_RESET_REGISTER
    (BIT_STREAM ||| BIT_MASK_BAD ||| BIT_GPI_EN ||| BIT_FORCED_PLL_ON)
    (BIT_MASK_BAD ||| BIT_GPI_EN ||| BIT_FORCED_PLL_ON)

/-- Source `ar0144_mipi_enter_lp11`. -/
def ar0144_mipi_enter_lp11 (sensor : ar0144) : Int × ar0144 :=
  let val0 := AR0144_TEST_MODE_LP11 ||| AR0144_TEST_LANE_0
  let val := if sensor.info.num_lanes = 2 then val0 ||| AR0144_TEST_LANE_1 else val0
  and_then (ar0144_write sensor AR0144_SERIAL_TEST val) fun s =>
  and_then (ar0144_set_bits s AR0144_SER_CTRL_STAT BIT_FRAMER_TEST_MODE) fun s =>
  ar0144_update_bits s AR0144_RESET_REGISTER (BIT_STREAM ||| BIT_SMIA_SER_DIS) BIT_STREAM

/-- The destination `u16 val` of a call `ar0144_read(sensor, reg, &val)`
whose result the caller does not check: the value read, or the previous
content of `val` when the read failed. -/
def read_into (val : Nat) (r : Except Int Nat) : Nat :=
  match r with
  | Except.ok v => v
  | Except.error _ => val

/-- The polling loop of `ar0144_enter_standby` (source lines 1312-1329) with
`timeout` rounds left; `val` is the content of the local `val` on entry. The
result is the content of `val` when the loop is left and the device. -/
def standby_poll : Nat → Nat → ar0144 → Nat × ar0144
  | 0, val, sensor => (val, sensor)
  | timeout + 1, val, sensor =>
    let r := ar0144_read sensor AR0144_FRAME_STATUS
    let val1 := read_into val r.1
    if val1 &&& BIT_STANDBY_STATUS ≠ 0 then (val1, r.2)
    else if timeout = 0 then (val1, r.2)
    else standby_poll timeout val1 r.2

/-- Source `ar0144_enter_standby`. The local `val` is not initialised in the
source; `val0` is its content on entry. -/
def ar0144_enter_standby (sensor : ar0144) (val0 : Nat) : Int × ar0144 :=
  and_then (ar0144_clear_bits sensor AR0144_RESET_REGISTER
    (BIT_STREAM ||| BIT_GPI_EN ||| BIT_FORCED_PLL_ON)) fun s =>
  let p := standby_poll 1000 val0 s
  let r := ar0144_read p.2 AR0144_RESET_REGISTER
  let val := read_into p.1 r.1
  and_then
    (if val &&& BIT_SMIA_SER_DIS = 0 then
      ar0144_set_bits r.2 AR0144_RESET_REGISTER BIT_SMIA_SER_DIS
    else (0, r.2)) fun s =>
  if s.info.bus_type = V4L2_MBUS_CSI2_DPHY then
    ar0144_clear_bits s AR0144_SER_CTRL_STAT BIT_FRAMER_TEST_MODE
  else (0, s)

/-- Source `bpp_to_index`: the index of the first table entry with the given
bit depth, else `num_fmts - 1`. -/
def bpp_to_index (sensor : ar0144) (bpp : Nat) : Nat :=
  match sensor.formats.findIdx? (fun f => f.bpp = bpp) with
  | some index => index
  | none => sensor.formats.length - 1

/-- Source `ar0144_config_pll`: the six clock registers from the PLL table
entry of the active bit depth. -/
def ar0144_config_pll (sensor : ar0144) : Int × ar0144 :=
  let pll := sensor.pll.getD (bpp_to_index sensor sensor.bpp) pll_zero
  and_then (ar0144_write sensor AR0144_VT_PIX_CLK_DIV pll.vt_pix_div) fun s =>
  and_then (ar0144_write s AR0144_VT_SYS_CLK_DIV pll.vt_sys_div) fun s =>
  and_then (ar0144_write s AR0144_PRE_PLL_CLK_DIV pll.pre_pll_div) fun s =>
  and_then (ar0144_write s AR0144_PLL_MUL pll.pre_pll_mul) fun s =>
  and_then (ar0144_write s AR0144_OP_PIX_CLK_DIV pll.op_pix_div) fun s =>
  ar0144_write s AR0144_OP_SYS_CLK_DIV pll.op_sys_div

/-- Source `ar0144_config_parallel`. -/
def ar0144_config_parallel (sensor : ar0144) : Int × ar0144 :=
  and_then (ar0144_write sensor AR0144_DATA_FORMAT_BITS
    (u32 (sensor.bpp <<< 8) ||| sensor.bpp)) fun s =>
  and_then (ar0144_set_bits s AR0144_RESET_REGISTER
    (BIT_SMIA_SER_DIS ||| BIT_PARALLEL_EN ||| BIT_DRIVE_PINS)) fun s =>
  if s.trigger then ar0144_start_trigger s else ar0144_start_stream s

/-- Source `ar0144_config_mipi`. -/
def ar0144_config_mipi (sensor : ar0144) : Int × ar0144 :=
  let data_type : Option Nat :=
    if sensor.bpp = 8 then some AR0144_CSI2_DATA_RAW8
    else if sensor.bpp = 10 then some AR0144_CSI2_DATA_RAW10
    else if sensor.bpp = 12 then some AR0144_CSI2_DATA_RAW12
    else none
  match data_type with
  | none => (-EINVAL, sensor)
  | some val =>
    and_then (ar0144_write sensor AR0144_MIPI_CNTRL val) fun s =>
    and_then (ar0144_write s AR0144_DATA_FORMAT_BITS
      (u32 (s.bpp <<< 8) ||| s.bpp)) fun s =>
    and_then (ar0144_clear_bits s AR0144_RESET_REGISTER
      (BIT_PARALLEL_EN ||| BIT_DRIVE_PINS)) fun s =>
    and_then (if s.trigger then ar0144_start_trigger s else ar0144_start_stream s) fun s =>
    ar0144_clear_bits s AR0144_RESET_REGISTER BIT_SMIA_SER_DIS

/-- Source `ar0144_stream_on`; `val0` is the content of the uninitialised
local of `ar0144_enter_standby`. -/
def ar0144_stream_on (sensor : ar0144) (val0 : Nat) : Int × ar0144 :=
  and_then
    (if sensor.info.bus_type = V4L2_MBUS_CSI2_DPHY then ar0144_enter_standby sensor val0
    else (0, sensor)) fun s =>
  and_then (ar0144_config_pll s) fun s =>
  and_then (ar0144_config_frame s) fun s =>
  and_then (ar0144_update_bits s AR0144_DIGITAL_TEST BIT_MONOCHROME_OP
    (if s.model.color = AR0144_MODEL_MONOCHROME then BIT_MONOCHROME_OP else 0)) fun s =>
  and_then
    (if s.info.bus_type = V4L2_MBUS_PARALLEL then ar0144_config_parallel s
    else ar0144_config_mipi s) fun s =>
  (0, { s with is_streaming := true })

/-- Source `ar0144_stream_off`. -/
def ar0144_stream_off (sensor : ar0144) (val0 : Nat) : Int × ar0144 :=
  let r := ar0144_enter_standby sensor val0
  (r.1, { r.2 with is_streaming := false })

/-- Source `ar0144_s_stream`; `enable` is the C `int` argument. -/
def ar0144_s_stream (sensor : ar0144) (val0 : Nat) (enable : Int) : Int × ar0144 :=
  if enable ≠ 0 ∧ sensor.is_streaming = true then (-EBUSY, sensor)
  else if enable = 0 ∧ sensor.is_streaming = false then (0, sensor)
  else if enable ≠ 0 then ar0144_stream_on sensor val0
  else ar0144_stream_off sensor val0

/-- Source `ar0144_power_on`: a stub that returns 0. -/
def ar0144_power_on (_sensor : ar0144) : Int := 0

/-- Source `ar0144_s_power`; `on_` is the C `int` argument `on`
(`ar0144_power_off` is an empty function). -/
def ar0144_s_power (sensor : ar0144) (val0 : Nat) (on_ : Int) : Int × ar0144 :=
  if on_ ≠ 0 then
    if sensor.power_user > 0 then (0, { sensor with power_user := sensor.power_user + 1 })
    else if ar0144_power_on sensor ≠ 0 then (ar0144_power_on sensor, sensor)
    else
      let r : Int × ar0144 :=
        if sensor.info.bus_type = V4L2_MBUS_CSI2_DPHY ∧ sensor.is_streaming = false then
          ar0144_mipi_enter_lp11 sensor
        else (0, sensor)
      if r.1 ≠ 0 then r else (0, { r.2 with power_user := r.2.power_user + 1 })
  else
    let s1 : ar0144 := { sensor with power_user := sensor.power_user - 1 }
    if s1.power_user < 0 then (-EINVAL, s1)
    else if s1.power_user = 0 then (0, (ar0144_enter_standby s1 val0).2)
    else (0, s1)

/-- A transport on which every transfer fails with `- EIO`. -/
def i2c_dead : i2c_client := ⟨fun _ => 0, fun _ => some (- EIO), []⟩

/-- The registered AR0144 behind a transport on which every transfer fails. -/
def ar0144_dead_bus : ar0144 := { ar0144_registered with i2c := i2c_dead }

/-! ## Gain model -/

def AR0144_GREENR_GAIN : Nat := 0x3056
def AR0144_BLUE_GAIN : Nat := 0x3058
def AR0144_RED_GAIN : Nat := 0x305a
def AR0144_GREENB_GAIN : Nat := 0x305c
def AR0144_GLOBAL_GAIN : Nat := 0x305e
def AR0144_ANALOG_GAIN : Nat := 0x3060

/-- Source macro `BIT_COARSE_GAIN(n)`: `(n) << 4` on `unsigned int`. -/
def BIT_COARSE_GAIN (n : Nat) : Nat := u32 (n <<< 4)

/-- Source macro `BIT_COARSE_GAIN_MASK`: `GENMASK(6, 4)`. -/
def BIT_COARSE_GAIN_MASK : Nat := 0x70

/-- Source macro `BIT_FINE_GAIN(n)`. -/
def BIT_FINE_GAIN (n : Nat) : Nat := n

def BIT_FINE_GAIN_MASK : Nat := 0xf

/-- Kernel `DIV_ROUND_CLOSEST(x, divisor)` for `unsigned int` operands:
`(x + divisor / 2) / divisor`. -/
def DIV_ROUND_CLOSEST (x divisor : Nat) : Nat := u32 (x + divisor / 2) / divisor

/-- The loop of `ar0144_set_analogue_gain` (source lines 2092-2094): the
first `coarse < 5` with `val < (1u << (coarse + 1)) * 1000`, else 5. -/
def again_coarse (val : Nat) : Nat :=
  ((List.range 5).find? (fun coarse => val < u32 (u32 (1 <<< (coarse + 1)) * 1000))).getD 5

/-- Source lines 2096-2100 of `ar0144_set_analogue_gain`: the fine field for
the value normalised by the coarse step. -/
def again_fine (val coarse : Nat) : Nat :=
  let val := val / u32 (1 <<< coarse)
  let fine := DIV_ROUND_CLOSEST (u32 (32 * u32 (val + (2 ^ 32 - 1000)))) val
  if fine > 15 then 15 else fine

/-- Source `ar0144_set_analogue_gain`: the applied gain that is returned and
the device after the register update (whose result the source ignores).
`32 - fine` cannot wrap because `fine` is at most 15. -/
def ar0144_set_analogue_gain (sensor : ar0144) (val : Nat) : Int × ar0144 :=
  let coarse := again_coarse val
  let fine := again_fine val coarse
  let r := ar0144_update_bits sensor AR0144_ANALOG_GAIN
    (BIT_COARSE_GAIN_MASK ||| BIT_FINE_GAIN_MASK) (BIT_COARSE_GAIN coarse ||| BIT_FINE_GAIN fine)
  (u32_to_int (u32 (u32 (1000 * u32 (1 <<< coarse)) * 32) / (32 - fine)), r.2)

/-- The quotient `x / d` rounded to the nearest integer, halves upwards:
the `round` of the analog gain encoding in the specification. -/
def spec_round_nearest (x d : Nat) : Nat := (2 * x + d) / (2 * d)

/-- The gains `1000 * 2^c * 32 / (32 - f)` that coarse step `c` in 0..4 and
fine step `f` in 0..15 can represent, in the order of `(c, f)`. -/
def again_levels : List Nat :=
  (List.range 5).flatMap fun c => (List.range 16).map fun f => 1000 * 2 ^ c * 32 / (32 - f)

/-- The pairs of neighbours in the increasing list `again_levels`: the
adjacent representable gains. -/
def again_steps : List (Nat × Nat) := again_levels.zip again_levels.tail

/-- The digital gain controls that `ar0144_s_ctrl` hands to
`ar0144_set_digital_gain`. -/
inductive v4l2_gain_id where
  | V4L2_CID_DIGITAL_GAIN
  | V4L2_CID_X_DIGITAL_GAIN_RED
  | V4L2_CID_X_DIGITAL_GAIN_GREENR
  | V4L2_CID_X_DIGITAL_GAIN_BLUE
  | V4L2_CID_X_DIGITAL_GAIN_GREENB
deriving DecidableEq, Repr

open v4l2_gain_id

/-- The argument `ctrl` of `ar0144_set_digital_gain` points to the control
object of its id, one of the controls reached through `sensor->gains`, and
`ctrl->val` is the value being set: the object of `id` with `val` stored. -/
def gain_ctrl_store (g : ar0144_gains) (id : v4l2_gain_id) (val : Int) : ar0144_gains :=
  match id with
  | V4L2_CID_DIGITAL_GAIN => { g with dig_ctrl := { g.dig_ctrl with val := val } }
  | V4L2_CID_X_DIGITAL_GAIN_RED => { g with red_ctrl := { g.red_ctrl with val := val } }
  | V4L2_CID_X_DIGITAL_GAIN_GREENR => { g with greenr_ctrl := { g.greenr_ctrl with val := val } }
  | V4L2_CID_X_DIGITAL_GAIN_BLUE => { g with blue_ctrl := { g.blue_ctrl with val := val } }
  | V4L2_CID_X_DIGITAL_GAIN_GREENB => { g with greenb_ctrl := { g.greenb_ctrl with val := val } }

/-- Source `ar0144_get_min_color_gain`: the channel control values as
`unsigned int`, scanned for the index of the first smallest one. -/
def ar0144_get_min_color_gain (sensor : ar0144) : Nat :=
  let gains : List Nat :=
    [int_to_u32 sensor.gains.red_ctrl.val, int_to_u32 sensor.gains.greenr_ctrl.val,
      int_to_u32 sensor.gains.greenb_ctrl.val, int_to_u32 sensor.gains.blue_ctrl.val]
  let min_idx := (List.range 4).foldl
    (fun min_idx i => if gains.getD i 0 < gains.getD min_idx 0 then i else min_idx) 0
  gains.getD min_idx 0

/-- The register value `(coarse << 7) | fine` of a digital gain held in an
`unsigned int`: `coarse = gain / 1000`, `fine = (gain % 1000) * 128 / 1000`. -/
def dgain_code (gain : Nat) : Nat :=
  u32 ((gain / 1000) <<< 7) ||| (u32 ((gain % 1000) * 128) / 1000)

/-- The register value computed from `ctrl->val` on entry of
`ar0144_set_digital_gain` (source lines 2135-2136): the division and the
remainder are those of C on `int`, the results are stored in
`unsigned int`. -/
def dgain_code_ctrl (val : Int) : Nat :=
  u32 (int_to_u32 (Int.tdiv val 1000) <<< 7) |||
    int_to_u32 (Int.tdiv (Int.tmod val 1000 * 128) 1000)

/-- Source lines 2146-2148 (and the three copies for the other channels):
the saved channel gain scaled by `ctrl->val / min_ref`, clamped to
[1000, 15999]. A `min_ref` of zero, on which the C division traps, is
outside of the model. -/
def dgain_scale (saved : Nat) (val : Int) (min_ref : Nat) : Nat :=
  clamp_t (u32 (saved * int_to_u32 val) / min_ref) 1000 15999

/-- Source lines 2146-2157: the red channel of a global request. -/
def dgain_fan_red (sensor : ar0144) (val : Int) : Int × ar0144 :=
  let gain := dgain_scale sensor.gains.red val sensor.gains.min_ref
  let r := ar0144_write sensor AR0144_RED_GAIN (dgain_code gain)
  if r.1 ≠ 0 then r
  else (0, { r.2 with gains := { r.2.gains with red_ctrl := ⟨u32_to_int gain, u32_to_int gain⟩ } })

/-- Source lines 2159-2170: the green-red channel of a global request. -/
def dgain_fan_greenr (sensor : ar0144) (val : Int) : Int × ar0144 :=
  let gain := dgain_scale sensor.gains.greenr val sensor.gains.min_ref
  let r := ar0144_write sensor AR0144_GREENR_GAIN (dgain_code gain)
  if r.1 ≠ 0 then r
  else
    (0, { r.2 with
      gains := { r.2.gains with greenr_ctrl := ⟨u32_to_int gain, u32_to_int gain⟩ } })

/-- Source lines 2172-2183: the green-blue channel of a global request. -/
def dgain_fan_greenb (sensor : ar0144) (val : Int) : Int × ar0144 :=
  let gain := dgain_scale sensor.gains.greenb val sensor.gains.min_ref
  let r := ar0144_write sensor AR0144_GREENB_GAIN (dgain_code gain)
  if r.1 ≠ 0 then r
  else
    (0, { r.2 with
      gains := { r.2.gains with greenb_ctrl := ⟨u32_to_int gain, u32_to_int gain⟩ } })

/-- Source lines 2185-2196: the blue channel of a global request. -/
def dgain_fan_blue (sensor : ar0144) (val : Int) : Int × ar0144 :=
  let gain := dgain_scale sensor.gains.blue val sensor.gains.min_ref
  let r := ar0144_write sensor AR0144_BLUE_GAIN (dgain_code gain)
  if r.1 ≠ 0 then r
  else (0, { r.2 with gains := { r.2.gains with blue_ctrl := ⟨u32_to_int gain, u32_to_int gain⟩ } })

/-- Source lines 2226-2240, the second `switch` of `ar0144_set_digital_gain`
after a channel write: the channel values are saved, and the smallest one
becomes the reference and the value of the global control. -/
def dgain_save_channels (sensor : ar0144) : ar0144 :=
  let gain_min := ar0144_get_min_color_gain sensor
  { sensor with
    gains :=
      { sensor.gains with
        red := int_to_u32 sensor.gains.red_ctrl.val
        greenr := int_to_u32 sensor.gains.greenr_ctrl.val
        greenb := int_to_u32 sensor.gains.greenb_ctrl.val
        blue := int_to_u32 sensor.gains.blue_ctrl.val
        min_ref := gain_min
        dig_ctrl := ⟨u32_to_int gain_min, u32_to_int gain_min⟩ } }

/-- The register of a colour channel control. -/
def dgain_channel_reg : v4l2_gain_id → Nat
  | V4L2_CID_DIGITAL_GAIN => AR0144_GLOBAL_GAIN
  | V4L2_CID_X_DIGITAL_GAIN_RED => AR0144_RED_GAIN
  | V4L2_CID_X_DIGITAL_GAIN_GREENR => AR0144_GREENR_GAIN
  | V4L2_CID_X_DIGITAL_GAIN_BLUE => AR0144_BLUE_GAIN
  | V4L2_CID_X_DIGITAL_GAIN_GREENB => AR0144_GREENB_GAIN

/-- Source `ar0144_set_digital_gain`; `id` is `ctrl->id` and `val` is
`ctrl->val`. The control framework commits `cur.val` of the addressed
control after the call, which is not part of this function. -/
def ar0144_set_digital_gain (sensor : ar0144) (id : v4l2_gain_id) (val : Int) :
    Int × ar0144 :=
  let s0 : ar0144 := { sensor with gains := gain_ctrl_store sensor.gains id val }
  match id with
  | V4L2_CID_DIGITAL_GAIN =>
    if s0.model.color = AR0144_MODEL_MONOCHROME then
      ar0144_write s0 AR0144_GLOBAL_GAIN (dgain_code_ctrl val)
    else
      and_then (dgain_fan_red s0 val) fun s =>
      and_then (dgain_fan_greenr s val) fun s =>
      and_then (dgain_fan_greenb s val) fun s =>
      dgain_fan_blue s val
  | _ =>
    and_then (ar0144_write s0 (dgain_channel_reg id) (dgain_code_ctrl val)) fun s =>
    (0, dgain_save_channels s)

/-- Source `ar0144_create_ctrls`, the gain controls: every control starts
at the default of its `ar0144_ctrls` entry (1000 for the digital gains, 2000
for the analogue gain), the channel controls are kept in `sensor->gains`
only on colour sensors, and the maximum of the analogue gain comes from the
chip table. -/
def ar0144_create_ctrls (sensor : ar0144) : ar0144 :=
  let max_again :=
    if sensor.info.bus_type = V4L2_MBUS_PARALLEL then sensor.model.data.max_parallel_again
    else sensor.model.data.max_mipi_again
  let g : ar0144_gains :=
    { sensor.gains with max_again := max_again, ana_ctrl := ⟨2000, 2000⟩, dig_ctrl := ⟨1000, 1000⟩ }
  let g : ar0144_gains :=
    if sensor.model.color = AR0144_MODEL_COLOR then
      { g with red_ctrl := ⟨1000, 1000⟩, greenb_ctrl := ⟨1000, 1000⟩,
               greenr_ctrl := ⟨1000, 1000⟩, blue_ctrl := ⟨1000, 1000⟩ }
    else g
  { sensor with gains := g }

/-- Runs a sequence of digital gain writes; `none` as soon as one of them
returns an error. -/
def dgain_run (sensor : ar0144) : List (v4l2_gain_id × Int) → Option ar0144
  | [] => some sensor
  | op :: ops =>
    let r := ar0144_set_digital_gain sensor op.1 op.2
    if r.1 ≠ 0 then none else dgain_run r.2 ops

/-- A colour AR0144 on the parallel bus after `ar0144_set_defaults` and
`ar0144_create_ctrls`, as `ar0144_probe` leaves it. -/
def ar0144_colour : ar0144 :=
  ar0144_create_ctrls
    (ar0144_set_defaults (ar0144_alloc ar0144_col ⟨V4L2_MBUS_PARALLEL, 0, 74250000, 1⟩ i2c_idle))

/-- The state that the digital gain writes keep on a colour sensor: the
channel controls and the saved channel values are inside the control range
[1000, 15999], the global control holds the smallest channel control value
and `min_ref` the smallest saved value. -/
def dgain_inv (s : ar0144) : Prop :=
  s.model.color = AR0144_MODEL_COLOR ∧
  ((1000 ≤ s.gains.red_ctrl.val ∧ s.gains.red_ctrl.val ≤ 15999) ∧
    (1000 ≤ s.gains.greenr_ctrl.val ∧ s.gains.greenr_ctrl.val ≤ 15999) ∧
    (1000 ≤ s.gains.greenb_ctrl.val ∧ s.gains.greenb_ctrl.val ≤ 15999) ∧
    (1000 ≤ s.gains.blue_ctrl.val ∧ s.gains.blue_ctrl.val ≤ 15999)) ∧
  ((1000 ≤ s.gains.red ∧ s.gains.red ≤ 15999) ∧
    (1000 ≤ s.gains.greenr ∧ s.gains.greenr ≤ 15999) ∧
    (1000 ≤ s.gains.greenb ∧ s.gains.greenb ≤ 15999) ∧
    (1000 ≤ s.gains.blue ∧ s.gains.blue ≤ 15999)) ∧
  s.gains.dig_ctrl.val =
    min (min (min s.gains.red_ctrl.val s.gains.greenr_ctrl.val) s.gains.greenb_ctrl.val)
      s.gains.blue_ctrl.val ∧
  s.gains.min_ref = min (min (min s.gains.red s.gains.greenr) s.gains.greenb) s.gains.blue

/-- The colour AR0144 after the digital gain writes red := 3000,
global := 2000 and green-red := 1500. -/
def ar0144_colour_tuned : ar0144 :=
  (ar0144_set_digital_gain
    (ar0144_set_digital_gain
      (ar0144_set_digital_gain ar0144_colour V4L2_CID_X_DIGITAL_GAIN_RED 3000).2
      V4L2_CID_DIGITAL_GAIN 2000).2
    V4L2_CID_X_DIGITAL_GAIN_GREENR 1500).2

/-- A transport with all registers zero on which the transfer number `n`
(counted from zero) fails with `- EIO` and every other one completes. -/
def i2c_fail_at (n : Nat) : i2c_client :=
  ⟨fun _ => 0, fun k => if k = n then some (- EIO) else none, []⟩

/-- The streaming AR0144 behind a transport whose third transfer fails: the
read and the write of a grouped parameter hold complete, the first geometry
write does not. -/
def ar0144_streaming_glitch : ar0144 := { ar0144_streaming with i2c := i2c_fail_at 2 }

/-- Kernel `div_u64`: a 64 bit dividend by a 32 bit divisor; `none` stands
for the division by zero. -/
def div_u64 (dividend divisor : Nat) : Option Nat :=
  if u32 divisor = 0 then none else some (u64 dividend / u32 divisor)

/-- Source `ar0144_vv_set_fps`, line 1003: the frame rate in tenths of a
frame per second from the fixed point argument. -/
def vv_fps_scaled (arg : Nat) : Nat := u32 (u32 arg * 10) / 1024

/-- Source `ar0144_vv_set_fps`, line 1007: the divisor `fps * sensor->hlen`
of the division that gives the frame length. -/
def vv_fps_divisor (sensor : ar0144) (arg : Nat) : Nat :=
  u32 (vv_fps_scaled arg * sensor.hlen)

/-- Source `ar0144_vv_set_fps`, lines 993-1000: `min_fps` and `max_fps`. -/
def vv_fps_range (sensor : ar0144) : Option (Nat × Nat) :=
  let limits := sensor.model.data.limits
  let pix_freq := u64 (sensor.pll.getD (bpp_to_index sensor sensor.bpp) pll_zero).pix_freq
  (div_u64 (pix_freq * 10)
      (u32 (sensor.fmt.height + u32 (limits.vblank.max * sensor.hlen)))).bind fun min_fps =>
  (div_u64 (pix_freq * 10)
      (u32 (sensor.fmt.height + u32 (limits.vblank.min * sensor.hlen)))).bind fun max_fps =>
  some (u32 min_fps, u32 max_fps)

/-- Source `ar0144_vv_set_fps` up to the call of `__v4l2_ctrl_s_ctrl`: the
return code and the vertical blanking handed to the control framework, or
`none` when a division has a zero divisor. The value of the `clamp_t`
expression on line 1005 is discarded by the source, so the frame rate
reaches the division unclamped. -/
def ar0144_vv_set_fps (sensor : ar0144) (arg : Nat) : Option (Int × Nat) :=
  let pix_freq := u64 (sensor.pll.getD (bpp_to_index sensor sensor.bpp) pll_zero).pix_freq
  (vv_fps_range sensor).bind fun range =>
  let fps := vv_fps_scaled arg
  let _clamped := clamp_t fps range.1 range.2
  (div_u64 (pix_freq * 10) (u32 (fps * sensor.hlen))).bind fun vlen =>
  let vblank := u32 (u32 vlen + (2 ^ 32 - u32 sensor.fmt.height))
  some (0, vblank)

/-- The registered AR0144 with a PLL table whose entries run the pixel
clock at 64 MHz. -/
def ar0144_clocked : ar0144 :=
  { ar0144_registered with
    pll := List.replicate 3 { pll_zero with pix_freq := 64000000 } }

/-- Ghost counter for the loop of `ar0144_calculate_pll` run from `s`: the
number of iterations that find the pre-divider range exhausted and restart
the sweep (source lines 3186-3197 executed to the end), that is, the number
of passes over the pre-divider range that follow the current one. -/
def pll_restarts (a : pll_args) : Nat → pll_sweep → Nat
  | 0, _ => 0
  | fuel + 1, s =>
    if s.div ≤ a.limits.div_lim.max then
      match pll_advance a s with
      | none => 0
      | some t =>
        (if (pll_carry_vt a (pll_carry_mul a (pll_round_mul s))).div > a.limits.div_lim.max
          then 1 else 0) + pll_restarts a fuel (pll_try a t)
    else 0

/-- An AR0144 context with four MIPI lanes, a lane count above the
`max_lanes = 2` that `ar0144_parse_mipi_props` accepts for this chip. -/
def ar0144_four_lanes : ar0144 := ar0144_on_mipi 384000000 4

/-! ## Properties -/

section pll_body

theorem u32_of_lt {n : Nat} (h : n < 2 ^ 32) : u32 n = n := Nat.mod_eq_of_lt h

theorem u32_le (n : Nat) : u32 n ≤ n := Nat.mod_le _ _

theorem u64_le (n : Nat) : u64 n ≤ n := Nat.mod_le _ _

theorem clk_mul_div_le (freq mul div : Nat) : ar0144_clk_mul_div freq mul div ≤ freq * mul / div := by
  unfold ar0144_clk_mul_div
  split
  · exact Nat.zero_le _
  · exact Nat.div_le_div_right (u64_le _)

/-- The second half of the loop body either skips the candidate or stores
it; it stores exactly when the candidate passes the checks and is strictly
closer to the target than the best one so far. -/
theorem pll_try_spec (a : pll_args) (t : pll_sweep) :
    (pll_try a t).div = t.div ∧ (pll_try a t).mul = u32 (t.mul + 1) ∧
    (pll_try a t).vt_sys_div = t.vt_sys_div ∧ (pll_try a t).vt_pix_div = t.vt_pix_div ∧
    (pll_try a t).op_multiplier = t.op_multiplier ∧
    ((pll_passes a t ∧ a.pix_target - pll_pix_clk a t < t.diff_old ∧
        (pll_try a t).diff_old = a.pix_target - pll_pix_clk a t ∧
        (pll_try a t).pll = pll_store a t) ∨
      (¬ (pll_passes a t ∧ a.pix_target - pll_pix_clk a t < t.diff_old) ∧
        (pll_try a t).diff_old = t.diff_old ∧ (pll_try a t).pll = t.pll)) := by
  unfold pll_try pll_passes pll_guard pll_checks pll_store pll_pix_clk pll_word_clk pll_vco
  simp only []
  split_ifs <;> simp_all <;> omega

/-- Fields that a step of the first half of the loop body leaves alone. -/
theorem pll_round_mul_spec (s : pll_sweep) (h : s.mul ≤ 255) :
    (pll_round_mul s).div = s.div ∧ (pll_round_mul s).vt_sys_div = s.vt_sys_div ∧
    (pll_round_mul s).vt_pix_div = s.vt_pix_div ∧
    (pll_round_mul s).op_multiplier = s.op_multiplier ∧
    (pll_round_mul s).diff_old = s.diff_old ∧ (pll_round_mul s).pll = s.pll ∧
    ((pll_round_mul s).mul = s.mul ∧ s.mul % 2 = 0 ∨
      (pll_round_mul s).mul = s.mul + 1 ∧ s.mul % 2 = 1) := by
  have e : u32 (s.mul + 1) = s.mul + 1 := u32_of_lt (by omega)
  unfold pll_round_mul
  split_ifs with h1
  · exact ⟨rfl, rfl, rfl, rfl, rfl, rfl, Or.inr ⟨e, by omega⟩⟩
  · exact ⟨rfl, rfl, rfl, rfl, rfl, rfl, Or.inl ⟨rfl, by omega⟩⟩

theorem pll_carry_mul_spec (a : pll_args) (hm : a.limits.mul_lim = ⟨32, 254⟩) (s : pll_sweep)
    (h : s.vt_sys_div ≤ 16) :
    (pll_carry_mul a s).div = s.div ∧ (pll_carry_mul a s).vt_pix_div = s.vt_pix_div ∧
    (pll_carry_mul a s).op_multiplier = s.op_multiplier ∧
    (pll_carry_mul a s).diff_old = s.diff_old ∧ (pll_carry_mul a s).pll = s.pll ∧
    (s.mul ≤ 254 ∧ (pll_carry_mul a s).mul = s.mul ∧
        (pll_carry_mul a s).vt_sys_div = s.vt_sys_div ∨
      254 < s.mul ∧ (pll_carry_mul a s).mul = 32 ∧
        ((pll_carry_mul a s).vt_sys_div = 2 ∧ s.vt_sys_div = 1 ∨
          (pll_carry_mul a s).vt_sys_div = s.vt_sys_div + 2 ∧ s.vt_sys_div ≠ 1)) := by
  have e : u32 32 = 32 := u32_of_lt (by norm_num)
  have e2 : u32 (s.vt_sys_div + 2) = s.vt_sys_div + 2 := u32_of_lt (by omega)
  have hmax : a.limits.mul_lim.max = 254 := by rw [hm]
  have hmin : a.limits.mul_lim.min = 32 := by rw [hm]
  unfold pll_carry_mul
  rw [hmax, hmin]
  split_ifs with h1 h2
  · exact ⟨rfl, rfl, rfl, rfl, rfl, Or.inr ⟨by omega, e, Or.inl ⟨rfl, h2⟩⟩⟩
  · exact ⟨rfl, rfl, rfl, rfl, rfl, Or.inr ⟨by omega, e, Or.inr ⟨e2, h2⟩⟩⟩
  · exact ⟨rfl, rfl, rfl, rfl, rfl, Or.inl ⟨by omega, rfl, rfl⟩⟩

theorem pll_carry_vt_spec (a : pll_args) (hv : a.limits.vt_div_lim = ⟨1, 16⟩) (s : pll_sweep)
    (h : s.div ≤ 63) :
    (pll_carry_vt a s).mul = s.mul ∧ (pll_carry_vt a s).vt_pix_div = s.vt_pix_div ∧
    (pll_carry_vt a s).op_multiplier = s.op_multiplier ∧
    (pll_carry_vt a s).diff_old = s.diff_old ∧ (pll_carry_vt a s).pll = s.pll ∧
    (s.vt_sys_div ≤ 16 ∧ (pll_carry_vt a s).vt_sys_div = s.vt_sys_div ∧
        (pll_carry_vt a s).div = s.div ∨
      16 < s.vt_sys_div ∧ (pll_carry_vt a s).vt_sys_div = 1 ∧
        (pll_carry_vt a s).div = s.div + 1) := by
  have e : u32 1 = 1 := u32_of_lt (by norm_num)
  have e2 : u32 (s.div + 1) = s.div + 1 := u32_of_lt (by omega)
  have hmax : a.limits.vt_div_lim.max = 16 := by rw [hv]
  have hmin : a.limits.vt_div_lim.min = 1 := by rw [hv]
  unfold pll_carry_vt
  rw [hmax, hmin]
  split_ifs with h1
  · exact ⟨rfl, rfl, rfl, rfl, rfl, Or.inr ⟨h1, e, e2⟩⟩
  · exact ⟨rfl, rfl, rfl, rfl, rfl, Or.inl ⟨by omega, rfl, rfl⟩⟩

theorem pll_next_pass_spec (a : pll_args) (hd : a.limits.div_lim = ⟨1, 63⟩) (s : pll_sweep) :
    (s.div ≤ 63 ∧ pll_next_pass a s = some s) ∨
    (63 < s.div ∧ (s.vt_pix_div < a.bpp ∨ s.op_multiplier ≤ 1) ∧ pll_next_pass a s = none) ∨
    (63 < s.div ∧ ¬ s.vt_pix_div < a.bpp ∧ 2 ≤ s.op_multiplier ∧
      pll_next_pass a s =
        some { s with div := 1, vt_pix_div := s.vt_pix_div >>> 1,
                      op_multiplier := s.op_multiplier >>> 1 }) := by
  have e : u32 1 = 1 := u32_of_lt (by norm_num)
  have hmax : a.limits.div_lim.max = 63 := by rw [hd]
  have hmin : a.limits.div_lim.min = 1 := by rw [hd]
  unfold pll_next_pass
  rw [hmax, hmin, e]
  split_ifs with h1 h2 h3
  · exact Or.inr (Or.inl ⟨h1, Or.inl h2, rfl⟩)
  · exact Or.inr (Or.inl ⟨h1, Or.inr h3, rfl⟩)
  · exact Or.inr (Or.inr ⟨h1, h2, by omega, rfl⟩)
  · exact Or.inl ⟨by omega, rfl⟩

/-- The first half of the loop body moves the loop variables to the next
grid point in sweep order without skipping one, or starts the next
pixel-divider pass. -/
theorem pll_advance_some (a : pll_args) (hl : pll_limits_ok a.limits) (s t : pll_sweep)
    (hs : pll_head s) (h : pll_advance a s = some t) :
    t.pll = s.pll ∧ t.diff_old = s.diff_old ∧ pll_grid t.div t.vt_sys_div t.mul ∧
      ((t.vt_pix_div = s.vt_pix_div ∧ t.op_multiplier = s.op_multiplier ∧
          pll_pos_le s t.div t.vt_sys_div t.mul ∧
          ∀ d v m, pll_grid d v m → pll_pos_le s d v m → pll_pos_le t d v m) ∨
        (t.vt_pix_div = s.vt_pix_div >>> 1 ∧ t.op_multiplier = s.op_multiplier >>> 1 ∧
          2 ≤ s.op_multiplier ∧ ¬ s.vt_pix_div < a.bpp ∧
          t.div = 1 ∧ t.vt_sys_div = 1 ∧ t.mul = 32 ∧
          ∀ d v m, pll_grid d v m → ¬ pll_pos_le s d v m)) := by
  obtain ⟨hd, hm, hv, -, -⟩ := hl
  obtain ⟨h1, h2, h3, h4, h5⟩ := hs
  unfold pll_vt_step at h5
  unfold pll_advance at h
  obtain ⟨a1, a2, a3, a4, a5, a6, a7⟩ := pll_round_mul_spec s h4
  obtain ⟨b1, b3, b4, b5, b6, b7⟩ :=
    pll_carry_mul_spec a hm (pll_round_mul s) (by rw [a2]; omega)
  obtain ⟨c1, c3, c4, c5, c6, c7⟩ :=
    pll_carry_vt_spec a hv (pll_carry_mul a (pll_round_mul s)) (by rw [b1, a1]; omega)
  generalize pll_round_mul s = r1 at *
  generalize pll_carry_mul a r1 = r2 at *
  generalize pll_carry_vt a r2 = r3 at *
  rcases pll_next_pass_spec a hd r3 with ⟨n1, n2⟩ | ⟨n1, n2, n3⟩ | ⟨n1, n2, n3, n4⟩
  · rw [n2] at h
    cases h
    simp only [pll_grid, pll_pos_le, pll_vt_step]
    refine ⟨by rw [c6, b6, a6], by rw [c5, b5, a5], by omega, Or.inl ⟨by rw [c3, b3, a3],
      by rw [c4, b4, a4], by omega, ?_⟩⟩
    intro d v m hg hp
    omega
  · rw [n3] at h
    cases h
  · rw [n4] at h
    cases h
    simp only [pll_grid, pll_pos_le, pll_vt_step]
    refine ⟨by rw [c6, b6, a6], by rw [c5, b5, a5], by omega, Or.inr ⟨by rw [c3, b3, a3],
      by rw [c4, b4, a4], by omega, by omega, by simp, by omega, by omega, ?_⟩⟩
    intro d v m hg hp
    omega

/-- When the first half of the loop body leaves the loop, no grid point is
left in sweep order. -/
theorem pll_advance_none (a : pll_args) (hl : pll_limits_ok a.limits) (s : pll_sweep)
    (hs : pll_head s) (h : pll_advance a s = none) :
    ∀ d v m, pll_grid d v m → ¬ pll_pos_le s d v m := by
  obtain ⟨hd, hm, hv, -, -⟩ := hl
  obtain ⟨h1, h2, h3, h4, h5⟩ := hs
  unfold pll_vt_step at h5
  unfold pll_advance at h
  obtain ⟨a1, a2, a3, a4, a5, a6, a7⟩ := pll_round_mul_spec s h4
  obtain ⟨b1, b3, b4, b5, b6, b7⟩ :=
    pll_carry_mul_spec a hm (pll_round_mul s) (by rw [a2]; omega)
  obtain ⟨c1, c3, c4, c5, c6, c7⟩ :=
    pll_carry_vt_spec a hv (pll_carry_mul a (pll_round_mul s)) (by rw [b1, a1]; omega)
  generalize pll_round_mul s = r1 at *
  generalize pll_carry_mul a r1 = r2 at *
  generalize pll_carry_vt a r2 = r3 at *
  rcases pll_next_pass_spec a hd r3 with ⟨n1, n2⟩ | ⟨n1, n2, n3⟩ | ⟨n1, n2, n3, n4⟩
  · rw [n2] at h
    cases h
  · simp only [pll_grid, pll_pos_le, pll_vt_step]
    intro d v m hg hp
    omega
  · rw [n4] at h
    cases h

end pll_body

section pll_loop_facts

theorem pll_iter_some (a : pll_args) (s s1 : pll_sweep) (h : pll_iter a s = some s1) :
    s.div ≤ a.limits.div_lim.max ∧ ∃ t, pll_advance a s = some t ∧ s1 = pll_try a t := by
  unfold pll_iter at h
  split_ifs at h with h1
  refine ⟨h1, ?_⟩
  cases hadv : pll_advance a s with
  | none => rw [hadv] at h; cases h
  | some t => rw [hadv] at h; exact ⟨t, rfl, by cases h; rfl⟩

theorem pll_iter_of_advance (a : pll_args) (hl : pll_limits_ok a.limits) (s t : pll_sweep)
    (hs : pll_head s) (h : pll_advance a s = some t) : pll_iter a s = some (pll_try a t) := by
  unfold pll_iter
  have hmax : a.limits.div_lim.max = 63 := by rw [hl.1]
  rw [if_pos (by rw [hmax]; exact hs.2.1), h]
  rfl

/-- One loop iteration keeps the loop variables in their loop-head range. -/
theorem pll_head_step (a : pll_args) (hl : pll_limits_ok a.limits) (s t : pll_sweep)
    (hs : pll_head s) (h : pll_advance a s = some t) : pll_head (pll_try a t) := by
  obtain ⟨-, -, hg, -⟩ := pll_advance_some a hl s t hs h
  obtain ⟨e1, e2, e3, -, -, -⟩ := pll_try_spec a t
  obtain ⟨g1, g2, g3, g4, g5, g6⟩ := hg
  have e : u32 (t.mul + 1) = t.mul + 1 := u32_of_lt (by omega)
  unfold pll_head
  rw [e1, e2, e3, e]
  exact ⟨g1, g2, by omega, by omega, g3⟩

theorem log_shiftRight_one (x : Nat) (h : 2 ≤ x) : Nat.log 2 (x >>> 1) + 1 = Nat.log 2 x := by
  rw [Nat.shiftRight_eq_div_pow, pow_one, Nat.log_div_base]
  have : 0 < Nat.log 2 x := Nat.log_pos (by norm_num) h
  omega

/-- One loop iteration lowers the iteration measure. -/
theorem pll_measure_step (a : pll_args) (hl : pll_limits_ok a.limits) (s t : pll_sweep)
    (hs : pll_head s) (h : pll_advance a s = some t) :
    pll_measure (pll_try a t) < pll_measure s := by
  obtain ⟨-, -, hg, hpos⟩ := pll_advance_some a hl s t hs h
  obtain ⟨e1, e2, e3, -, e5, -⟩ := pll_try_spec a t
  obtain ⟨g1, g2, g3, g4, g5, g6⟩ := hg
  obtain ⟨h1, h2, h3, h4, h5⟩ := hs
  have e : u32 (t.mul + 1) = t.mul + 1 := u32_of_lt (by omega)
  unfold pll_measure
  rw [e1, e2, e3, e5, e]
  unfold pll_vt_step at g3 h5
  rcases hpos with ⟨-, p2, p3, -⟩ | ⟨-, p2, p3, -, p5, p6, p7, -⟩
  · rw [p2]
    unfold pll_pos_le at p3
    omega
  · have := log_shiftRight_one s.op_multiplier p3
    rw [p2]
    omega

/-- With enough fuel the loop is left. -/
theorem pll_loop_terminates (a : pll_args) (hl : pll_limits_ok a.limits) :
    ∀ (n : Nat) (s : pll_sweep), pll_head s → pll_measure s < n →
      ∃ r, pll_loop a n s = some r := by
  intro n
  induction n with
  | zero => intro s _ h; omega
  | succ n ih =>
    intro s hs hm
    unfold pll_loop
    cases hit : pll_iter a s with
    | none => exact ⟨s, rfl⟩
    | some s1 =>
      obtain ⟨-, t, ht, rfl⟩ := pll_iter_some a s s1 hit
      have := pll_measure_step a hl s t hs ht
      exact ih (pll_try a t) (pll_head_step a hl s t hs ht) (by omega)

/-- More fuel does not change the result of the loop. -/
theorem pll_loop_mono (a : pll_args) :
    ∀ (n : Nat) (s r : pll_sweep), pll_loop a n s = some r →
      ∀ k, pll_loop a (n + k) s = some r := by
  intro n
  induction n with
  | zero => intro s r h; cases h
  | succ n ih =>
    intro s r h k
    rw [Nat.add_right_comm]
    unfold pll_loop at h ⊢
    cases hit : pll_iter a s with
    | none => rw [hit] at h; exact h
    | some s1 => rw [hit] at h; exact ih s1 r h k

/-- More fuel does not change the list of examined candidates once the loop
has been left. -/
theorem pll_visited_mono (a : pll_args) :
    ∀ (n : Nat) (s r : pll_sweep), pll_loop a n s = some r →
      ∀ k, pll_visited a (n + k) s = pll_visited a n s := by
  intro n
  induction n with
  | zero => intro s r h; cases h
  | succ n ih =>
    intro s r h k
    rw [Nat.add_right_comm]
    unfold pll_loop at h
    unfold pll_visited
    by_cases h1 : s.div ≤ a.limits.div_lim.max
    · rw [if_pos h1, if_pos h1]
      cases hadv : pll_advance a s with
      | none => rfl
      | some t =>
        have hit : pll_iter a s = some (pll_try a t) := by
          unfold pll_iter
          rw [if_pos h1, hadv]
          rfl
        rw [hit] at h
        show t :: pll_visited a (n + k) (pll_try a t) = t :: pll_visited a n (pll_try a t)
        rw [ih (pll_try a t) r h k]
    · rw [if_neg h1, if_neg h1]

/-- Invariant rule for the loop: a property that holds at loop entry and is
kept by every iteration holds when the loop is left. -/
theorem pll_loop_invariant (a : pll_args) (I : pll_sweep → Prop)
    (hI : ∀ s t, I s → pll_advance a s = some t → I (pll_try a t)) :
    ∀ (n : Nat) (s r : pll_sweep), I s → pll_loop a n s = some r → I r := by
  intro n
  induction n with
  | zero => intro s r _ h; cases h
  | succ n ih =>
    intro s r hs h
    unfold pll_loop at h
    cases hit : pll_iter a s with
    | none => rw [hit] at h; cases h; exact hs
    | some s1 =>
      rw [hit] at h
      obtain ⟨-, t, ht, rfl⟩ := pll_iter_some a s s1 hit
      exact ih (pll_try a t) r (hI s t hs ht) h

theorem shiftRight_lt_self (b k : Nat) (hb : 0 < b) (hk : 0 < k) : b >>> k < b := by
  rw [Nat.shiftRight_eq_div_pow]
  exact Nat.div_lt_self hb (Nat.one_lt_two_pow (by omega))

/-- Every iteration keeps the loop invariant. -/
theorem pll_inv_step (a : pll_args) (hl : pll_limits_ok a.limits) (op0 : Nat)
    (s t : pll_sweep) (hs : pll_inv a op0 s) (h : pll_advance a s = some t) :
    pll_inv a op0 (pll_try a t) := by
  obtain ⟨hh, ⟨k, k1, k2, k3, k4⟩, hd, hz, hnz⟩ := hs
  obtain ⟨a1, a2, hg, hpos⟩ := pll_advance_some a hl s t hh h
  have hpass : ∃ k, t.vt_pix_div = a.bpp >>> k ∧ t.op_multiplier = op0 >>> k ∧
      (op0 ≤ 1 → k = 0) ∧ (k ≤ 1 ∨ a.bpp = 0) := by
    rcases hpos with ⟨p1, p2, -, -⟩ | ⟨p1, p2, p3, p4, -, -, -, -⟩
    · exact ⟨k, by rw [p1, k1], by rw [p2, k2], k3, k4⟩
    · refine ⟨k + 1, by rw [p1, k1, Nat.shiftRight_add], by rw [p2, k2, Nat.shiftRight_add], ?_, ?_⟩
      · intro h0
        have := k3 h0
        subst this
        rw [k2] at p3
        simp only [Nat.shiftRight_zero] at p3
        omega
      · by_cases hb : a.bpp = 0
        · exact Or.inr hb
        · left
          by_cases hk : k = 0
          · omega
          · have := shiftRight_lt_self a.bpp k (by omega) (by omega)
            rw [k1] at p4
            omega
  refine ⟨pll_head_step a hl s t hh h, ?_, ?_⟩
  · obtain ⟨-, -, -, e4, e5, -⟩ := pll_try_spec a t
    rw [e4, e5]
    exact hpass
  · obtain ⟨-, -, -, -, -, hcase⟩ := pll_try_spec a t
    rcases hcase with ⟨c1, c2, c3, c4⟩ | ⟨-, c3, c4⟩
    · rw [c3, c4]
      obtain ⟨k, q1, q2, q3, q4⟩ := hpass
      have hpix : pll_pix_clk a t ≤ a.pix_target := c1.2.2.2
      have hmul : (pll_store a t).pre_pll_mul = t.mul := rfl
      have hpf : (pll_store a t).pix_freq = pll_pix_clk a t := rfl
      obtain ⟨g1, g2, g3, g4, g5, g6⟩ := hg
      refine ⟨by omega, fun h0 => by rw [hmul] at h0; omega, fun _ => ⟨?_, by rw [hpf]; omega,
        by rw [hpf]; omega⟩⟩
      refine ⟨t.div, t.mul, t.vt_sys_div, k, ⟨g1, g2, g3, g4, g5, g6⟩, q3, q4, ?_, ?_⟩
      · rw [← q1, ← q2]
        exact c1
      · rw [← q1, ← q2]
        rfl
    · rw [c3, c4, a1, a2]
      exact ⟨hd, hz, hnz⟩

/-- The loop invariant holds at loop entry. -/
theorem pll_inv_start (sensor : ar0144) (pll : ar0144_pll_config) (ext_freq link_freq bpp : Nat)
    (hl : pll_limits_ok sensor.model.data.limits) :
    pll_inv (pll_setup sensor ext_freq link_freq bpp) (pll_op_multiplier sensor)
      (pll_start sensor pll ext_freq link_freq bpp) := by
  obtain ⟨hd, hm, hv, -, -⟩ := hl
  have e1 : u32 1 = 1 := u32_of_lt (by norm_num)
  have e32 : u32 32 = 32 := u32_of_lt (by norm_num)
  refine ⟨?_, ⟨0, rfl, rfl, fun _ => rfl, Or.inl (by omega)⟩, le_refl _, fun _ => rfl,
    fun h => absurd rfl h⟩
  unfold pll_head pll_start pll_setup pll_vt_step
  simp only [hd, hm, hv, e1, e32]
  norm_num

theorem pll_visited_none (a : pll_args) (n : Nat) (s : pll_sweep) (h : pll_iter a s = none) :
    pll_visited a (n + 1) s = [] := by
  unfold pll_visited
  unfold pll_iter at h
  split_ifs at h ⊢ with h1
  · cases hadv : pll_advance a s with
    | none => rfl
    | some t => rw [hadv] at h; cases h
  · rfl

theorem pll_visited_some (a : pll_args) (n : Nat) (s t : pll_sweep)
    (h1 : s.div ≤ a.limits.div_lim.max) (h : pll_advance a s = some t) :
    pll_visited a (n + 1) s = t :: pll_visited a n (pll_try a t) := by
  conv_lhs => unfold pll_visited
  rw [if_pos h1, h]

/-- Success is decided by the examined candidates: the multiplier stored
when the loop is left is non-zero exactly when it was non-zero before or an
examined candidate passes the checks with a non-zero pixel clock. -/
theorem pll_loop_accepts (a : pll_args) (hl : pll_limits_ok a.limits) (op0 : Nat) :
    ∀ (n : Nat) (s r : pll_sweep), pll_inv a op0 s → pll_loop a n s = some r →
      (r.pll.pre_pll_mul ≠ 0 ↔
        s.pll.pre_pll_mul ≠ 0 ∨
          ∃ t ∈ pll_visited a n s, pll_passes a t ∧ pll_pix_clk a t ≠ 0) := by
  intro n
  induction n with
  | zero => intro s r _ h; cases h
  | succ n ih =>
    intro s r hs h
    unfold pll_loop at h
    cases hit : pll_iter a s with
    | none =>
      rw [hit] at h
      cases h
      rw [pll_visited_none a n s hit]
      simp
    | some s1 =>
      rw [hit] at h
      obtain ⟨hc, t, ht, rfl⟩ := pll_iter_some a s s1 hit
      rw [pll_visited_some a n s t hc ht, ih (pll_try a t) r (pll_inv_step a hl op0 s t hs ht) h]
      obtain ⟨a1, a2, hg, -⟩ := pll_advance_some a hl s t hs.1 ht
      obtain ⟨-, -, -, -, -, hcase⟩ := pll_try_spec a t
      obtain ⟨-, -, hd, hz, -⟩ := hs
      have key : (pll_try a t).pll.pre_pll_mul ≠ 0 ↔
          s.pll.pre_pll_mul ≠ 0 ∨ (pll_passes a t ∧ pll_pix_clk a t ≠ 0) := by
        rcases hcase with ⟨c1, c2, -, c4⟩ | ⟨c1, -, c4⟩
        · have hmul : (pll_store a t).pre_pll_mul = t.mul := rfl
          have hpix : pll_pix_clk a t ≤ a.pix_target := c1.2.2.2
          rw [c4, hmul]
          obtain ⟨-, -, -, g4, -, -⟩ := hg
          constructor
          · intro _
            exact Or.inr ⟨c1, by omega⟩
          · intro _
            omega
        · rw [c4, a1]
          constructor
          · exact Or.inl
          · rintro (h0 | ⟨h1, h2⟩)
            · exact h0
            · intro h0
              have hpix : pll_pix_clk a t ≤ a.pix_target := h1.2.2.2
              have := hz h0
              exact c1 ⟨h1, by omega⟩
      rw [key]
      constructor
      · rintro ((h0 | h1) | ⟨t1, m1, h1⟩)
        · exact Or.inl h0
        · exact Or.inr ⟨t, List.mem_cons_self _ _, h1⟩
        · exact Or.inr ⟨t1, List.mem_cons_of_mem _ m1, h1⟩
      · rintro (h0 | ⟨t1, m1, h1⟩)
        · exact Or.inl (Or.inl h0)
        · rcases List.mem_cons.mp m1 with rfl | hmem
          · exact Or.inl (Or.inr h1)
          · exact Or.inr ⟨t1, hmem, h1⟩

/-- The difference to the target kept when the loop is left is not above
the one of any examined candidate that passes the checks. -/
theorem pll_loop_best (a : pll_args) (hl : pll_limits_ok a.limits) (op0 : Nat) :
    ∀ (n : Nat) (s r : pll_sweep), pll_inv a op0 s → pll_loop a n s = some r →
      r.diff_old ≤ s.diff_old ∧
        ∀ t ∈ pll_visited a n s, pll_passes a t →
          r.diff_old ≤ a.pix_target - pll_pix_clk a t := by
  intro n
  induction n with
  | zero => intro s r _ h; cases h
  | succ n ih =>
    intro s r hs h
    unfold pll_loop at h
    cases hit : pll_iter a s with
    | none =>
      rw [hit] at h
      cases h
      rw [pll_visited_none a n s hit]
      exact ⟨le_refl _, fun t ht => absurd ht (List.not_mem_nil t)⟩
    | some s1 =>
      rw [hit] at h
      obtain ⟨hc, t, ht, rfl⟩ := pll_iter_some a s s1 hit
      rw [pll_visited_some a n s t hc ht]
      obtain ⟨i1, i2⟩ := ih (pll_try a t) r (pll_inv_step a hl op0 s t hs ht) h
      obtain ⟨-, a2, -, -⟩ := pll_advance_some a hl s t hs.1 ht
      obtain ⟨-, -, -, -, -, hcase⟩ := pll_try_spec a t
      have k1 : (pll_try a t).diff_old ≤ s.diff_old := by
        rcases hcase with ⟨-, c2, c3, -⟩ | ⟨-, c3, -⟩ <;> omega
      have k2 : pll_passes a t → (pll_try a t).diff_old ≤ a.pix_target - pll_pix_clk a t := by
        intro hp
        rcases hcase with ⟨-, -, c3, -⟩ | ⟨c1, c3, -⟩
        · omega
        · have : ¬ (a.pix_target - pll_pix_clk a t < t.diff_old) := fun hlt => c1 ⟨hp, hlt⟩
          omega
      refine ⟨le_trans i1 k1, ?_⟩
      intro t1 ht1 hp
      rcases List.mem_cons.mp ht1 with rfl | hmem
      · exact le_trans i1 (k2 hp)
      · exact i2 t1 hmem hp

/-- Every grid point that is not before the loop variables in sweep order
is examined before the current pixel-divider pass ends. -/
theorem pll_loop_covers (a : pll_args) (hl : pll_limits_ok a.limits) :
    ∀ (n : Nat) (s r : pll_sweep), pll_head s → pll_loop a n s = some r →
      ∀ d v m, pll_grid d v m → pll_pos_le s d v m →
        ∃ t ∈ pll_visited a n s, t.div = d ∧ t.vt_sys_div = v ∧ t.mul = m ∧
          t.vt_pix_div = s.vt_pix_div ∧ t.op_multiplier = s.op_multiplier := by
  intro n
  induction n with
  | zero => intro s r _ h; cases h
  | succ n ih =>
    intro s r hs h d v m hg hp
    unfold pll_loop at h
    have hmax : a.limits.div_lim.max = 63 := by rw [hl.1]
    cases hadv : pll_advance a s with
    | none => exact absurd hp (pll_advance_none a hl s hs hadv d v m hg)
    | some t =>
      rw [pll_iter_of_advance a hl s t hs hadv] at h
      rw [pll_visited_some a n s t (by rw [hmax]; exact hs.2.1) hadv]
      obtain ⟨-, -, hgt, hpos⟩ := pll_advance_some a hl s t hs hadv
      rcases hpos with ⟨p1, p2, -, p4⟩ | ⟨-, -, -, -, -, -, -, p8⟩
      · have hpt := p4 d v m hg hp
        by_cases heq : t.div = d ∧ t.vt_sys_div = v ∧ t.mul = m
        · exact ⟨t, List.mem_cons_self _ _, heq.1, heq.2.1, heq.2.2, p1, p2⟩
        · obtain ⟨e1, e2, e3, e4, e5, -⟩ := pll_try_spec a t
          have e : u32 (t.mul + 1) = t.mul + 1 := u32_of_lt (by
            obtain ⟨-, -, -, -, g5, -⟩ := hgt
            omega)
          have hnext : pll_pos_le (pll_try a t) d v m := by
            unfold pll_pos_le at hpt ⊢
            rw [e1, e2, e3, e]
            omega
          obtain ⟨t1, m1, q1, q2, q3, q4, q5⟩ :=
            ih (pll_try a t) r (pll_head_step a hl s t hs hadv) h d v m hg hnext
          exact ⟨t1, List.mem_cons_of_mem _ m1, q1, q2, q3, by rw [q4, e4, p1],
            by rw [q5, e5, p2]⟩
      · exact absurd hp (p8 d v m hg)

end pll_loop_facts

section pll_result

/-- Both chip tables have the divider and multiplier ranges of
`pll_limits_ok`. -/
theorem models_limits_ok (m : ar0144_model) (h : m ∈ ar0144_models) :
    pll_limits_ok m.data.limits := by
  simp only [ar0144_models, List.mem_cons, List.mem_singleton, List.not_mem_nil, or_false] at h
  rcases h with rfl | rfl | rfl | rfl | rfl | rfl <;> decide

/-- With `pll_fuel` iterations or more the loop of `ar0144_calculate_pll` is
left in a state that satisfies the loop invariant, and the function returns
the configuration of that state. -/
theorem calculate_pll_run (sensor : ar0144) (pll : ar0144_pll_config)
    (ext_freq link_freq bpp : Nat) (hl : pll_limits_ok sensor.model.data.limits) :
    ∃ s : pll_sweep,
      pll_inv (pll_setup sensor ext_freq link_freq bpp) (pll_op_multiplier sensor) s ∧
      pll_loop (pll_setup sensor ext_freq link_freq bpp) (pll_fuel sensor)
        (pll_start sensor pll ext_freq link_freq bpp) = some s ∧
      ∀ fuel, pll_fuel sensor ≤ fuel →
        ar0144_calculate_pll fuel sensor pll ext_freq link_freq bpp =
          some (if s.pll.pre_pll_mul = 0 then -EINVAL else 0, s.pll) := by
  have hl2 : pll_limits_ok (pll_setup sensor ext_freq link_freq bpp).limits := hl
  have h0 := pll_inv_start sensor pll ext_freq link_freq bpp hl
  have hmeas : pll_measure (pll_start sensor pll ext_freq link_freq bpp) < pll_fuel sensor := by
    obtain ⟨hd, hm, hv, -, -⟩ := hl
    have e1 : u32 1 = 1 := u32_of_lt (by norm_num)
    have e32 : u32 32 = 32 := u32_of_lt (by norm_num)
    unfold pll_measure pll_fuel pll_start pll_setup pll_op_multiplier
    simp only [hd, hm, hv, e1, e32]
    omega
  obtain ⟨s, hs⟩ := pll_loop_terminates _ hl2 (pll_fuel sensor) _ h0.1 hmeas
  refine ⟨s, ?_, hs, ?_⟩
  · exact pll_loop_invariant _ (pll_inv _ (pll_op_multiplier sensor))
      (fun s t hs ht => pll_inv_step _ hl2 _ s t hs ht) _ _ _ h0 hs
  · intro fuel hf
    have := pll_loop_mono _ _ _ _ hs (fuel - pll_fuel sensor)
    rw [Nat.add_sub_cancel' hf] at this
    unfold ar0144_calculate_pll
    rw [this]
    show (if s.pll.pre_pll_mul = 0 then some (-EINVAL, s.pll) else some (0, s.pll)) = _
    split_ifs <;> rfl

/-- The target pixel rate computed by the driver never exceeds the one of
the specification (64 bit wrap-around can only lower it). -/
theorem pll_setup_target_le (sensor : ar0144) (ext_freq link_freq bpp : Nat) :
    (pll_setup sensor ext_freq link_freq bpp).pix_target ≤
      pll_target_spec sensor.info.bus_type link_freq sensor.info.num_lanes bpp := by
  unfold pll_setup pll_target_spec
  simp only []
  split_ifs
  · exact u64_le _
  · refine le_trans (clk_mul_div_le _ _ _) (Nat.div_le_div_right ?_)
    rw [Nat.mul_assoc]
    exact Nat.mul_le_mul_left _ (u32_le _)

/-- Bounds met by every stored configuration. -/
theorem pll_stored_bounds (a : pll_args) (hl : pll_limits_ok a.limits) (op0 : Nat)
    (p : ar0144_pll_config) (h : pll_stored a op0 p) :
    a.limits.vco_lim.min ≤ p.vco_freq ∧ p.vco_freq ≤ a.limits.vco_lim.max ∧
      p.vco_freq / (p.vt_pix_div * p.vt_sys_div) ≤ a.limits.word_clk_lim.max ∧
      p.pix_freq ≤ a.pix_target := by
  obtain ⟨d, m, v, k, -, -, -, hp, hst⟩ := h
  obtain ⟨-, ⟨hv1, hv2⟩, hw, hpx⟩ := hp
  have e1 : p.vco_freq = ar0144_clk_mul_div a.ext_freq m d := by
    conv_lhs => rw [← hst]
    rfl
  have e2 : p.pix_freq = pll_pix_clk a ⟨d, m, v, a.bpp >>> k, op0 >>> k, 0, p⟩ := by
    conv_lhs => rw [← hst]
    rfl
  have e3 : p.vt_pix_div = a.bpp >>> k := by
    conv_lhs => rw [← hst]
    rfl
  have e4 : p.vt_sys_div = v := by
    conv_lhs => rw [← hst]
    rfl
  replace hv1 : a.limits.vco_lim.min ≤ ar0144_clk_mul_div a.ext_freq m d := hv1
  replace hv2 : ar0144_clk_mul_div a.ext_freq m d ≤ a.limits.vco_lim.max := hv2
  replace hw : ar0144_clk_mul_div (ar0144_clk_mul_div a.ext_freq m d) 1
      (u32 (a.bpp >>> k * v)) ≤ a.limits.word_clk_lim.max := hw
  refine ⟨by rw [e1]; exact hv1, by rw [e1]; exact hv2, ?_, by rw [e2]; exact hpx⟩
  rw [e1, e3, e4]
  generalize ar0144_clk_mul_div a.ext_freq m d = vco at hv2 hw ⊢
  have hvco : vco < 2 ^ 32 := lt_of_le_of_lt hv2 hl.2.2.2.1
  generalize a.bpp >>> k = pd at hw ⊢
  unfold ar0144_clk_mul_div at hw
  simp only [Nat.mul_one] at hw
  by_cases hz : u32 (pd * v) = 0
  · by_cases hz2 : pd * v = 0
    · rw [hz2, Nat.div_zero]
      exact Nat.zero_le _
    · have : 2 ^ 32 ≤ pd * v := by
        unfold u32 at hz
        exact Nat.le_of_dvd (Nat.pos_of_ne_zero hz2) (Nat.dvd_of_mod_eq_zero hz)
      rw [Nat.div_eq_of_lt (by omega)]
      exact Nat.zero_le _
  · rw [if_neg hz] at hw
    have hu : u64 vco = vco := Nat.mod_eq_of_lt (by omega)
    rw [hu] at hw
    exact le_trans (Nat.div_le_div_left (u32_le _) (Nat.pos_of_ne_zero hz)) hw

/-- The checks depend on the candidate only through the five sweep
variables. -/
theorem pll_passes_congr (a : pll_args) (t t1 : pll_sweep) (h1 : t.div = t1.div)
    (h2 : t.mul = t1.mul) (h3 : t.vt_sys_div = t1.vt_sys_div)
    (h4 : t.vt_pix_div = t1.vt_pix_div) (h5 : t.op_multiplier = t1.op_multiplier) :
    (pll_passes a t ↔ pll_passes a t1) ∧ pll_pix_clk a t = pll_pix_clk a t1 := by
  unfold pll_passes pll_guard pll_checks pll_pix_clk pll_word_clk pll_vco
  rw [h1, h2, h3, h4, h5]
  exact ⟨Iff.rfl, rfl⟩

/-- A grid point of the first pixel-divider pass that passes the checks
with a non-zero pixel clock makes `ar0144_calculate_pll` succeed. -/
theorem calculate_pll_hit (sensor : ar0144) (pll : ar0144_pll_config)
    (ext_freq link_freq bpp : Nat) (hl : pll_limits_ok sensor.model.data.limits)
    (d v m : Nat) (hg : pll_grid d v m)
    (hp : pll_passes (pll_setup sensor ext_freq link_freq bpp)
      ⟨d, m, v, bpp, pll_op_multiplier sensor, 0, pll_zero⟩)
    (hx : pll_pix_clk (pll_setup sensor ext_freq link_freq bpp)
      ⟨d, m, v, bpp, pll_op_multiplier sensor, 0, pll_zero⟩ ≠ 0)
    (s : pll_sweep)
    (hs : pll_loop (pll_setup sensor ext_freq link_freq bpp) (pll_fuel sensor)
      (pll_start sensor pll ext_freq link_freq bpp) = some s) :
    s.pll.pre_pll_mul ≠ 0 := by
  have hl2 : pll_limits_ok (pll_setup sensor ext_freq link_freq bpp).limits := hl
  have h0 := pll_inv_start sensor pll ext_freq link_freq bpp hl
  have hpos : pll_pos_le (pll_start sensor pll ext_freq link_freq bpp) d v m := by
    obtain ⟨hd, hm, hv, -, -⟩ := hl
    have e1 : u32 1 = 1 := u32_of_lt (by norm_num)
    have e32 : u32 32 = 32 := u32_of_lt (by norm_num)
    obtain ⟨g1, g2, g3, g4, g5, g6⟩ := hg
    unfold pll_vt_step at g3
    unfold pll_pos_le pll_start pll_setup
    simp only [hd, hm, hv, e1, e32]
    omega
  obtain ⟨t, tm, q1, q2, q3, q4, q5⟩ := pll_loop_covers _ hl2 _ _ _ h0.1 hs d v m hg hpos
  have hc := pll_passes_congr (pll_setup sensor ext_freq link_freq bpp) t
    ⟨d, m, v, bpp, pll_op_multiplier sensor, 0, pll_zero⟩ q1 q3 q2 q4 q5
  rw [pll_loop_accepts _ hl2 (pll_op_multiplier sensor) _ _ _ h0 hs]
  exact Or.inr ⟨t, tm, hc.1.mpr hp, by rw [hc.2]; exact hx⟩

/-- C1: whenever `ar0144_calculate_pll` returns success, the stored
configuration satisfies all bounds: `vco_freq` lies in `[vco_min, vco_max]`,
the word clock `vco_freq / (vt_pix_div * vt_sys_div)` does not exceed the
word-clock ceiling, and `pix_freq` does not exceed the target pixel rate
(`link_freq` on the parallel bus, `link_freq * 2 * lanes / bpp` on the serial
bus). This holds for every external clock, link frequency, lane count,
bits-per-pixel and bus type, and the function returns for all of them. -/
theorem calculate_pll_bounds (sensor : ar0144) (pll : ar0144_pll_config)
    (ext_freq link_freq bpp : Nat) (hmodel : sensor.model ∈ ar0144_models) :
    ∃ r : Int × ar0144_pll_config,
      (∀ fuel, pll_fuel sensor ≤ fuel →
        ar0144_calculate_pll fuel sensor pll ext_freq link_freq bpp = some r) ∧
      (r.1 = 0 →
        sensor.model.data.limits.vco_lim.min ≤ r.2.vco_freq ∧
        r.2.vco_freq ≤ sensor.model.data.limits.vco_lim.max ∧
        r.2.vco_freq / (r.2.vt_pix_div * r.2.vt_sys_div) ≤
          sensor.model.data.limits.word_clk_lim.max ∧
        r.2.pix_freq ≤
          pll_target_spec sensor.info.bus_type link_freq sensor.info.num_lanes bpp) := by
  have hl := models_limits_ok sensor.model hmodel
  obtain ⟨s, hinv, -, hres⟩ := calculate_pll_run sensor pll ext_freq link_freq bpp hl
  refine ⟨_, hres, ?_⟩
  intro h0
  have hne : s.pll.pre_pll_mul ≠ 0 := by
    intro hz
    rw [if_pos hz] at h0
    have h1 : (-EINVAL : Int) = 0 := h0
    exact absurd h1 (by decide)
  obtain ⟨hst, -, -⟩ := hinv.2.2.2.2 hne
  obtain ⟨b1, b2, b3, b4⟩ :=
    pll_stored_bounds (pll_setup sensor ext_freq link_freq bpp) hl _ _ hst
  exact ⟨b1, b2, b3, le_trans b4 (pll_setup_target_le sensor ext_freq link_freq bpp)⟩

/-- A grid point of the first pixel-divider pass that passes the checks
with a non-zero pixel clock makes every sufficiently fuelled run of
`ar0144_calculate_pll` return success. -/
theorem calculate_pll_success (sensor : ar0144) (pll : ar0144_pll_config)
    (ext_freq link_freq bpp : Nat) (hl : pll_limits_ok sensor.model.data.limits)
    (d v m : Nat) (hg : pll_grid d v m)
    (hp : pll_passes (pll_setup sensor ext_freq link_freq bpp)
      ⟨d, m, v, bpp, pll_op_multiplier sensor, 0, pll_zero⟩)
    (hx : pll_pix_clk (pll_setup sensor ext_freq link_freq bpp)
      ⟨d, m, v, bpp, pll_op_multiplier sensor, 0, pll_zero⟩ ≠ 0)
    (fuel : Nat) (hf : pll_fuel sensor ≤ fuel) (r : Int × ar0144_pll_config)
    (hr : ar0144_calculate_pll fuel sensor pll ext_freq link_freq bpp = some r) :
    r.1 = 0 := by
  obtain ⟨s, -, hs, hres⟩ := calculate_pll_run sensor pll ext_freq link_freq bpp hl
  have hne := calculate_pll_hit sensor pll ext_freq link_freq bpp hl d v m hg hp hx s hs
  rw [hres fuel hf, if_neg hne] at hr
  cases hr
  rfl

/-- Witness for C1: an AR0144 on the parallel bus with a 24 MHz clock, a
74.25 MHz link and 12 bits per pixel gets a configuration, and it is inside
all bounds. -/
theorem calculate_pll_bounds_witness :
    (ar0144_on_parallel 74250000).model ∈ ar0144_models ∧
    ∃ r : Int × ar0144_pll_config,
      (∀ fuel, pll_fuel (ar0144_on_parallel 74250000) ≤ fuel →
        ar0144_calculate_pll fuel (ar0144_on_parallel 74250000) pll_zero
          24000000 74250000 12 = some r) ∧
      r.1 = 0 ∧
      384000000 ≤ r.2.vco_freq ∧ r.2.vco_freq ≤ 768000000 ∧
      r.2.vco_freq / (r.2.vt_pix_div * r.2.vt_sys_div) ≤ 74250000 ∧
      r.2.pix_freq ≤ 74250000 := by
  refine ⟨by decide, ?_⟩
  obtain ⟨r, h1, h2⟩ :=
    calculate_pll_bounds (ar0144_on_parallel 74250000) pll_zero 24000000 74250000 12 (by decide)
  have h0 : r.1 = 0 :=
    calculate_pll_success (ar0144_on_parallel 74250000) pll_zero 24000000 74250000 12
      (by decide) 1 1 32 (by decide) (by decide) (by decide) _ (le_refl _) r (h1 _ (le_refl _))
  exact ⟨r, h1, h0, h2 h0⟩

/-- C3: `ar0144_calculate_pll` returns `-EINVAL` exactly when no candidate
of its sweep passes the VCO-range check, the word-clock ceiling check and
the target check with a non-zero pixel clock; if at least one such
candidate is visited it returns success with `pre_pll_mul` non-zero. There
is no other return code. -/
theorem calculate_pll_einval_iff (sensor : ar0144) (pll : ar0144_pll_config)
    (ext_freq link_freq bpp : Nat) (hmodel : sensor.model ∈ ar0144_models) :
    ∃ r : Int × ar0144_pll_config,
      (∀ fuel, pll_fuel sensor ≤ fuel →
        ar0144_calculate_pll fuel sensor pll ext_freq link_freq bpp = some r) ∧
      (r.1 = 0 ∨ r.1 = -EINVAL) ∧
      (r.1 = -EINVAL ↔
        ∀ t ∈ pll_candidates sensor pll ext_freq link_freq bpp,
          ¬ (pll_checks (pll_setup sensor ext_freq link_freq bpp) t ∧
            pll_pix_clk (pll_setup sensor ext_freq link_freq bpp) t ≠ 0)) ∧
      ((∃ t ∈ pll_candidates sensor pll ext_freq link_freq bpp,
          pll_checks (pll_setup sensor ext_freq link_freq bpp) t ∧
            pll_pix_clk (pll_setup sensor ext_freq link_freq bpp) t ≠ 0) →
        r.1 = 0 ∧ r.2.pre_pll_mul ≠ 0) := by
  have hl := models_limits_ok sensor.model hmodel
  have hl2 : pll_limits_ok (pll_setup sensor ext_freq link_freq bpp).limits := hl
  obtain ⟨s, hinv, hs, hres⟩ := calculate_pll_run sensor pll ext_freq link_freq bpp hl
  have h0 := pll_inv_start sensor pll ext_freq link_freq bpp hl
  have hacc := pll_loop_accepts _ hl2 (pll_op_multiplier sensor) _ _ _ h0 hs
  have hstart : (pll_start sensor pll ext_freq link_freq bpp).pll.pre_pll_mul = 0 := rfl
  have hiff : s.pll.pre_pll_mul ≠ 0 ↔
      ∃ t ∈ pll_candidates sensor pll ext_freq link_freq bpp,
        pll_checks (pll_setup sensor ext_freq link_freq bpp) t ∧
          pll_pix_clk (pll_setup sensor ext_freq link_freq bpp) t ≠ 0 := by
    rw [hacc]
    constructor
    · rintro (h | ⟨t, tm, ⟨tg, tc⟩, tx⟩)
      · exact absurd hstart h
      · exact ⟨t, List.mem_filter.mpr ⟨tm, decide_eq_true tg⟩, tc, tx⟩
    · rintro ⟨t, tm, tc, tx⟩
      obtain ⟨tm1, tg⟩ := List.mem_filter.mp tm
      exact Or.inr ⟨t, tm1, ⟨of_decide_eq_true tg, tc⟩, tx⟩
  refine ⟨_, hres, ?_, ?_, ?_⟩
  · by_cases hz : s.pll.pre_pll_mul = 0
    · right
      rw [if_pos hz]
    · left
      rw [if_neg hz]
  · by_cases hz : s.pll.pre_pll_mul = 0
    · rw [if_pos hz]
      have hno : ¬ ∃ t ∈ pll_candidates sensor pll ext_freq link_freq bpp,
          pll_checks (pll_setup sensor ext_freq link_freq bpp) t ∧
            pll_pix_clk (pll_setup sensor ext_freq link_freq bpp) t ≠ 0 :=
        fun h => (hiff.mpr h) hz
      constructor
      · intro _ t tm hc
        exact hno ⟨t, tm, hc⟩
      · intro _
        rfl
    · rw [if_neg hz]
      obtain ⟨t, tm, hc⟩ := hiff.mp hz
      constructor
      · intro h
        have h1 : (0 : Int) = -EINVAL := h
        exact absurd h1 (by decide)
      · intro h
        exact absurd hc (h t tm)
  · intro h
    have hz := hiff.mpr h
    rw [if_neg hz]
    exact ⟨rfl, hz⟩

/-- Witness for C3: the theorem at an AR0144 on two MIPI lanes with a
24 MHz clock, a 384 MHz link and 12 bits per pixel. -/
theorem calculate_pll_einval_iff_witness :
    (ar0144_on_mipi 384000000 2).model ∈ ar0144_models ∧
    ∃ r : Int × ar0144_pll_config,
      (∀ fuel, pll_fuel (ar0144_on_mipi 384000000 2) ≤ fuel →
        ar0144_calculate_pll fuel (ar0144_on_mipi 384000000 2) pll_zero
          24000000 384000000 12 = some r) ∧
      (r.1 = 0 ∨ r.1 = -EINVAL) ∧
      (r.1 = -EINVAL ↔
        ∀ t ∈ pll_candidates (ar0144_on_mipi 384000000 2) pll_zero 24000000 384000000 12,
          ¬ (pll_checks (pll_setup (ar0144_on_mipi 384000000 2) 24000000 384000000 12) t ∧
            pll_pix_clk (pll_setup (ar0144_on_mipi 384000000 2) 24000000 384000000 12) t ≠ 0)) ∧
      ((∃ t ∈ pll_candidates (ar0144_on_mipi 384000000 2) pll_zero 24000000 384000000 12,
          pll_checks (pll_setup (ar0144_on_mipi 384000000 2) 24000000 384000000 12) t ∧
            pll_pix_clk (pll_setup (ar0144_on_mipi 384000000 2) 24000000 384000000 12) t ≠ 0) →
        r.1 = 0 ∧ r.2.pre_pll_mul ≠ 0) :=
  ⟨by decide,
    calculate_pll_einval_iff (ar0144_on_mipi 384000000 2) pll_zero 24000000 384000000 12
      (by decide)⟩

/-- C4: with the AR0144 limit table on the serial bus, a 24 MHz external
clock, a 384 MHz target link frequency, 2 lanes and 12 bits per pixel,
`ar0144_calculate_pll` returns success with `vco_freq` within
`[384 MHz, 768 MHz]` and `pix_freq` not above the derived target of
128 MHz. -/
theorem calculate_pll_mipi_2lane_12bpp (sensor : ar0144) (pll : ar0144_pll_config)
    (hchip : sensor.model.chip = AR0144)
    (hlimits : sensor.model.data.limits = ar0144_limits)
    (hbus : sensor.info.bus_type = V4L2_MBUS_CSI2_DPHY)
    (hlanes : sensor.info.num_lanes = 2) :
    ∃ r : Int × ar0144_pll_config,
      (∀ fuel, pll_fuel sensor ≤ fuel →
        ar0144_calculate_pll fuel sensor pll 24000000 384000000 12 = some r) ∧
      r.1 = 0 ∧ 384000000 ≤ r.2.vco_freq ∧ r.2.vco_freq ≤ 768000000 ∧
      r.2.pix_freq ≤ 128000000 := by
  have hl : pll_limits_ok sensor.model.data.limits := by rw [hlimits]; decide
  have hsetup : pll_setup sensor 24000000 384000000 12 =
      ⟨ar0144_limits, V4L2_MBUS_CSI2_DPHY, 2, 24000000, 12, 128000000, 1⟩ := by
    unfold pll_setup
    rw [hlimits, hbus, hlanes, hchip]
    rfl
  have hop : pll_op_multiplier sensor = 2 := by
    unfold pll_op_multiplier
    rw [hchip, hlanes]
    rfl
  obtain ⟨s, hinv, hs, hres⟩ := calculate_pll_run sensor pll 24000000 384000000 12 hl
  have hne : s.pll.pre_pll_mul ≠ 0 := by
    refine calculate_pll_hit sensor pll 24000000 384000000 12 hl 1 1 32 (by decide) ?_ ?_ s hs
    · rw [hsetup, hop]
      decide
    · rw [hsetup, hop]
      decide
  obtain ⟨hst, -, -⟩ := hinv.2.2.2.2 hne
  obtain ⟨b1, b2, -, b4⟩ := pll_stored_bounds (pll_setup sensor 24000000 384000000 12) hl _ _ hst
  rw [hsetup] at b1 b2 b4
  refine ⟨_, hres, ?_, b1, b2, b4⟩
  rw [if_neg hne]

/-- Witness for C4: the AR0144 on two MIPI lanes. -/
theorem calculate_pll_mipi_2lane_12bpp_witness :
    ∃ r : Int × ar0144_pll_config,
      (∀ fuel, pll_fuel (ar0144_on_mipi 384000000 2) ≤ fuel →
        ar0144_calculate_pll fuel (ar0144_on_mipi 384000000 2) pll_zero
          24000000 384000000 12 = some r) ∧
      r.1 = 0 ∧ 384000000 ≤ r.2.vco_freq ∧ r.2.vco_freq ≤ 768000000 ∧
      r.2.pix_freq ≤ 128000000 :=
  calculate_pll_mipi_2lane_12bpp (ar0144_on_mipi 384000000 2) pll_zero rfl rfl rfl rfl

/-- C5: on success of `ar0144_calculate_pll` the stored serial frequency is
derived from the stored pixel clock: `ser_freq = pix_freq` on the parallel
bus and `ser_freq = pix_freq * bpp / (2 * lanes)` on the serial bus. The
lane count is the one the probe code accepts (between 1 and the maximum of
the chip) and `bpp` is an `unsigned int`. -/
theorem calculate_pll_ser_freq (sensor : ar0144) (pll : ar0144_pll_config)
    (ext_freq link_freq bpp : Nat) (hmodel : sensor.model ∈ ar0144_models)
    (hlanes1 : 1 ≤ sensor.info.num_lanes)
    (hlanes2 : sensor.info.num_lanes ≤ sensor.model.data.max_lanes)
    (hbpp : bpp < 2 ^ 32) :
    ∃ r : Int × ar0144_pll_config,
      (∀ fuel, pll_fuel sensor ≤ fuel →
        ar0144_calculate_pll fuel sensor pll ext_freq link_freq bpp = some r) ∧
      (r.1 = 0 →
        r.2.ser_freq =
          if sensor.info.bus_type = V4L2_MBUS_PARALLEL then r.2.pix_freq
          else r.2.pix_freq * bpp / (2 * sensor.info.num_lanes)) := by
  have hl := models_limits_ok sensor.model hmodel
  have hmax : sensor.model.data.max_lanes ≤ 4 := by
    simp only [ar0144_models, List.mem_cons, List.mem_singleton, List.not_mem_nil,
      or_false] at hmodel
    rcases hmodel with h | h | h | h | h | h <;> rw [h] <;> decide
  obtain ⟨s, hinv, -, hres⟩ := calculate_pll_run sensor pll ext_freq link_freq bpp hl
  refine ⟨_, hres, ?_⟩
  intro h0
  have hne : s.pll.pre_pll_mul ≠ 0 := by
    intro hz
    rw [if_pos hz] at h0
    have h1 : (-EINVAL : Int) = 0 := h0
    exact absurd h1 (by decide)
  obtain ⟨hst, -, -⟩ := hinv.2.2.2.2 hne
  obtain ⟨d, m, v, k, -, -, -, hp, hstore⟩ := hst
  show s.pll.ser_freq = if sensor.info.bus_type = V4L2_MBUS_PARALLEL then s.pll.pix_freq
    else s.pll.pix_freq * bpp / (2 * sensor.info.num_lanes)
  have e1 : s.pll.ser_freq =
      if sensor.info.bus_type = V4L2_MBUS_PARALLEL then s.pll.pix_freq
      else ar0144_clk_mul_div s.pll.pix_freq bpp (u32 (2 * sensor.info.num_lanes)) := by
    have e2 : s.pll.pix_freq = pll_pix_clk (pll_setup sensor ext_freq link_freq bpp)
        ⟨d, m, v, bpp >>> k, pll_op_multiplier sensor >>> k, 0, s.pll⟩ := by
      conv_lhs => rw [← hstore]
      rfl
    rw [e2]
    conv_lhs => rw [← hstore]
    rfl
  have hpix : s.pll.pix_freq ≤ 90000000 * 4 := by
    have e2 : s.pll.pix_freq = pll_pix_clk (pll_setup sensor ext_freq link_freq bpp)
        ⟨d, m, v, bpp >>> k, pll_op_multiplier sensor >>> k, 0, s.pll⟩ := by
      conv_lhs => rw [← hstore]
      rfl
    have hw : pll_word_clk (pll_setup sensor ext_freq link_freq bpp)
        ⟨d, m, v, bpp >>> k, pll_op_multiplier sensor >>> k, 0, s.pll⟩ ≤ 90000000 :=
      le_trans hp.2.2.1 hl.2.2.2.2
    have hm : (pll_setup sensor ext_freq link_freq bpp).pix_clk_multiplier ≤ 4 := by
      unfold pll_setup
      simp only []
      split_ifs <;> omega
    rw [e2]
    unfold pll_pix_clk
    exact le_trans (u64_le _) (Nat.mul_le_mul hw hm)
  rw [e1]
  split_ifs
  · rfl
  · have hu : u32 (2 * sensor.info.num_lanes) = 2 * sensor.info.num_lanes :=
      u32_of_lt (by omega)
    have hprod : s.pll.pix_freq * bpp < 2 ^ 64 :=
      calc s.pll.pix_freq * bpp ≤ (90000000 * 4) * 2 ^ 32 :=
            Nat.mul_le_mul hpix (le_of_lt hbpp)
        _ < 2 ^ 64 := by norm_num
    unfold ar0144_clk_mul_div
    rw [hu, if_neg (by omega), u64, Nat.mod_eq_of_lt hprod]

/-- Witness for C5: an AR0144 on two MIPI lanes, where the configuration is
found and `ser_freq = pix_freq * 12 / 4`. -/
theorem calculate_pll_ser_freq_witness :
    (ar0144_on_mipi 384000000 2).model ∈ ar0144_models ∧
    1 ≤ (ar0144_on_mipi 384000000 2).info.num_lanes ∧
    (ar0144_on_mipi 384000000 2).info.num_lanes ≤
      (ar0144_on_mipi 384000000 2).model.data.max_lanes ∧
    12 < 2 ^ 32 ∧
    ∃ r : Int × ar0144_pll_config,
      (∀ fuel, pll_fuel (ar0144_on_mipi 384000000 2) ≤ fuel →
        ar0144_calculate_pll fuel (ar0144_on_mipi 384000000 2) pll_zero
          24000000 384000000 12 = some r) ∧
      r.1 = 0 ∧ r.2.ser_freq = r.2.pix_freq * 12 / (2 * 2) := by
  refine ⟨by decide, by decide, by decide, by norm_num, ?_⟩
  obtain ⟨r, h1, h2⟩ :=
    calculate_pll_ser_freq (ar0144_on_mipi 384000000 2) pll_zero 24000000 384000000 12
      (by decide) (by decide) (by decide) (by norm_num)
  have h0 : r.1 = 0 :=
    calculate_pll_success (ar0144_on_mipi 384000000 2) pll_zero 24000000 384000000 12
      (by decide) 1 1 32 (by decide) (by decide) (by decide) _ (le_refl _) r (h1 _ (le_refl _))
  exact ⟨r, h1, h0, h2 h0⟩

end pll_result

section pll_optimality

/-- Inside the machine ranges the frequencies computed for a candidate are
the exact quotients of the specification. -/
theorem pll_candidate_math (a : pll_args) (t : pll_sweep) (hd : 1 ≤ t.div)
    (hm : t.mul ≤ 254) (hv : t.vt_sys_div ≤ 16) (hext : a.ext_freq < 2 ^ 32)
    (hpd : t.vt_pix_div < 2 ^ 28) (hpcm : a.pix_clk_multiplier < 2 ^ 28) :
    pll_vco a t = a.ext_freq * t.mul / t.div ∧
    pll_word_clk a t = a.ext_freq * t.mul / t.div / (t.vt_pix_div * t.vt_sys_div) ∧
    (pll_word_clk a t ≤ 90000000 →
      pll_pix_clk a t = pll_word_clk a t * a.pix_clk_multiplier) := by
  have hprod : a.ext_freq * t.mul < 2 ^ 64 :=
    calc a.ext_freq * t.mul ≤ 2 ^ 32 * 254 := Nat.mul_le_mul (le_of_lt hext) hm
      _ < 2 ^ 64 := by norm_num
  have e1 : pll_vco a t = a.ext_freq * t.mul / t.div := by
    unfold pll_vco ar0144_clk_mul_div
    rw [if_neg (by omega), u64, Nat.mod_eq_of_lt hprod]
  have hvco : a.ext_freq * t.mul / t.div < 2 ^ 64 := lt_of_le_of_lt (Nat.div_le_self _ _) hprod
  have hdiv : t.vt_pix_div * t.vt_sys_div < 2 ^ 32 :=
    calc t.vt_pix_div * t.vt_sys_div ≤ (2 ^ 28 - 1) * 16 :=
          Nat.mul_le_mul (Nat.le_sub_one_of_lt hpd) hv
      _ < 2 ^ 32 := by norm_num
  have e2 : pll_word_clk a t = a.ext_freq * t.mul / t.div / (t.vt_pix_div * t.vt_sys_div) := by
    unfold pll_word_clk ar0144_clk_mul_div
    rw [e1, u32_of_lt hdiv, Nat.mul_one, u64, Nat.mod_eq_of_lt hvco]
    split_ifs with hz
    · rw [hz, Nat.div_zero]
    · rfl
  refine ⟨e1, e2, ?_⟩
  intro hw
  unfold pll_pix_clk
  have : pll_word_clk a t * a.pix_clk_multiplier < 2 ^ 64 :=
    calc pll_word_clk a t * a.pix_clk_multiplier ≤ 90000000 * 2 ^ 28 :=
          Nat.mul_le_mul hw (le_of_lt hpcm)
      _ < 2 ^ 64 := by norm_num
  rw [u64, Nat.mod_eq_of_lt this]

/-- Inside the machine ranges the target pixel rate computed by the driver
is the one of the specification. -/
theorem pll_setup_target_eq (sensor : ar0144) (ext_freq link_freq bpp : Nat)
    (hlink : link_freq < 2 ^ 32) (hlanes : sensor.info.num_lanes < 2 ^ 28) :
    (pll_setup sensor ext_freq link_freq bpp).pix_target =
      pll_target_spec sensor.info.bus_type link_freq sensor.info.num_lanes bpp := by
  unfold pll_setup pll_target_spec
  simp only []
  split_ifs
  · exact Nat.mod_eq_of_lt (by omega)
  · have hu : u32 (2 * sensor.info.num_lanes) = 2 * sensor.info.num_lanes :=
      u32_of_lt (by omega)
    have hprod : link_freq * (2 * sensor.info.num_lanes) < 2 ^ 64 :=
      calc link_freq * (2 * sensor.info.num_lanes) ≤ 2 ^ 32 * 2 ^ 29 :=
            Nat.mul_le_mul (le_of_lt hlink) (by omega)
        _ < 2 ^ 64 := by norm_num
    unfold ar0144_clk_mul_div
    rw [hu, u64, Nat.mod_eq_of_lt hprod, Nat.mul_assoc]
    split_ifs with hz
    · rw [hz, Nat.div_zero]
    · rfl

/-- Amended C2: when `ar0144_calculate_pll` succeeds, the returned pixel
clock is the best one over the grid that the sweep steps through: for every
pre-divider `d`, even multiplier `m` and system divider `v` in their
ranges, with `v` equal to 1 or even and `v` times the initial operational
multiplier not above the divider maximum, whose VCO, word clock and pixel
clock pass the checks, the pixel clock of that candidate is not greater
than the returned `pix_freq`. The inputs are inside their machine ranges. -/
theorem calculate_pll_best (sensor : ar0144) (pll : ar0144_pll_config)
    (ext_freq link_freq bpp : Nat) (hmodel : sensor.model ∈ ar0144_models)
    (hext : ext_freq < 2 ^ 32) (hlink : link_freq < 2 ^ 32)
    (hlanes : sensor.info.num_lanes < 2 ^ 28) (hbpp : bpp < 2 ^ 28) :
    ∃ r : Int × ar0144_pll_config,
      (∀ fuel, pll_fuel sensor ≤ fuel →
        ar0144_calculate_pll fuel sensor pll ext_freq link_freq bpp = some r) ∧
      (r.1 = 0 →
        ∀ d m v, pll_spec_candidate sensor ext_freq link_freq bpp d m v →
          (v = 1 ∨ v % 2 = 0) →
          v * pll_op_multiplier sensor ≤ sensor.model.data.limits.vt_div_lim.max →
          pll_spec_pix sensor ext_freq bpp d m v ≤ r.2.pix_freq) := by
  have hl := models_limits_ok sensor.model hmodel
  have hl2 : pll_limits_ok (pll_setup sensor ext_freq link_freq bpp).limits := hl
  obtain ⟨s, hinv, hs, hres⟩ := calculate_pll_run sensor pll ext_freq link_freq bpp hl
  have h0 := pll_inv_start sensor pll ext_freq link_freq bpp hl
  refine ⟨_, hres, ?_⟩
  intro hret d m v hc hv hop
  have hne : s.pll.pre_pll_mul ≠ 0 := by
    intro hz
    rw [if_pos hz] at hret
    have h1 : (-EINVAL : Int) = 0 := hret
    exact absurd h1 (by decide)
  obtain ⟨-, hsum, -⟩ := hinv.2.2.2.2 hne
  show pll_spec_pix sensor ext_freq bpp d m v ≤ s.pll.pix_freq
  obtain ⟨hd, hm, hvt, hwc⟩ := hl
  obtain ⟨⟨c1, c2⟩, ⟨c3, c4, c5⟩, ⟨c6, c7⟩, ⟨c8, c9⟩, c10, c11⟩ := hc
  rw [hd] at c1 c2
  rw [hm] at c3 c4
  rw [hvt] at c6 c7 hop
  simp only [] at c1 c2 c3 c4 c6 c7 hop
  have hg : pll_grid d v m := ⟨c1, c2, by unfold pll_vt_step; omega, c3, c4, c5⟩
  have hpos : pll_pos_le (pll_start sensor pll ext_freq link_freq bpp) d v m := by
    have e1 : u32 1 = 1 := u32_of_lt (by norm_num)
    have e32 : u32 32 = 32 := u32_of_lt (by norm_num)
    unfold pll_pos_le pll_start pll_setup
    simp only [hd, hm, hvt, e1, e32]
    omega
  obtain ⟨t, tm, q1, q2, q3, q4, q5⟩ := pll_loop_covers _ hl2 _ _ _ h0.1 hs d v m hg hpos
  have q4b : t.vt_pix_div = bpp := q4
  have q5b : t.op_multiplier = pll_op_multiplier sensor := q5
  have hpcm : (pll_setup sensor ext_freq link_freq bpp).pix_clk_multiplier < 2 ^ 28 := by
    unfold pll_setup
    simp only []
    split_ifs <;> omega
  obtain ⟨m1, m2, m3⟩ := pll_candidate_math (pll_setup sensor ext_freq link_freq bpp) t
    (by omega) (by omega) (by omega) hext (by omega) hpcm
  have hext2 : (pll_setup sensor ext_freq link_freq bpp).ext_freq = ext_freq := rfl
  have hpm : (pll_setup sensor ext_freq link_freq bpp).pix_clk_multiplier =
      pll_pix_multiplier sensor := rfl
  have hlim : (pll_setup sensor ext_freq link_freq bpp).limits = sensor.model.data.limits := rfl
  rw [hext2, q1, q3] at m1
  rw [hext2, q1, q2, q3, q4b] at m2
  have hw90 : pll_word_clk (pll_setup sensor ext_freq link_freq bpp) t ≤ 90000000 := by
    rw [m2]
    exact le_trans c10 hwc.2
  have m4 := m3 hw90
  rw [m2, hpm] at m4
  have hpixeq : pll_pix_clk (pll_setup sensor ext_freq link_freq bpp) t =
      pll_spec_pix sensor ext_freq bpp d m v := m4
  have hpass : pll_passes (pll_setup sensor ext_freq link_freq bpp) t := by
    refine ⟨?_, ⟨?_, ?_⟩, ?_, ?_⟩
    · unfold pll_guard
      rw [q2, q5b, hlim, hvt]
      exact le_trans (u32_le _) hop
    · rw [m1, hlim]
      exact c8
    · rw [m1, hlim]
      exact c9
    · rw [m2, hlim]
      exact c10
    · rw [hpixeq, pll_setup_target_eq sensor ext_freq link_freq bpp hlink hlanes]
      exact c11
  have hbest := (pll_loop_best _ hl2 (pll_op_multiplier sensor) _ _ _ h0 hs).2 t tm hpass
  have hle : pll_pix_clk (pll_setup sensor ext_freq link_freq bpp) t ≤
      (pll_setup sensor ext_freq link_freq bpp).pix_target := hpass.2.2.2
  rw [hpixeq] at hbest hle
  omega

/-- Witness for amended C2: on an AR0144 on the parallel bus with a 24 MHz
clock, a 74.25 MHz link and 12 bits per pixel the search succeeds, and the
returned pixel clock is at least the 64 MHz of the candidate with
pre-divider 1, multiplier 32 and system divider 1. -/
theorem calculate_pll_best_witness :
    (ar0144_on_parallel 74250000).model ∈ ar0144_models ∧
    (24000000 < 2 ^ 32 ∧ 74250000 < 2 ^ 32 ∧
      (ar0144_on_parallel 74250000).info.num_lanes < 2 ^ 28 ∧ 12 < 2 ^ 28) ∧
    ∃ r : Int × ar0144_pll_config,
      (∀ fuel, pll_fuel (ar0144_on_parallel 74250000) ≤ fuel →
        ar0144_calculate_pll fuel (ar0144_on_parallel 74250000) pll_zero
          24000000 74250000 12 = some r) ∧
      r.1 = 0 ∧ 64000000 ≤ r.2.pix_freq := by
  refine ⟨by decide, ⟨by norm_num, by norm_num, by decide, by norm_num⟩, ?_⟩
  obtain ⟨r, h1, h2⟩ :=
    calculate_pll_best (ar0144_on_parallel 74250000) pll_zero 24000000 74250000 12
      (by decide) (by norm_num) (by norm_num) (by decide) (by norm_num)
  have h0 : r.1 = 0 :=
    calculate_pll_success (ar0144_on_parallel 74250000) pll_zero 24000000 74250000 12
      (by decide) 1 1 32 (by decide) (by decide) (by decide) _ (le_refl _) r (h1 _ (le_refl _))
  exact ⟨r, h1, h0, h2 h0 1 32 1 (by decide) (Or.inl rfl) (by decide)⟩

/-- Counterexample to C2 as stated: on an AR0144 on the parallel bus with a
24 MHz clock, a target of 2133333 Hz and 12 bits per pixel the search
succeeds, the candidate with pre-divider 2, multiplier 32 and system
divider 15 passes every check of the claim with a pixel clock of
2133333 Hz, and the returned pixel clock is smaller: the sweep never uses
the odd system divider 15. -/
theorem calculate_pll_best_counterexample :
    ∃ r : Int × ar0144_pll_config,
      ar0144_calculate_pll (pll_fuel (ar0144_on_parallel 2133333))
        (ar0144_on_parallel 2133333) pll_zero 24000000 2133333 12 = some r ∧
      r.1 = 0 ∧
      pll_spec_candidate (ar0144_on_parallel 2133333) 24000000 2133333 12 2 32 15 ∧
      r.2.pix_freq < pll_spec_pix (ar0144_on_parallel 2133333) 24000000 12 2 32 15 := by
  have hl : pll_limits_ok (ar0144_on_parallel 2133333).model.data.limits := by decide
  obtain ⟨s, hinv, hs, hres⟩ :=
    calculate_pll_run (ar0144_on_parallel 2133333) pll_zero 24000000 2133333 12 hl
  have hne : s.pll.pre_pll_mul ≠ 0 :=
    calculate_pll_hit (ar0144_on_parallel 2133333) pll_zero 24000000 2133333 12 hl 2 16 32
      (by decide) (by decide) (by decide) s hs
  refine ⟨_, hres _ (le_refl _), by rw [if_neg hne], by decide, ?_⟩
  have hspec : pll_spec_pix (ar0144_on_parallel 2133333) 24000000 12 2 32 15 = 2133333 := by
    decide
  rw [hspec]
  show s.pll.pix_freq < 2133333
  obtain ⟨hst, -, -⟩ := hinv.2.2.2.2 hne
  obtain ⟨d, m, v, k, hg, hk, -, hp, hstore⟩ := hst
  have hk0 : k = 0 := hk (by decide)
  subst hk0
  replace hp : pll_passes (pll_setup (ar0144_on_parallel 2133333) 24000000 2133333 12)
      ⟨d, m, v, 12, 1, 0, s.pll⟩ := hp
  have e2 : s.pll.pix_freq =
      pll_pix_clk (pll_setup (ar0144_on_parallel 2133333) 24000000 2133333 12)
        ⟨d, m, v, 12, 1, 0, s.pll⟩ := by
    conv_lhs => rw [← hstore]
    rfl
  obtain ⟨g1, g2, g3, g4, g5, g6⟩ := hg
  unfold pll_vt_step at g3
  obtain ⟨m1, m2, m3⟩ := pll_candidate_math
    (pll_setup (ar0144_on_parallel 2133333) 24000000 2133333 12) ⟨d, m, v, 12, 1, 0, s.pll⟩
    (show 1 ≤ d from g1) (show m ≤ 254 from g5) (show v ≤ 16 by omega)
    (show 24000000 < 2 ^ 32 by norm_num) (show 12 < 2 ^ 28 by norm_num)
    (show 1 < 2 ^ 28 by norm_num)
  obtain ⟨-, ⟨p1, p2⟩, p3, p4⟩ := hp
  have m4 := m3 (le_trans p3 (show 74250000 ≤ 90000000 by norm_num))
  rw [← e2] at m4 p4
  rw [m2] at m4
  rw [m1] at p1 p2
  replace p1 : 384000000 ≤ 24000000 * m / d := p1
  replace p2 : 24000000 * m / d ≤ 768000000 := p2
  replace p4 : s.pll.pix_freq ≤ 2133333 := p4
  replace m4 : s.pll.pix_freq = 24000000 * m / d / (12 * v) * 1 := m4
  rw [Nat.mul_one] at m4
  rw [m4] at p4 ⊢
  by_contra hge
  have heq : 24000000 * m / d / (12 * v) = 2133333 := by omega
  have hv0 : 0 < 12 * v := by omega
  have k1 : 24000000 * m / d / (12 * v) * (12 * v) ≤ 24000000 * m / d := Nat.div_mul_le_self _ _
  have k2 : 24000000 * m / d < 12 * v * (24000000 * m / d / (12 * v) + 1) :=
    Nat.lt_mul_div_succ _ hv0
  rw [heq] at k1 k2
  have hv16 : v = 16 := by omega
  subst hv16
  have k3 : 409599936 * d ≤ 24000000 * m := by
    rw [← Nat.le_div_iff_mul_le (by omega)]
    omega
  have k4 : 24000000 * m < 409600128 * d := by
    have : 24000000 * m / d < 409600128 := by omega
    rw [Nat.div_lt_iff_lt_mul (by omega)] at this
    exact this
  clear k1 k2 heq hge p1 p2 p3 p4 m1 m2 m3 m4 e2 hstore hv0 hk hspec hres hs hinv hne hl
  interval_cases d <;> omega

end pll_optimality

section format_negotiation

/-- The loop of `ar0144_find_skipfactor` as a chain of four tests. -/
theorem find_skipfactor_eq (input output : Nat) :
    ar0144_find_skipfactor input output =
      if input ≤ output then 1
      else if input / 2 ≤ output then 2
      else if input / 4 ≤ output then 4
      else if input / 8 ≤ output then 8
      else 16 := by
  have hr : List.range 4 = [0, 1, 2, 3] := by decide
  unfold ar0144_find_skipfactor
  simp only [hr, List.find?, Nat.shiftRight_eq_div_pow]
  by_cases h0 : input ≤ output
  · simp [h0]
  · by_cases h1 : input / 2 ≤ output
    · simp [h0, h1]
    · by_cases h2 : input / 4 ≤ output
      · simp [h0, h1, h2]
      · by_cases h3 : input / 8 ≤ output
        · simp [h0, h1, h2, h3]
        · simp [h0, h1, h2, h3]

/-- Counterexample to C6 as stated: for a crop dimension of 1280 and a
requested dimension of 100 the skip factor is 16, which is above 8. -/
theorem find_skipfactor_counterexample :
    ar0144_find_skipfactor 1280 100 = 16 ∧ ¬ ar0144_find_skipfactor 1280 100 ≤ 8 := by
  decide

/-- Amended C6: for every crop dimension `C` and requested dimension `R`,
the skip factor returned by `ar0144_find_skipfactor` is a power of two not
greater than 16; it is 16 exactly when no factor in {1, 2, 4, 8} brings
`C / s` down to `R`, and otherwise it is at most 8. -/
theorem find_skipfactor_pow2 (C R : Nat) :
    (∃ i, i ≤ 4 ∧ ar0144_find_skipfactor C R = 2 ^ i) ∧
    ar0144_find_skipfactor C R ≤ 16 ∧
    (ar0144_find_skipfactor C R = 16 ↔ ∀ s ∈ [1, 2, 4, 8], ¬ C / s ≤ R) := by
  rw [find_skipfactor_eq]
  simp only [List.mem_cons, List.mem_singleton, List.not_mem_nil, or_false, forall_eq_or_imp,
    forall_eq, Nat.div_one]
  split_ifs with h0 h1 h2 h3
  · exact ⟨⟨0, by omega, rfl⟩, by omega, by omega⟩
  · exact ⟨⟨1, by omega, rfl⟩, by omega, by omega⟩
  · exact ⟨⟨2, by omega, rfl⟩, by omega, by omega⟩
  · exact ⟨⟨3, by omega, rfl⟩, by omega, by omega⟩
  · exact ⟨⟨4, by omega, rfl⟩, by omega, by omega⟩

/-- For a request of at least 1, the factor computed from the clamped
request is the smallest factor in {1, 2, 4, 8} that brings the crop
dimension down to the request, whenever such a factor exists. -/
theorem skip_axis (C R : Nat) (hR : 1 ≤ R) (h : ∃ s ∈ [1, 2, 4, 8], C / s ≤ R) :
    skip_choice C R (ar0144_find_skipfactor C (clamp_t R 1 C)) := by
  have hc : clamp_t R 1 C = if R < C then R else C := by
    unfold clamp_t min_t max_t
    split_ifs <;> omega
  unfold skip_choice
  rw [find_skipfactor_eq, hc]
  simp only [List.mem_cons, List.mem_singleton, List.not_mem_nil, or_false, forall_eq_or_imp,
    forall_eq, Nat.div_one, exists_eq_or_imp, exists_eq_left] at h ⊢
  split_ifs <;> omega

/-- While streaming, `ar0144_set_fmt` on the active format returns `-EBUSY`
and changes nothing. -/
theorem set_fmt_busy (sensor : ar0144) (state : v4l2_subdev_state) (format : v4l2_subdev_format)
    (hb : sensor.is_streaming = true ∧ format.which = V4L2_SUBDEV_FORMAT_ACTIVE) :
    ar0144_set_fmt sensor state format = (-EBUSY, sensor, state, format) := by
  unfold ar0144_set_fmt
  rw [if_pos hb]

/-- The effect of `ar0144_set_fmt` when it does not return `-EBUSY`. -/
theorem set_fmt_idle (sensor : ar0144) (state : v4l2_subdev_state) (format : v4l2_subdev_format)
    (hb : ¬ (sensor.is_streaming = true ∧ format.which = V4L2_SUBDEV_FORMAT_ACTIVE)) :
    (ar0144_set_fmt sensor state format).1 = 0 ∧
    (ar0144_set_fmt sensor state format).2.2.2.format.width =
      sensor.crop.width /
        ar0144_find_skipfactor sensor.crop.width (clamp_t format.format.width 1 sensor.crop.width) ∧
    (ar0144_set_fmt sensor state format).2.2.2.format.height =
      sensor.crop.height /
        ar0144_find_skipfactor sensor.crop.height
          (clamp_t format.format.height 1 sensor.crop.height) ∧
    (format.which = V4L2_SUBDEV_FORMAT_ACTIVE →
      (ar0144_set_fmt sensor state format).2.1.w_scale =
        ar0144_find_skipfactor sensor.crop.width
          (clamp_t format.format.width 1 sensor.crop.width) ∧
      (ar0144_set_fmt sensor state format).2.1.h_scale =
        ar0144_find_skipfactor sensor.crop.height
          (clamp_t format.format.height 1 sensor.crop.height) ∧
      (ar0144_set_fmt sensor state format).2.1.fmt.width =
        sensor.crop.width /
          ar0144_find_skipfactor sensor.crop.width
            (clamp_t format.format.width 1 sensor.crop.width) ∧
      (ar0144_set_fmt sensor state format).2.1.fmt.height =
        sensor.crop.height /
          ar0144_find_skipfactor sensor.crop.height
            (clamp_t format.format.height 1 sensor.crop.height) ∧
      (ar0144_set_fmt sensor state format).2.1.model = sensor.model ∧
      (∃ v, (ar0144_set_fmt sensor state format).2.1.hlen =
        clamp_t v (u32 sensor.model.data.limits.hlen.min)
          (u32 sensor.model.data.limits.hlen.max)) ∧
      (∃ v, (ar0144_set_fmt sensor state format).2.1.vlen =
        clamp_t v (u32 sensor.model.data.limits.vlen.min)
          (u32 sensor.model.data.limits.vlen.max))) ∧
    (format.which = V4L2_SUBDEV_FORMAT_TRY →
      (ar0144_set_fmt sensor state format).2.1 = sensor) := by
  unfold ar0144_set_fmt
  rw [if_neg hb]
  obtain ⟨which, f⟩ := format
  cases which
  · refine ⟨rfl, rfl, rfl, ?_, ?_⟩
    · intro h
      cases h
    · intro _
      rfl
  · refine ⟨rfl, rfl, rfl, ?_, ?_⟩
    · intro _
      exact ⟨rfl, rfl, rfl, rfl, rfl, ⟨_, rfl⟩, ⟨_, rfl⟩⟩
    · intro h
      cases h

/-- Counterexample to C7 as stated: with a 4x4 crop and a request of 0x0
the factor 8 satisfies `4 / 8 ≤ 0`, so it would be the smallest such factor
with an output of 0, but `ar0144_set_fmt` chooses the factor 4 and reports
an output of 1x1 (the request is raised to 1 first). -/
theorem set_fmt_skipfactor_counterexample :
    ar0144_small_crop.crop.width = 4 ∧ ar0144_small_crop.crop.height = 4 ∧
    skip_choice 4 0 8 ∧
    (ar0144_set_fmt ar0144_small_crop state_zero (fmt_request 0 0)).1 = 0 ∧
    (ar0144_set_fmt ar0144_small_crop state_zero (fmt_request 0 0)).2.1.w_scale = 4 ∧
    (ar0144_set_fmt ar0144_small_crop state_zero (fmt_request 0 0)).2.1.h_scale = 4 ∧
    (ar0144_set_fmt ar0144_small_crop state_zero (fmt_request 0 0)).2.2.2.format.width = 1 ∧
    (ar0144_set_fmt ar0144_small_crop state_zero (fmt_request 0 0)).2.2.2.format.height = 1 := by
  decide

/-- Amended C7: for every crop dimension `C` and requested dimension
`R ≥ 1` for which some factor `s` in {1, 2, 4, 8} satisfies `C / s ≤ R`, a
successful `ar0144_set_fmt` chooses the smallest such `s` for that axis and
reports the output dimension `C / s` (for the active format the factor and
the output dimension are also stored in the device state). -/
theorem set_fmt_skipfactor (sensor : ar0144) (state : v4l2_subdev_state)
    (format : v4l2_subdev_format) (hret : (ar0144_set_fmt sensor state format).1 = 0) :
    (1 ≤ format.format.width →
      (∃ s ∈ [1, 2, 4, 8], sensor.crop.width / s ≤ format.format.width) →
      ∃ s, skip_choice sensor.crop.width format.format.width s ∧
        (ar0144_set_fmt sensor state format).2.2.2.format.width = sensor.crop.width / s ∧
        (format.which = V4L2_SUBDEV_FORMAT_ACTIVE →
          (ar0144_set_fmt sensor state format).2.1.w_scale = s ∧
          (ar0144_set_fmt sensor state format).2.1.fmt.width = sensor.crop.width / s)) ∧
    (1 ≤ format.format.height →
      (∃ s ∈ [1, 2, 4, 8], sensor.crop.height / s ≤ format.format.height) →
      ∃ s, skip_choice sensor.crop.height format.format.height s ∧
        (ar0144_set_fmt sensor state format).2.2.2.format.height = sensor.crop.height / s ∧
        (format.which = V4L2_SUBDEV_FORMAT_ACTIVE →
          (ar0144_set_fmt sensor state format).2.1.h_scale = s ∧
          (ar0144_set_fmt sensor state format).2.1.fmt.height = sensor.crop.height / s)) := by
  have hbusy : ¬ (sensor.is_streaming = true ∧ format.which = V4L2_SUBDEV_FORMAT_ACTIVE) := by
    intro hb
    rw [set_fmt_busy sensor state format hb] at hret
    have h1 : (-EBUSY : Int) = 0 := hret
    exact absurd h1 (by decide)
  obtain ⟨-, e1, e2, e3, -⟩ := set_fmt_idle sensor state format hbusy
  constructor
  · intro h1 h2
    exact ⟨_, skip_axis sensor.crop.width format.format.width h1 h2, e1,
      fun hw => ⟨(e3 hw).1, (e3 hw).2.2.1⟩⟩
  · intro h1 h2
    exact ⟨_, skip_axis sensor.crop.height format.format.height h1 h2, e2,
      fun hw => ⟨(e3 hw).2.1, (e3 hw).2.2.2.1⟩⟩

/-- Witness for amended C7: a 1280x800 crop with a 320x200 request gives
skip factor 4 on both axes and an output of exactly 320x200. -/
theorem set_fmt_skipfactor_witness :
    (ar0144_set_fmt ar0144_registered state_zero (fmt_request 320 200)).1 = 0 ∧
    (ar0144_registered.crop.width = 1280 ∧ ar0144_registered.crop.height = 800) ∧
    (skip_choice 1280 320 4 ∧ skip_choice 800 200 4) ∧
    ((ar0144_set_fmt ar0144_registered state_zero (fmt_request 320 200)).2.1.w_scale = 4 ∧
      (ar0144_set_fmt ar0144_registered state_zero (fmt_request 320 200)).2.1.h_scale = 4 ∧
      (ar0144_set_fmt ar0144_registered state_zero (fmt_request 320 200)).2.2.2.format.width
        = 320 ∧
      (ar0144_set_fmt ar0144_registered state_zero (fmt_request 320 200)).2.2.2.format.height
        = 200) ∧
    (∃ s, skip_choice ar0144_registered.crop.width 320 s ∧
      (ar0144_set_fmt ar0144_registered state_zero (fmt_request 320 200)).2.2.2.format.width =
        ar0144_registered.crop.width / s ∧
      (V4L2_SUBDEV_FORMAT_ACTIVE = V4L2_SUBDEV_FORMAT_ACTIVE →
        (ar0144_set_fmt ar0144_registered state_zero (fmt_request 320 200)).2.1.w_scale = s ∧
        (ar0144_set_fmt ar0144_registered state_zero (fmt_request 320 200)).2.1.fmt.width =
          ar0144_registered.crop.width / s)) :=
  ⟨by decide, by decide, by decide, by decide,
    (set_fmt_skipfactor ar0144_registered state_zero (fmt_request 320 200) (by decide)).1
      (by decide) (by decide)⟩

end format_negotiation

section transport_frame

theorem same_config_refl (s : ar0144) : same_config s s := rfl

theorem same_config_trans {s s1 s2 : ar0144} (h1 : same_config s s1) (h2 : same_config s1 s2) :
    same_config s s2 := by
  unfold same_config at *
  rw [h2, h1]

theorem ar0144_write_config (s : ar0144) (reg val : Nat) :
    same_config s (ar0144_write s reg val).2 := by
  unfold ar0144_write same_config
  simp only []
  split_ifs <;> rfl

theorem ar0144_read_config (s : ar0144) (reg : Nat) : same_config s (ar0144_read s reg).2 := by
  unfold ar0144_read same_config
  simp only []
  split_ifs <;> rfl

theorem ar0144_update_bits_config (s : ar0144) (reg mask val : Nat) :
    same_config s (ar0144_update_bits s reg mask val).2 := by
  unfold ar0144_update_bits
  have h1 := ar0144_read_config s reg
  generalize ar0144_read s reg = r at h1
  obtain ⟨e, s1⟩ := r
  cases e with
  | error ret => exact h1
  | ok orig =>
    simp only []
    split_ifs
    · exact same_config_trans h1 (ar0144_write_config s1 reg _)
    · exact h1

theorem and_then_config (s : ar0144) (r : Int × ar0144) (f : ar0144 → Int × ar0144)
    (h1 : same_config s r.2) (h2 : ∀ x, same_config x (f x).2) :
    same_config s (and_then r f).2 := by
  unfold and_then
  split_ifs
  · exact h1
  · exact same_config_trans h1 (h2 r.2)

theorem ar0144_config_frame_config (s : ar0144) : same_config s (ar0144_config_frame s).2 := by
  unfold ar0144_config_frame
  refine and_then_config s _ _ (ar0144_write_config s _ _) fun x1 => ?_
  refine and_then_config x1 _ _ (ar0144_write_config x1 _ _) fun x2 => ?_
  refine and_then_config x2 _ _ (ar0144_write_config x2 _ _) fun x3 => ?_
  refine and_then_config x3 _ _ (ar0144_write_config x3 _ _) fun x4 => ?_
  refine and_then_config x4 _ _ (ar0144_write_config x4 _ _) fun x5 => ?_
  refine and_then_config x5 _ _ (ar0144_write_config x5 _ _) fun x6 => ?_
  refine and_then_config x6 _ _ (ar0144_write_config x6 _ _) fun x7 => ?_
  refine and_then_config x7 _ _ (ar0144_write_config x7 _ _) fun x8 => ?_
  exact ar0144_update_bits_config x8 _ _ _

theorem ar0144_group_param_hold_config (s : ar0144) :
    same_config s (ar0144_group_param_hold s).2 :=
  ar0144_update_bits_config s _ _ _

theorem ar0144_group_param_release_config (s : ar0144) :
    same_config s (ar0144_group_param_release s).2 :=
  ar0144_update_bits_config s _ _ _

/-- The live update sequence `config_frame` then `group_param_release`
changes nothing but the transport. -/
theorem live_update_config (s : ar0144) :
    same_config s
      (and_then (ar0144_config_frame s) fun x => ar0144_group_param_release x).2 :=
  and_then_config s _ _ (ar0144_config_frame_config s)
    fun x => ar0144_group_param_release_config x

end transport_frame

section frame_geometry

theorem clamp_t_bounds (v lo hi : Nat) (h : lo ≤ hi) :
    lo ≤ clamp_t v lo hi ∧ clamp_t v lo hi ≤ hi := by
  unfold clamp_t min_t max_t
  split_ifs <;> omega

/-- The frame-length limits of both chip tables are ordered and fit an
`unsigned int`. -/
theorem models_frame_limits (m : ar0144_model) (h : m ∈ ar0144_models) :
    u32 m.data.limits.hlen.min = m.data.limits.hlen.min ∧
    u32 m.data.limits.hlen.max = m.data.limits.hlen.max ∧
    m.data.limits.hlen.min ≤ m.data.limits.hlen.max ∧
    u32 m.data.limits.vlen.min = m.data.limits.vlen.min ∧
    u32 m.data.limits.vlen.max = m.data.limits.vlen.max ∧
    m.data.limits.vlen.min ≤ m.data.limits.vlen.max ∧
    m.data.limits.vlen.min ≤ u32 (m.data.def_height + u32 m.data.limits.vblank.min) ∧
    u32 (m.data.def_height + u32 m.data.limits.vblank.min) ≤ m.data.limits.vlen.max := by
  simp only [ar0144_models, List.mem_cons, List.mem_singleton, List.not_mem_nil, or_false] at h
  rcases h with rfl | rfl | rfl | rfl | rfl | rfl <;> decide

/-- Effect of a blanking control write on the model and the frame lengths:
each length is either unchanged or freshly clamped to the limits. -/
theorem s_ctrl_frame (sensor : ar0144) (id : v4l2_ctrl_id) (val : Int) :
    (ar0144_s_ctrl sensor id val).2.model = sensor.model ∧
    ((ar0144_s_ctrl sensor id val).2.hlen = sensor.hlen ∨
      ∃ v, (ar0144_s_ctrl sensor id val).2.hlen =
        clamp_t v (u32 sensor.model.data.limits.hlen.min)
          (u32 sensor.model.data.limits.hlen.max)) ∧
    ((ar0144_s_ctrl sensor id val).2.vlen = sensor.vlen ∨
      ∃ v, (ar0144_s_ctrl sensor id val).2.vlen =
        clamp_t v (u32 sensor.model.data.limits.vlen.min)
          (u32 sensor.model.data.limits.vlen.max)) := by
  have hhold : same_config sensor
      (if sensor.is_streaming = true then ar0144_group_param_hold sensor else (0, sensor)).2 := by
    split_ifs
    · exact ar0144_group_param_hold_config sensor
    · exact same_config_refl sensor
  cases id with
  | V4L2_CID_VBLANK =>
    unfold ar0144_s_ctrl
    simp only []
    generalize (if sensor.is_streaming = true then ar0144_group_param_hold sensor
      else (0, sensor)) = r at hhold
    unfold same_config at hhold
    split_ifs with h1 h2
    · rw [hhold]
      exact ⟨rfl, Or.inl rfl, Or.inl rfl⟩
    · have hl := live_update_config
        { r.2 with vblank := int_to_u32 val,
                   vlen := ar0144_get_vlength { r.2 with vblank := int_to_u32 val } }
      unfold same_config at hl
      rw [hl, hhold]
      exact ⟨rfl, Or.inl rfl, Or.inr ⟨_, rfl⟩⟩
    · rw [hhold]
      exact ⟨rfl, Or.inl rfl, Or.inr ⟨_, rfl⟩⟩
  | V4L2_CID_HBLANK =>
    unfold ar0144_s_ctrl
    simp only []
    generalize (if sensor.is_streaming = true then ar0144_group_param_hold sensor
      else (0, sensor)) = r at hhold
    unfold same_config at hhold
    split_ifs with h1 h2
    · rw [hhold]
      exact ⟨rfl, Or.inl rfl, Or.inl rfl⟩
    · have hl := live_update_config
        { r.2 with hblank := int_to_u32 val,
                   hlen := ar0144_get_hlength { r.2 with hblank := int_to_u32 val } }
      unfold same_config at hl
      rw [hl, hhold]
      exact ⟨rfl, Or.inr ⟨_, rfl⟩, Or.inl rfl⟩
    · rw [hhold]
      exact ⟨rfl, Or.inr ⟨_, rfl⟩, Or.inl rfl⟩

/-- One request keeps the model and keeps the frame lengths inside the
limits. -/
theorem geom_step_inv (sensor : ar0144) (op : geom_op) (hmodel : sensor.model ∈ ar0144_models)
    (h : frame_in_limits sensor) :
    (geom_step sensor op).model = sensor.model ∧ frame_in_limits (geom_step sensor op) := by
  obtain ⟨l1, l2, l3, l4, l5, l6, -, -⟩ := models_frame_limits sensor.model hmodel
  obtain ⟨h1, h2, h3, h4⟩ := h
  have ch := fun v => clamp_t_bounds v sensor.model.data.limits.hlen.min
    sensor.model.data.limits.hlen.max l3
  have cv := fun v => clamp_t_bounds v sensor.model.data.limits.vlen.min
    sensor.model.data.limits.vlen.max l6
  cases op with
  | set_fmt state format =>
    show (ar0144_set_fmt sensor state format).2.1.model = sensor.model ∧
      frame_in_limits (ar0144_set_fmt sensor state format).2.1
    by_cases hb : sensor.is_streaming = true ∧ format.which = V4L2_SUBDEV_FORMAT_ACTIVE
    · rw [set_fmt_busy sensor state format hb]
      exact ⟨rfl, h1, h2, h3, h4⟩
    · obtain ⟨-, -, -, ea, et⟩ := set_fmt_idle sensor state format hb
      cases hw : format.which with
      | V4L2_SUBDEV_FORMAT_TRY =>
        rw [et hw]
        exact ⟨rfl, h1, h2, h3, h4⟩
      | V4L2_SUBDEV_FORMAT_ACTIVE =>
        obtain ⟨-, -, -, -, em, ⟨v1, e1⟩, ⟨v2, e2⟩⟩ := ea hw
        unfold frame_in_limits
        rw [em, e1, e2, l1, l2, l4, l5]
        exact ⟨rfl, (ch v1).1, (ch v1).2, (cv v2).1, (cv v2).2⟩
  | s_ctrl id val =>
    show (ar0144_s_ctrl sensor id val).2.model = sensor.model ∧
      frame_in_limits (ar0144_s_ctrl sensor id val).2
    obtain ⟨em, eh, ev⟩ := s_ctrl_frame sensor id val
    unfold frame_in_limits
    rw [em]
    refine ⟨rfl, ?_, ?_, ?_, ?_⟩
    · rcases eh with e | ⟨v, e⟩
      · rw [e]; exact h1
      · rw [e, l1, l2]; exact (ch v).1
    · rcases eh with e | ⟨v, e⟩
      · rw [e]; exact h2
      · rw [e, l1, l2]; exact (ch v).2
    · rcases ev with e | ⟨v, e⟩
      · rw [e]; exact h3
      · rw [e, l4, l5]; exact (cv v).1
    · rcases ev with e | ⟨v, e⟩
      · rw [e]; exact h4
      · rw [e, l4, l5]; exact (cv v).2

/-- A sequence of requests keeps the model and keeps the frame lengths
inside the limits. -/
theorem geom_run_inv (ops : List geom_op) :
    ∀ sensor : ar0144, sensor.model ∈ ar0144_models → frame_in_limits sensor →
      (geom_run sensor ops).model = sensor.model ∧ frame_in_limits (geom_run sensor ops) := by
  induction ops with
  | nil => intro sensor _ h; exact ⟨rfl, h⟩
  | cons op ops ih =>
    intro sensor hmodel h
    obtain ⟨e1, e2⟩ := geom_step_inv sensor op hmodel h
    obtain ⟨e3, e4⟩ := ih (geom_step sensor op) (by rw [e1]; exact hmodel) e2
    exact ⟨by rw [← e1]; exact e3, e4⟩

/-- C8: in every state reachable from `ar0144_set_defaults` by any sequence
of `set_fmt` calls and vertical/horizontal blanking control writes (with any
blanking value, below the minimum or above the maximum included, streaming
or not, whatever the transport does), `hlen` lies in `[hlen_min, hlen_max]`
and `vlen` lies in `[vlen_min, vlen_max]` of the chip's limit table. -/
theorem frame_lengths_in_limits (sensor : ar0144) (hmodel : sensor.model ∈ ar0144_models)
    (ops : List geom_op) :
    (geom_run (ar0144_set_defaults sensor) ops).model = sensor.model ∧
    frame_in_limits (geom_run (ar0144_set_defaults sensor) ops) := by
  obtain ⟨l1, -, l3, -, -, -, l7, l8⟩ := models_frame_limits sensor.model hmodel
  have hm : (ar0144_set_defaults sensor).model = sensor.model := rfl
  have h0 : frame_in_limits (ar0144_set_defaults sensor) := by
    unfold frame_in_limits
    rw [hm]
    show sensor.model.data.limits.hlen.min ≤ u32 sensor.model.data.limits.hlen.min ∧
      u32 sensor.model.data.limits.hlen.min ≤ sensor.model.data.limits.hlen.max ∧
      sensor.model.data.limits.vlen.min ≤
        u32 (sensor.model.data.def_height + u32 sensor.model.data.limits.vblank.min) ∧
      u32 (sensor.model.data.def_height + u32 sensor.model.data.limits.vblank.min) ≤
        sensor.model.data.limits.vlen.max
    rw [l1]
    exact ⟨le_refl _, l3, l7, l8⟩
  exact geom_run_inv ops (ar0144_set_defaults sensor) (by rw [hm]; exact hmodel) h0

/-- Witness for C8: on an AR0144, a vertical blanking of -5, a horizontal
blanking of 100000 and a 320x200 format request leave `hlen = 65534` and
`vlen = 195`, inside `[1488, 65534]` and `[29, 65535]`. -/
theorem frame_lengths_in_limits_witness :
    (ar0144_on_parallel 74250000).model ∈ ar0144_models ∧
    ((geom_run (ar0144_set_defaults (ar0144_on_parallel 74250000))
        [geom_op.s_ctrl V4L2_CID_VBLANK (-5), geom_op.s_ctrl V4L2_CID_HBLANK 100000,
          geom_op.set_fmt state_zero (fmt_request 320 200)]).model =
        (ar0144_on_parallel 74250000).model ∧
      frame_in_limits
        (geom_run (ar0144_set_defaults (ar0144_on_parallel 74250000))
          [geom_op.s_ctrl V4L2_CID_VBLANK (-5), geom_op.s_ctrl V4L2_CID_HBLANK 100000,
            geom_op.set_fmt state_zero (fmt_request 320 200)])) ∧
    (geom_run (ar0144_set_defaults (ar0144_on_parallel 74250000))
      [geom_op.s_ctrl V4L2_CID_VBLANK (-5), geom_op.s_ctrl V4L2_CID_HBLANK 100000,
        geom_op.set_fmt state_zero (fmt_request 320 200)]).hlen = 65534 ∧
    (geom_run (ar0144_set_defaults (ar0144_on_parallel 74250000))
      [geom_op.s_ctrl V4L2_CID_VBLANK (-5), geom_op.s_ctrl V4L2_CID_HBLANK 100000,
        geom_op.set_fmt state_zero (fmt_request 320 200)]).vlen = 195 :=
  ⟨by decide, frame_lengths_in_limits (ar0144_on_parallel 74250000) (by decide) _, by decide,
    by decide⟩

end frame_geometry

section crop_selection

/-- One axis of `ar0144_clamp_crop`: the offset is even and not negative,
offset plus size stays inside the array size `M`, and the size does not
exceed the requested one. -/
theorem clamp_crop_axis (x : Int) (w M : Nat) (hM : M % 2 = 0) (hM2 : M < 2 ^ 31) :
    0 ≤ u32_to_int (min_t (ALIGN2 x) M) ∧
    u32_to_int (min_t (ALIGN2 x) M) % 2 = 0 ∧
    u32_to_int (min_t (ALIGN2 x) M) +
        (min_t (u32 w) (u32 (M + (2 ^ 32 - int_to_u32 (u32_to_int (min_t (ALIGN2 x) M))))) : Nat)
      ≤ M ∧
    min_t (u32 w) (u32 (M + (2 ^ 32 - int_to_u32 (u32_to_int (min_t (ALIGN2 x) M))))) ≤ w := by
  have hp : min_t (ALIGN2 x) M ≤ M ∧ min_t (ALIGN2 x) M % 2 = 0 := by
    unfold min_t ALIGN2 int_to_u32
    simp only []
    split_ifs <;> omega
  generalize min_t (ALIGN2 x) M = p at hp
  have e1 : u32_to_int p = (p : Int) := by
    unfold u32_to_int u32
    rw [if_pos (by omega)]
    omega
  have e2 : int_to_u32 (p : Int) = p := by
    unfold int_to_u32
    omega
  rw [e1, e2]
  have e3 : u32 (M + (2 ^ 32 - p)) = M - p := by
    unfold u32
    omega
  rw [e3]
  have hw : u32 w ≤ w := u32_le w
  unfold min_t
  split_ifs <;> omega

/-- Array sizes of both chip tables as `ar0144_clamp_crop` computes them. -/
theorem models_array_size (m : ar0144_model) (h : m ∈ ar0144_models) :
    u32 (u64 (u64 (m.data.limits.x.max + (2 ^ 64 - u64 m.data.limits.x.min)) + 1)) =
      m.data.limits.x.max - m.data.limits.x.min + 1 ∧
    u32 (u64 (u64 (m.data.limits.y.max + (2 ^ 64 - u64 m.data.limits.y.min)) + 1)) =
      m.data.limits.y.max - m.data.limits.y.min + 1 ∧
    (m.data.limits.x.max - m.data.limits.x.min + 1) % 2 = 0 ∧
    (m.data.limits.y.max - m.data.limits.y.min + 1) % 2 = 0 ∧
    m.data.limits.x.max - m.data.limits.x.min + 1 < 2 ^ 31 ∧
    m.data.limits.y.max - m.data.limits.y.min + 1 < 2 ^ 31 := by
  simp only [ar0144_models, List.mem_cons, List.mem_singleton, List.not_mem_nil, or_false] at h
  rcases h with rfl | rfl | rfl | rfl | rfl | rfl <;> decide

/-- A successful `ar0144_set_selection` hands back the clamped rectangle. -/
theorem set_selection_ok (sensor : ar0144) (state : v4l2_subdev_state)
    (sel : v4l2_subdev_selection) (hret : (ar0144_set_selection sensor state sel).1 = 0) :
    (ar0144_set_selection sensor state sel).2.2.2.r =
      ar0144_clamp_crop sensor.model.data.limits sel.r := by
  unfold ar0144_set_selection at hret ⊢
  by_cases h1 : sel.target ≠ V4L2_SEL_TGT_CROP
  · rw [if_pos h1] at hret
    have h : (-EINVAL : Int) = 0 := hret
    exact absurd h (by decide)
  · rw [if_neg h1] at hret ⊢
    by_cases h2 : sensor.is_streaming = true ∧
        (sel.r.width ≠ sensor.crop.width ∨ sel.r.height ≠ sensor.crop.height)
    · rw [if_pos h2] at hret
      have h : (-EBUSY : Int) = 0 := hret
      exact absurd h (by decide)
    · rw [if_neg h2] at hret ⊢
      simp only [] at hret ⊢
      split_ifs at hret ⊢ with h3
      · exact absurd hret h3
      · rfl

/-- C9: for every requested rectangle (any signed top/left, any
width/height) and either chip limit table, a successful
`ar0144_set_selection` on the crop target returns a rectangle whose top and
left are even (and not negative), with `left + width ≤ x_max - x_min + 1`
and `top + height ≤ y_max - y_min + 1`, and whose width and height do not
exceed the requested ones. -/
theorem set_selection_crop (sensor : ar0144) (state : v4l2_subdev_state)
    (sel : v4l2_subdev_selection) (hmodel : sensor.model ∈ ar0144_models)
    (hret : (ar0144_set_selection sensor state sel).1 = 0) :
    sel.target = V4L2_SEL_TGT_CROP ∧
    (ar0144_set_selection sensor state sel).2.2.2.r.top % 2 = 0 ∧
    (ar0144_set_selection sensor state sel).2.2.2.r.left % 2 = 0 ∧
    0 ≤ (ar0144_set_selection sensor state sel).2.2.2.r.top ∧
    0 ≤ (ar0144_set_selection sensor state sel).2.2.2.r.left ∧
    (ar0144_set_selection sensor state sel).2.2.2.r.left +
        ((ar0144_set_selection sensor state sel).2.2.2.r.width : Nat) ≤
      ((sensor.model.data.limits.x.max - sensor.model.data.limits.x.min + 1 : Nat) : Int) ∧
    (ar0144_set_selection sensor state sel).2.2.2.r.top +
        ((ar0144_set_selection sensor state sel).2.2.2.r.height : Nat) ≤
      ((sensor.model.data.limits.y.max - sensor.model.data.limits.y.min + 1 : Nat) : Int) ∧
    (ar0144_set_selection sensor state sel).2.2.2.r.width ≤ sel.r.width ∧
    (ar0144_set_selection sensor state sel).2.2.2.r.height ≤ sel.r.height := by
  have htarget : sel.target = V4L2_SEL_TGT_CROP := by
    by_contra h1
    unfold ar0144_set_selection at hret
    rw [if_pos h1] at hret
    have h : (-EINVAL : Int) = 0 := hret
    exact absurd h (by decide)
  obtain ⟨a1, a2, a3, a4, a5, a6⟩ := models_array_size sensor.model hmodel
  rw [set_selection_ok sensor state sel hret]
  unfold ar0144_clamp_crop
  simp only []
  rw [a1, a2]
  obtain ⟨x1, x2, x3, x4⟩ := clamp_crop_axis sel.r.left sel.r.width _ a3 a5
  obtain ⟨y1, y2, y3, y4⟩ := clamp_crop_axis sel.r.top sel.r.height _ a4 a6
  exact ⟨htarget, y2, x2, y1, x1, x3, y3, x4, y4⟩

/-- Witness for C9: on the registered AR0144 a request at left 7, top -3 of
size 5000x5000 on the crop target succeeds and hands back the rectangle at
left 8, top 808 with size 1288x0: the offsets are even and the rectangle is
inside the 1296x808 array. -/
theorem set_selection_crop_witness :
    ar0144_registered.model ∈ ar0144_models ∧
    (ar0144_set_selection ar0144_registered state_zero
      ⟨V4L2_SUBDEV_FORMAT_ACTIVE, V4L2_SEL_TGT_CROP, ⟨7, -3, 5000, 5000⟩⟩).1 = 0 ∧
    (ar0144_set_selection ar0144_registered state_zero
      ⟨V4L2_SUBDEV_FORMAT_ACTIVE, V4L2_SEL_TGT_CROP, ⟨7, -3, 5000, 5000⟩⟩).2.2.2.r
      = ⟨8, 808, 1288, 0⟩ ∧
    (ar0144_set_selection ar0144_registered state_zero
      ⟨V4L2_SUBDEV_FORMAT_ACTIVE, V4L2_SEL_TGT_CROP, ⟨7, -3, 5000, 5000⟩⟩).2.2.2.r.left % 2
      = 0 :=
  ⟨by decide, by decide, by decide,
    (set_selection_crop ar0144_registered state_zero
      ⟨V4L2_SUBDEV_FORMAT_ACTIVE, V4L2_SEL_TGT_CROP, ⟨7, -3, 5000, 5000⟩⟩ (by decide)
      (by decide)).2.2.1⟩

/-- The target check of `ar0144_set_selection` (source line 1963) comes
before the streaming check: a request on a target other than the crop
target is not a crop request and returns `-EINVAL`, also while streaming
with a size different from the active crop's. -/
theorem set_selection_other_target :
    ar0144_streaming.is_streaming = true ∧
    (640 ≠ ar0144_streaming.crop.width ∧ 480 ≠ ar0144_streaming.crop.height) ∧
    (ar0144_set_selection ar0144_streaming state_zero
      ⟨V4L2_SUBDEV_FORMAT_ACTIVE, V4L2_SEL_TGT_CROP_DEFAULT, ⟨0, 0, 640, 480⟩⟩).1 = -EINVAL ∧
    (ar0144_set_selection ar0144_streaming state_zero
      ⟨V4L2_SUBDEV_FORMAT_ACTIVE, V4L2_SEL_TGT_CROP_DEFAULT, ⟨0, 0, 640, 480⟩⟩).1 ≠ -EBUSY := by
  decide

/-- C10: while streaming, a crop request (`ar0144_set_selection` on the
target `V4L2_SEL_TGT_CROP`) with a requested width or height different from
the active crop's returns `-EBUSY`, performs no register access (the
transport, its log included, is unchanged) and leaves the device state, pad
state and the caller's selection as they were; in particular the active
crop rectangle is unchanged. -/
theorem set_selection_busy (sensor : ar0144) (state : v4l2_subdev_state)
    (sel : v4l2_subdev_selection) (htarget : sel.target = V4L2_SEL_TGT_CROP)
    (hstream : sensor.is_streaming = true)
    (hsize : sel.r.width ≠ sensor.crop.width ∨ sel.r.height ≠ sensor.crop.height) :
    ar0144_set_selection sensor state sel = (-EBUSY, sensor, state, sel) ∧
    (ar0144_set_selection sensor state sel).1 = -EBUSY ∧
    (ar0144_set_selection sensor state sel).2.1.i2c.log = sensor.i2c.log ∧
    (ar0144_set_selection sensor state sel).2.1.crop = sensor.crop := by
  have h : ar0144_set_selection sensor state sel = (-EBUSY, sensor, state, sel) := by
    unfold ar0144_set_selection
    rw [if_neg (not_not.mpr htarget), if_pos ⟨hstream, hsize⟩]
  rw [h]
  exact ⟨rfl, rfl, rfl, rfl⟩

/-- Witness for C10: the streaming AR0144 with its 1280x800 crop
rejects a 640x480 crop request with `-EBUSY`, issues no transfer and keeps
its crop. -/
theorem set_selection_busy_witness :
    (V4L2_SEL_TGT_CROP = V4L2_SEL_TGT_CROP ∧ ar0144_streaming.is_streaming = true ∧
      (640 ≠ ar0144_streaming.crop.width ∨ 480 ≠ ar0144_streaming.crop.height)) ∧
    (ar0144_set_selection ar0144_streaming state_zero
      ⟨V4L2_SUBDEV_FORMAT_ACTIVE, V4L2_SEL_TGT_CROP, ⟨0, 0, 640, 480⟩⟩).1 = -EBUSY ∧
    (ar0144_set_selection ar0144_streaming state_zero
      ⟨V4L2_SUBDEV_FORMAT_ACTIVE, V4L2_SEL_TGT_CROP, ⟨0, 0, 640, 480⟩⟩).2.1.i2c.log = [] ∧
    (ar0144_set_selection ar0144_streaming state_zero
      ⟨V4L2_SUBDEV_FORMAT_ACTIVE, V4L2_SEL_TGT_CROP, ⟨0, 0, 640, 480⟩⟩).2.1.crop =
      ⟨4, 4, 1280, 800⟩ :=
  ⟨⟨rfl, rfl, Or.inl (by decide)⟩,
    (set_selection_busy ar0144_streaming state_zero
      ⟨V4L2_SUBDEV_FORMAT_ACTIVE, V4L2_SEL_TGT_CROP, ⟨0, 0, 640, 480⟩⟩ rfl rfl
      (Or.inl (by decide))).2⟩

end crop_selection

section format_lookup

theorem find_format_hit (sensor : ar0144) (code : Nat) (f : ar0144_format)
    (hd : sensor.formats.Pairwise (fun a b => a.code ≠ b.code))
    (hf : f ∈ sensor.formats) (hc : f.code = code) :
    ar0144_find_format sensor code = f := by
  unfold ar0144_find_format
  have key : ∀ l : List ar0144_format, l.Pairwise (fun a b => a.code ≠ b.code) → f ∈ l →
      l.find? (fun g => decide (g.code = code)) = some f := by
    intro l
    induction l with
    | nil => intro _ h; cases h
    | cons a t ih =>
      intro hp hm
      rw [List.pairwise_cons] at hp
      rcases List.mem_cons.mp hm with h | h
      · subst h
        simp [List.find?, hc]
      · have hne : a.code ≠ code := by
          rw [← hc]
          exact hp.1 f h
        simp only [List.find?, hne, decide_False]
        exact ih hp.2 h
  rw [key sensor.formats hd hf]

theorem find_format_miss (sensor : ar0144) (code : Nat)
    (h : ∀ f ∈ sensor.formats, f.code ≠ code) :
    ar0144_find_format sensor code = sensor.formats.getLastD ⟨0, 0⟩ := by
  unfold ar0144_find_format
  have : sensor.formats.find? (fun g => decide (g.code = code)) = none := by
    rw [List.find?_eq_none]
    intro f hf
    simpa using h f hf
  rw [this]

theorem format_tables_ok :
    ∀ t ∈ ar0144_format_tables,
      t.Pairwise (fun a b => a.code ≠ b.code) ∧
      t.getLast? = some (t.getLastD ⟨0, 0⟩) ∧
      ∀ f ∈ t, f.bpp ≤ (t.getLastD ⟨0, 0⟩).bpp := by
  decide

theorem set_fmt_bpp (sensor : ar0144) (state : v4l2_subdev_state) (format : v4l2_subdev_format)
    (hb : sensor.is_streaming = false) (hact : format.which = V4L2_SUBDEV_FORMAT_ACTIVE) :
    (ar0144_set_fmt sensor state format).2.1.bpp =
      (ar0144_find_format sensor format.format.code).bpp := by
  have hb1 : ¬ (sensor.is_streaming = true ∧ format.which = V4L2_SUBDEV_FORMAT_ACTIVE) := by
    intro h
    rw [hb] at h
    exact Bool.noConfusion h.1
  unfold ar0144_set_fmt
  rw [if_neg hb1]
  obtain ⟨which, f⟩ := format
  cases hact
  rfl

theorem clamp_one_id (C x : Nat) (h : (C = 0 ∧ x = 0) ∨ (1 ≤ x ∧ x ≤ C)) :
    clamp_t x 1 C = x := by
  unfold clamp_t min_t max_t
  split_ifs <;> omega

theorem clamp_one_range (C R : Nat) :
    (C = 0 ∧ clamp_t R 1 C = 0) ∨ (1 ≤ clamp_t R 1 C ∧ clamp_t R 1 C ≤ C) := by
  unfold clamp_t min_t max_t
  split_ifs <;> omega

theorem skipfactor_stable (C R : Nat) :
    ar0144_find_skipfactor C
      (clamp_t (C / ar0144_find_skipfactor C (clamp_t R 1 C)) 1 C) =
    ar0144_find_skipfactor C (clamp_t R 1 C) := by
  have hT := clamp_one_range C R
  generalize clamp_t R 1 C = T at hT ⊢
  rw [find_skipfactor_eq C T]
  by_cases h0 : C ≤ T
  · rw [if_pos h0, clamp_one_id C (C / 1) (by omega), find_skipfactor_eq]
    split_ifs <;> omega
  rw [if_neg h0]
  by_cases h1 : C / 2 ≤ T
  · rw [if_pos h1, clamp_one_id C (C / 2) (by omega), find_skipfactor_eq]
    split_ifs <;> omega
  rw [if_neg h1]
  by_cases h2 : C / 4 ≤ T
  · rw [if_pos h2, clamp_one_id C (C / 4) (by omega), find_skipfactor_eq]
    split_ifs <;> omega
  rw [if_neg h2]
  by_cases h3 : C / 8 ≤ T
  · rw [if_pos h3, clamp_one_id C (C / 8) (by omega), find_skipfactor_eq]
    split_ifs <;> omega
  rw [if_neg h3, clamp_one_id C (C / 16) (by omega), find_skipfactor_eq]
  split_ifs <;> omega

theorem getLastD_mem_cons {α : Type} (t : List α) (a : α) : t.getLastD a ∈ a :: t := by
  induction t generalizing a with
  | nil => exact List.mem_cons_self _ _
  | cons b t ih =>
    rw [List.getLastD_cons]
    exact List.mem_cons_of_mem _ (ih b)

theorem find_format_mem (sensor : ar0144) (code : Nat) (hne : sensor.formats ≠ []) :
    ar0144_find_format sensor code ∈ sensor.formats := by
  unfold ar0144_find_format
  cases h : sensor.formats.find? (fun f => decide (f.code = code)) with
  | some f => exact List.mem_of_find?_eq_some h
  | none =>
    show sensor.formats.getLastD ⟨0, 0⟩ ∈ sensor.formats
    cases hl : sensor.formats with
    | nil => exact absurd hl hne
    | cons a t =>
      rw [List.getLastD_cons]
      exact getLastD_mem_cons t a

theorem find_format_stable (sensor : ar0144) (code : Nat)
    (htable : sensor.formats ∈ ar0144_format_tables) :
    ar0144_find_format sensor (ar0144_find_format sensor code).code =
      ar0144_find_format sensor code := by
  have hok := format_tables_ok sensor.formats htable
  have hne : sensor.formats ≠ [] := by
    intro h
    rw [h] at hok
    exact absurd hok.2.1 (by simp)
  exact find_format_hit sensor _ _ hok.1 (find_format_mem sensor code hne) rfl

theorem set_fmt_fixed (S : ar0144) (st : v4l2_subdev_state) (f2 : v4l2_mbus_framefmt)
    (hidle : S.is_streaming = false)
    (h1 : (ar0144_find_format S f2.code).code = S.fmt.code)
    (h1b : (ar0144_find_format S f2.code).bpp = S.bpp)
    (h2 : ar0144_find_skipfactor S.crop.width (clamp_t f2.width 1 S.crop.width) = S.w_scale)
    (h2h : ar0144_find_skipfactor S.crop.height (clamp_t f2.height 1 S.crop.height) = S.h_scale)
    (h3 : S.crop.width / S.w_scale = S.fmt.width)
    (h3h : S.crop.height / S.h_scale = S.fmt.height)
    (h4 : S.fmt.field = V4L2_FIELD_NONE)
    (h5 : S.fmt.colorspace =
      if S.model.color = AR0144_MODEL_COLOR then V4L2_COLORSPACE_RAW else V4L2_COLORSPACE_SRGB)
    (h6 : S.hlen = ar0144_get_hlength S)
    (h7 : S.vlen = ar0144_get_vlength S) :
    ar0144_set_fmt S st ⟨V4L2_SUBDEV_FORMAT_ACTIVE, f2⟩ =
      (0, S, st, ⟨V4L2_SUBDEV_FORMAT_ACTIVE, S.fmt⟩) := by
  have hb1 : ¬ (S.is_streaming = true ∧
      (⟨V4L2_SUBDEV_FORMAT_ACTIVE, f2⟩ : v4l2_subdev_format).which =
        V4L2_SUBDEV_FORMAT_ACTIVE) := by
    intro h
    rw [hidle] at h
    exact Bool.noConfusion h.1
  unfold ar0144_set_fmt
  rw [if_neg hb1]
  simp only
  rw [h1, h1b, h2, h2h, h3, h3h, ← h4, ← h5]
  unfold ar0144_get_hlength at h6 ⊢
  unfold ar0144_get_vlength at h7 ⊢
  simp only
  rw [← h6, ← h7]

theorem find_format_congr (s s1 : ar0144) (code : Nat) (h : s1.formats = s.formats) :
    ar0144_find_format s1 code = ar0144_find_format s code := by
  unfold ar0144_find_format
  rw [h]

/-- What an accepted `ar0144_set_fmt` on the active format stores. -/
theorem set_fmt_active (sensor : ar0144) (state : v4l2_subdev_state) (f : v4l2_mbus_framefmt)
    (hidle : sensor.is_streaming = false) :
    (ar0144_set_fmt sensor state ⟨V4L2_SUBDEV_FORMAT_ACTIVE, f⟩).1 = 0 ∧
    (ar0144_set_fmt sensor state ⟨V4L2_SUBDEV_FORMAT_ACTIVE, f⟩).2.2.1 = state ∧
    (ar0144_set_fmt sensor state ⟨V4L2_SUBDEV_FORMAT_ACTIVE, f⟩).2.2.2 =
      ⟨V4L2_SUBDEV_FORMAT_ACTIVE,
        (ar0144_set_fmt sensor state ⟨V4L2_SUBDEV_FORMAT_ACTIVE, f⟩).2.1.fmt⟩ ∧
    (ar0144_set_fmt sensor state ⟨V4L2_SUBDEV_FORMAT_ACTIVE, f⟩).2.1.is_streaming = false ∧
    (ar0144_set_fmt sensor state ⟨V4L2_SUBDEV_FORMAT_ACTIVE, f⟩).2.1.formats = sensor.formats ∧
    (ar0144_set_fmt sensor state ⟨V4L2_SUBDEV_FORMAT_ACTIVE, f⟩).2.1.crop = sensor.crop ∧
    (ar0144_set_fmt sensor state ⟨V4L2_SUBDEV_FORMAT_ACTIVE, f⟩).2.1.model = sensor.model ∧
    (ar0144_set_fmt sensor state ⟨V4L2_SUBDEV_FORMAT_ACTIVE, f⟩).2.1.fmt.code =
      (ar0144_find_format sensor f.code).code ∧
    (ar0144_set_fmt sensor state ⟨V4L2_SUBDEV_FORMAT_ACTIVE, f⟩).2.1.bpp =
      (ar0144_find_format sensor f.code).bpp ∧
    (ar0144_set_fmt sensor state ⟨V4L2_SUBDEV_FORMAT_ACTIVE, f⟩).2.1.w_scale =
      ar0144_find_skipfactor sensor.crop.width (clamp_t f.width 1 sensor.crop.width) ∧
    (ar0144_set_fmt sensor state ⟨V4L2_SUBDEV_FORMAT_ACTIVE, f⟩).2.1.h_scale =
      ar0144_find_skipfactor sensor.crop.height (clamp_t f.height 1 sensor.crop.height) ∧
    (ar0144_set_fmt sensor state ⟨V4L2_SUBDEV_FORMAT_ACTIVE, f⟩).2.1.fmt.width =
      sensor.crop.width /
        ar0144_find_skipfactor sensor.crop.width (clamp_t f.width 1 sensor.crop.width) ∧
    (ar0144_set_fmt sensor state ⟨V4L2_SUBDEV_FORMAT_ACTIVE, f⟩).2.1.fmt.height =
      sensor.crop.height /
        ar0144_find_skipfactor sensor.crop.height (clamp_t f.height 1 sensor.crop.height) ∧
    (ar0144_set_fmt sensor state ⟨V4L2_SUBDEV_FORMAT_ACTIVE, f⟩).2.1.fmt.field =
      V4L2_FIELD_NONE ∧
    (ar0144_set_fmt sensor state ⟨V4L2_SUBDEV_FORMAT_ACTIVE, f⟩).2.1.fmt.colorspace =
      (if sensor.model.color = AR0144_MODEL_COLOR then V4L2_COLORSPACE_RAW
        else V4L2_COLORSPACE_SRGB) ∧
    (ar0144_set_fmt sensor state ⟨V4L2_SUBDEV_FORMAT_ACTIVE, f⟩).2.1.hlen =
      ar0144_get_hlength (ar0144_set_fmt sensor state ⟨V4L2_SUBDEV_FORMAT_ACTIVE, f⟩).2.1 ∧
    (ar0144_set_fmt sensor state ⟨V4L2_SUBDEV_FORMAT_ACTIVE, f⟩).2.1.vlen =
      ar0144_get_vlength (ar0144_set_fmt sensor state ⟨V4L2_SUBDEV_FORMAT_ACTIVE, f⟩).2.1 := by
  have hb1 : ¬ (sensor.is_streaming = true ∧
      (⟨V4L2_SUBDEV_FORMAT_ACTIVE, f⟩ : v4l2_subdev_format).which =
        V4L2_SUBDEV_FORMAT_ACTIVE) := by
    intro h
    rw [hidle] at h
    exact Bool.noConfusion h.1
  unfold ar0144_set_fmt
  rw [if_neg hb1]
  exact ⟨rfl, rfl, rfl, hidle, rfl, rfl, rfl, rfl, rfl, rfl, rfl, rfl, rfl, rfl, rfl, rfl, rfl⟩

/-- C11: on each of the four format tables `ar0144_find_format` returns the
table entry that carries the requested code when the table has one, and
otherwise the last entry of the table, whose bits-per-pixel is the largest
of the table; a successful `ar0144_set_fmt` on the active format stores the
bits-per-pixel of that entry as the active bit depth `bpp`. -/
theorem find_format_entry (sensor : ar0144) (state : v4l2_subdev_state)
    (format : v4l2_subdev_format) (htable : sensor.formats ∈ ar0144_format_tables) :
    (∀ f ∈ sensor.formats, f.code = format.format.code →
      ar0144_find_format sensor format.format.code = f) ∧
    ((∀ f ∈ sensor.formats, f.code ≠ format.format.code) →
      sensor.formats.getLast? = some (ar0144_find_format sensor format.format.code) ∧
      ∀ f ∈ sensor.formats, f.bpp ≤ (ar0144_find_format sensor format.format.code).bpp) ∧
    (format.which = V4L2_SUBDEV_FORMAT_ACTIVE →
      (ar0144_set_fmt sensor state format).1 = 0 →
      (ar0144_set_fmt sensor state format).2.1.bpp =
        (ar0144_find_format sensor format.format.code).bpp) := by
  have hok := format_tables_ok sensor.formats htable
  refine ⟨fun f hf hc => find_format_hit sensor _ f hok.1 hf hc, ?_, ?_⟩
  · intro hmiss
    rw [find_format_miss sensor _ hmiss]
    exact ⟨hok.2.1, hok.2.2⟩
  · intro hact hret
    cases hs : sensor.is_streaming with
    | false => exact set_fmt_bpp sensor state format hs hact
    | true =>
      rw [set_fmt_busy sensor state format ⟨hs, hact⟩] at hret
      have h1 : (-EBUSY : Int) = 0 := hret
      exact absurd h1 (by decide)

/-- Witness for C11: the registered monochrome AR0144 asked for the colour
code `MEDIA_BUS_FMT_SGRBG8_1X8`, which its table does not have, falls back
to the last entry `(MEDIA_BUS_FMT_Y12_1X12, 12)` and stores 12 bits. -/
theorem find_format_entry_witness :
    ar0144_registered.formats ∈ ar0144_format_tables ∧
    (∀ f ∈ ar0144_registered.formats, f.code ≠ MEDIA_BUS_FMT_SGRBG8_1X8) ∧
    ar0144_find_format ar0144_registered MEDIA_BUS_FMT_SGRBG8_1X8 =
      ⟨MEDIA_BUS_FMT_Y12_1X12, 12⟩ ∧
    (ar0144_registered.formats.getLast? =
        some (ar0144_find_format ar0144_registered MEDIA_BUS_FMT_SGRBG8_1X8) ∧
      ∀ f ∈ ar0144_registered.formats,
        f.bpp ≤ (ar0144_find_format ar0144_registered MEDIA_BUS_FMT_SGRBG8_1X8).bpp) ∧
    (ar0144_set_fmt ar0144_registered state_zero
      ⟨V4L2_SUBDEV_FORMAT_ACTIVE, ⟨640, 400, MEDIA_BUS_FMT_SGRBG8_1X8, 0, 0⟩⟩).2.1.bpp =
      (ar0144_find_format ar0144_registered MEDIA_BUS_FMT_SGRBG8_1X8).bpp :=
  ⟨by decide, by decide, by decide,
    (find_format_entry ar0144_registered state_zero
      ⟨V4L2_SUBDEV_FORMAT_ACTIVE, ⟨640, 400, MEDIA_BUS_FMT_SGRBG8_1X8, 0, 0⟩⟩
      (by decide)).2.1 (by decide),
    (find_format_entry ar0144_registered state_zero
      ⟨V4L2_SUBDEV_FORMAT_ACTIVE, ⟨640, 400, MEDIA_BUS_FMT_SGRBG8_1X8, 0, 0⟩⟩
      (by decide)).2.2 rfl (by decide)⟩

/-- C12: `ar0144_set_fmt` is idempotent. For every device state (crop and
blanking included) that is not streaming and every request on the active
format, a second call that asks for the code, width and height that the
first call returned succeeds, returns the same format and leaves the whole
device state (and with it `bpp`, `w_scale`, `h_scale`, `hlen`, `vlen` and the
output width and height) as the first call left it. -/
theorem set_fmt_idempotent (sensor : ar0144) (state : v4l2_subdev_state)
    (format format2 : v4l2_subdev_format)
    (htable : sensor.formats ∈ ar0144_format_tables)
    (hidle : sensor.is_streaming = false)
    (hact : format.which = V4L2_SUBDEV_FORMAT_ACTIVE)
    (hact2 : format2.which = V4L2_SUBDEV_FORMAT_ACTIVE)
    (hcode : format2.format.code = (ar0144_set_fmt sensor state format).2.2.2.format.code)
    (hwidth : format2.format.width = (ar0144_set_fmt sensor state format).2.2.2.format.width)
    (hheight :
      format2.format.height = (ar0144_set_fmt sensor state format).2.2.2.format.height) :
    (ar0144_set_fmt (ar0144_set_fmt sensor state format).2.1
        (ar0144_set_fmt sensor state format).2.2.1 format2).1 = 0 ∧
    (ar0144_set_fmt (ar0144_set_fmt sensor state format).2.1
        (ar0144_set_fmt sensor state format).2.2.1 format2).2.2.2.format =
      (ar0144_set_fmt sensor state format).2.2.2.format ∧
    (ar0144_set_fmt (ar0144_set_fmt sensor state format).2.1
        (ar0144_set_fmt sensor state format).2.2.1 format2).2.1 =
      (ar0144_set_fmt sensor state format).2.1 := by
  have hst := find_format_stable sensor format.format.code htable
  have hsw := skipfactor_stable sensor.crop.width format.format.width
  have hsh := skipfactor_stable sensor.crop.height format.format.height
  obtain ⟨which, f⟩ := format
  cases hact
  obtain ⟨which2, f2⟩ := format2
  cases hact2
  obtain ⟨-, e1, e2, e3, e4, e5, e6, e7, e8, e9, e10, e11, e12, e13, e14, e15, e16⟩ :=
    set_fmt_active sensor state f hidle
  rw [e2] at hcode hwidth hheight
  simp only at hcode hwidth hheight hst hsw hsh
  have hfix := set_fmt_fixed (ar0144_set_fmt sensor state ⟨V4L2_SUBDEV_FORMAT_ACTIVE, f⟩).2.1
    (ar0144_set_fmt sensor state ⟨V4L2_SUBDEV_FORMAT_ACTIVE, f⟩).2.2.1 f2 e3
    (by rw [find_format_congr sensor _ _ e4, hcode, e7]; exact congrArg ar0144_format.code hst)
    (by rw [find_format_congr sensor _ _ e4, hcode, e7, e8]
        exact congrArg ar0144_format.bpp hst)
    (by rw [hwidth, e5, e9, e11]; exact hsw)
    (by rw [hheight, e5, e10, e12]; exact hsh)
    (by rw [e5, e9, e11]) (by rw [e5, e10, e12]) e13 (by rw [e14, e6]) e15 e16
  rw [hfix]
  refine ⟨rfl, ?_, rfl⟩
  rw [e2]

/-- Witness for C12: on the registered AR0144 (crop 1280x800) a request for
300x200 returns 160x200; asking again for 160x200 with the returned code
gives the same format and the same device state. -/
theorem set_fmt_idempotent_witness :
    (ar0144_registered.formats ∈ ar0144_format_tables ∧
      ar0144_registered.is_streaming = false ∧
      (ar0144_set_fmt ar0144_registered state_zero (fmt_request 300 200)).2.2.2.format.width
        = 160 ∧
      (ar0144_set_fmt ar0144_registered state_zero (fmt_request 300 200)).2.2.2.format.height
        = 200) ∧
    ((ar0144_set_fmt (ar0144_set_fmt ar0144_registered state_zero (fmt_request 300 200)).2.1
        (ar0144_set_fmt ar0144_registered state_zero (fmt_request 300 200)).2.2.1
        (fmt_request 160 200)).1 = 0 ∧
    (ar0144_set_fmt (ar0144_set_fmt ar0144_registered state_zero (fmt_request 300 200)).2.1
        (ar0144_set_fmt ar0144_registered state_zero (fmt_request 300 200)).2.2.1
        (fmt_request 160 200)).2.2.2.format =
      (ar0144_set_fmt ar0144_registered state_zero (fmt_request 300 200)).2.2.2.format ∧
    (ar0144_set_fmt (ar0144_set_fmt ar0144_registered state_zero (fmt_request 300 200)).2.1
        (ar0144_set_fmt ar0144_registered state_zero (fmt_request 300 200)).2.2.1
        (fmt_request 160 200)).2.1 =
      (ar0144_set_fmt ar0144_registered state_zero (fmt_request 300 200)).2.1) :=
  ⟨⟨by decide, rfl, by decide, by decide⟩,
    set_fmt_idempotent ar0144_registered state_zero (fmt_request 300 200) (fmt_request 160 200)
      (by decide) rfl rfl rfl (by decide) (by decide) (by decide)⟩

end format_lookup

section stream_state

theorem same_config_streaming {s s1 : ar0144} (h : same_config s s1) :
    s1.is_streaming = s.is_streaming := by
  unfold same_config at h
  rw [h]

theorem same_config_info {s s1 : ar0144} (h : same_config s s1) : s1.info = s.info := by
  unfold same_config at h
  rw [h]

theorem ite_config (s : ar0144) (c : Prop) [Decidable c] (a b : Int × ar0144)
    (ha : same_config s a.2) (hb : same_config s b.2) :
    same_config s (if c then a else b).2 := by
  split_ifs
  · exact ha
  · exact hb

theorem standby_poll_config (timeout val : Nat) (s : ar0144) :
    same_config s (standby_poll timeout val s).2 := by
  induction timeout generalizing val s with
  | zero => exact same_config_refl s
  | succ n ih =>
    unfold standby_poll
    simp only []
    have h1 := ar0144_read_config s AR0144_FRAME_STATUS
    split_ifs
    · exact h1
    · exact h1
    · exact same_config_trans h1 (ih _ _)

theorem ar0144_enter_standby_config (s : ar0144) (val0 : Nat) :
    same_config s (ar0144_enter_standby s val0).2 := by
  unfold ar0144_enter_standby
  refine and_then_config s _ _ (ar0144_update_bits_config s _ _ _) fun x1 => ?_
  simp only []
  have hp := standby_poll_config 1000 val0 x1
  have hr := same_config_trans hp (ar0144_read_config (standby_poll 1000 val0 x1).2
    AR0144_RESET_REGISTER)
  refine and_then_config x1 _ _ ?_ fun x2 => ?_
  · exact ite_config x1 _ _ _
      (same_config_trans hr (ar0144_update_bits_config _ _ _ _)) hr
  · exact ite_config x2 _ _ _ (ar0144_update_bits_config x2 _ _ _) (same_config_refl x2)

theorem ar0144_config_pll_config (s : ar0144) : same_config s (ar0144_config_pll s).2 := by
  unfold ar0144_config_pll
  simp only []
  refine and_then_config s _ _ (ar0144_write_config s _ _) fun x1 => ?_
  refine and_then_config x1 _ _ (ar0144_write_config x1 _ _) fun x2 => ?_
  refine and_then_config x2 _ _ (ar0144_write_config x2 _ _) fun x3 => ?_
  refine and_then_config x3 _ _ (ar0144_write_config x3 _ _) fun x4 => ?_
  refine and_then_config x4 _ _ (ar0144_write_config x4 _ _) fun x5 => ?_
  exact ar0144_write_config x5 _ _

theorem ar0144_start_config (s : ar0144) :
    same_config s (if s.trigger = true then ar0144_start_trigger s else ar0144_start_stream s).2 :=
  ite_config s _ _ _ (ar0144_update_bits_config s _ _ _) (ar0144_update_bits_config s _ _ _)

theorem ar0144_config_parallel_config (s : ar0144) :
    same_config s (ar0144_config_parallel s).2 := by
  unfold ar0144_config_parallel
  refine and_then_config s _ _ (ar0144_write_config s _ _) fun x1 => ?_
  refine and_then_config x1 _ _ (ar0144_update_bits_config x1 _ _ _) fun x2 => ?_
  exact ar0144_start_config x2

theorem ar0144_config_mipi_config (s : ar0144) : same_config s (ar0144_config_mipi s).2 := by
  unfold ar0144_config_mipi
  simp only []
  split
  · exact same_config_refl s
  · refine and_then_config s _ _ (ar0144_write_config s _ _) fun x1 => ?_
    refine and_then_config x1 _ _ (ar0144_write_config x1 _ _) fun x2 => ?_
    refine and_then_config x2 _ _ (ar0144_update_bits_config x2 _ _ _) fun x3 => ?_
    refine and_then_config x3 _ _ (ar0144_start_config x3) fun x4 => ?_
    exact ar0144_update_bits_config x4 _ _ _

theorem ar0144_mipi_enter_lp11_config (s : ar0144) :
    same_config s (ar0144_mipi_enter_lp11 s).2 := by
  unfold ar0144_mipi_enter_lp11
  simp only []
  refine and_then_config s _ _ (ar0144_write_config s _ _) fun x1 => ?_
  refine and_then_config x1 _ _ (ar0144_update_bits_config x1 _ _ _) fun x2 => ?_
  exact ar0144_update_bits_config x2 _ _ _

/-- The two ways a step `ret = f(); if (ret) return ret;` can go. -/
theorem and_then_cases (r : Int × ar0144) (f : ar0144 → Int × ar0144) :
    (r.1 ≠ 0 ∧ and_then r f = r) ∨ (r.1 = 0 ∧ and_then r f = f r.2) := by
  unfold and_then
  by_cases h : r.1 ≠ 0
  · exact Or.inl ⟨h, if_pos h⟩
  · exact Or.inr ⟨not_not.mp h, if_neg h⟩

theorem pair_eta (r : Int × ar0144) (h : r.1 = 0) : r = (0, r.2) := by
  obtain ⟨a, b⟩ := r
  cases h
  rfl


theorem and_then_err_config (s : ar0144) (r : Int × ar0144) (f : ar0144 → Int × ar0144)
    (h1 : same_config s r.2)
    (h2 : ∀ x, same_config s x → (f x).1 ≠ 0 → same_config s (f x).2) :
    (and_then r f).1 ≠ 0 → same_config s (and_then r f).2 := by
  unfold and_then
  split_ifs with h
  · exact fun _ => h1
  · exact h2 r.2 h1

theorem and_then_true (r : Int × ar0144) (f : ar0144 → Int × ar0144)
    (h : (and_then r f).2.is_streaming = true) (hr : r.2.is_streaming = false) :
    r = (0, r.2) ∧ and_then r f = f r.2 := by
  unfold and_then at h ⊢
  by_cases h0 : r.1 ≠ 0
  · rw [if_pos h0, hr] at h
    exact Bool.noConfusion h
  · exact ⟨pair_eta r (not_not.mp h0), if_neg h0⟩

/-- A failing `ar0144_stream_on` has changed nothing but the transport. -/
theorem stream_on_err_config (sensor : ar0144) (val0 : Nat) :
    (ar0144_stream_on sensor val0).1 ≠ 0 →
      same_config sensor (ar0144_stream_on sensor val0).2 := by
  unfold ar0144_stream_on
  refine and_then_err_config sensor _ _
    (ite_config sensor _ _ _ (ar0144_enter_standby_config sensor val0)
      (same_config_refl sensor)) fun x0 h0 => ?_
  refine and_then_err_config sensor _ _
    (same_config_trans h0 (ar0144_config_pll_config x0)) fun x1 h1 => ?_
  refine and_then_err_config sensor _ _
    (same_config_trans h1 (ar0144_config_frame_config x1)) fun x2 h2 => ?_
  refine and_then_err_config sensor _ _
    (same_config_trans h2 (ar0144_update_bits_config x2 _ _ _)) fun x3 h3 => ?_
  refine and_then_err_config sensor _ _
    (same_config_trans h3 (ite_config x3 _ _ _ (ar0144_config_parallel_config x3)
      (ar0144_config_mipi_config x3))) fun x4 _ => ?_
  intro h
  exact absurd rfl h

/-- When `ar0144_stream_on` turns `is_streaming` on, every step before the
assignment has returned 0. -/
theorem stream_on_steps (sensor : ar0144) (val0 : Nat)
    (hidle : sensor.is_streaming = false)
    (hon : (ar0144_stream_on sensor val0).2.is_streaming = true) :
    ∃ s0 s1 s2 s3 s4,
      (if sensor.info.bus_type = V4L2_MBUS_CSI2_DPHY then ar0144_enter_standby sensor val0
        else (0, sensor)) = (0, s0) ∧
      ar0144_config_pll s0 = (0, s1) ∧
      ar0144_config_frame s1 = (0, s2) ∧
      ar0144_update_bits s2 AR0144_DIGITAL_TEST BIT_MONOCHROME_OP
        (if s2.model.color = AR0144_MODEL_MONOCHROME then BIT_MONOCHROME_OP else 0) = (0, s3) ∧
      (if s3.info.bus_type = V4L2_MBUS_PARALLEL then ar0144_config_parallel s3
        else ar0144_config_mipi s3) = (0, s4) ∧
      ar0144_stream_on sensor val0 = (0, { s4 with is_streaming := true }) := by
  unfold ar0144_stream_on at hon ⊢
  have c0 : same_config sensor
      (if sensor.info.bus_type = V4L2_MBUS_CSI2_DPHY then ar0144_enter_standby sensor val0
        else (0, sensor)).2 :=
    ite_config sensor _ _ _ (ar0144_enter_standby_config sensor val0) (same_config_refl sensor)
  obtain ⟨e0, a0⟩ := and_then_true _ _ hon ((same_config_streaming c0).trans hidle)
  rw [a0] at hon ⊢
  generalize (if sensor.info.bus_type = V4L2_MBUS_CSI2_DPHY then
    ar0144_enter_standby sensor val0 else (0, sensor)).2 = s0 at e0 c0 hon ⊢
  have c1 := same_config_trans c0 (ar0144_config_pll_config s0)
  obtain ⟨e1, a1⟩ := and_then_true _ _ hon ((same_config_streaming c1).trans hidle)
  rw [a1] at hon ⊢
  generalize (ar0144_config_pll s0).2 = s1 at e1 c1 hon ⊢
  have c2 := same_config_trans c1 (ar0144_config_frame_config s1)
  obtain ⟨e2, a2⟩ := and_then_true _ _ hon ((same_config_streaming c2).trans hidle)
  rw [a2] at hon ⊢
  generalize (ar0144_config_frame s1).2 = s2 at e2 c2 hon ⊢
  have c3 := same_config_trans c2 (ar0144_update_bits_config s2 AR0144_DIGITAL_TEST
    BIT_MONOCHROME_OP (if s2.model.color = AR0144_MODEL_MONOCHROME then BIT_MONOCHROME_OP else 0))
  obtain ⟨e3, a3⟩ := and_then_true _ _ hon ((same_config_streaming c3).trans hidle)
  rw [a3] at hon ⊢
  generalize (ar0144_update_bits s2 AR0144_DIGITAL_TEST BIT_MONOCHROME_OP
    (if s2.model.color = AR0144_MODEL_MONOCHROME then BIT_MONOCHROME_OP else 0)).2 = s3
    at e3 c3 hon ⊢
  have c4 := same_config_trans c3 (ite_config s3 (s3.info.bus_type = V4L2_MBUS_PARALLEL)
    _ _ (ar0144_config_parallel_config s3) (ar0144_config_mipi_config s3))
  obtain ⟨e4, a4⟩ := and_then_true _ _ hon ((same_config_streaming c4).trans hidle)
  rw [a4]
  exact ⟨s0, s1, s2, s3, _, e0, e1, e2, e3, e4, rfl⟩


/-- C18: a stream request that matches the current stream state changes
nothing and issues no transfer: `ar0144_s_stream` with a non-zero `enable`
while streaming returns `-EBUSY`, and with `enable = 0` while not streaming
it returns 0; in both cases the device, its transport log included, is left
as it was. -/
theorem s_stream_same_state (sensor : ar0144) (val0 : Nat) (enable : Int) :
    (enable ≠ 0 → sensor.is_streaming = true →
      ar0144_s_stream sensor val0 enable = (-EBUSY, sensor) ∧
      (ar0144_s_stream sensor val0 enable).2.i2c.log = sensor.i2c.log) ∧
    (enable = 0 → sensor.is_streaming = false →
      ar0144_s_stream sensor val0 enable = (0, sensor) ∧
      (ar0144_s_stream sensor val0 enable).2.i2c.log = sensor.i2c.log) := by
  constructor
  · intro he hs
    have h : ar0144_s_stream sensor val0 enable = (-EBUSY, sensor) := by
      unfold ar0144_s_stream
      rw [if_pos ⟨he, hs⟩]
    rw [h]
    exact ⟨rfl, rfl⟩
  · intro he hs
    have h : ar0144_s_stream sensor val0 enable = (0, sensor) := by
      unfold ar0144_s_stream
      rw [if_neg (fun h => h.1 he), if_pos ⟨he, hs⟩]
    rw [h]
    exact ⟨rfl, rfl⟩

/-- Witness for C18: enabling the streaming AR0144 again gives `-EBUSY` and
disabling the registered, idle AR0144 gives 0, both without a transfer. -/
theorem s_stream_same_state_witness :
    ((1 : Int) ≠ 0 ∧ ar0144_streaming.is_streaming = true ∧
      (0 : Int) = 0 ∧ ar0144_registered.is_streaming = false) ∧
    (ar0144_s_stream ar0144_streaming 0 1 = (-EBUSY, ar0144_streaming) ∧
      (ar0144_s_stream ar0144_streaming 0 1).2.i2c.log = ar0144_streaming.i2c.log) ∧
    (ar0144_s_stream ar0144_registered 0 0 = (0, ar0144_registered) ∧
      (ar0144_s_stream ar0144_registered 0 0).2.i2c.log = ar0144_registered.i2c.log) :=
  ⟨⟨by decide, rfl, rfl, rfl⟩,
    (s_stream_same_state ar0144_streaming 0 1).1 (by decide) rfl,
    (s_stream_same_state ar0144_registered 0 0).2 rfl rfl⟩

/-- C19: `ar0144_s_power` with `on = 0` while the power reference count is
zero returns `-EINVAL` and issues no transfer: the transport log and the
register file are unchanged. -/
theorem s_power_off_unpowered (sensor : ar0144) (val0 : Nat)
    (hcount : sensor.power_user = 0) :
    (ar0144_s_power sensor val0 0).1 = -EINVAL ∧
    (ar0144_s_power sensor val0 0).2.i2c.log = sensor.i2c.log ∧
    (ar0144_s_power sensor val0 0).2.i2c.regs = sensor.i2c.regs := by
  have h : ar0144_s_power sensor val0 0 =
      (-EINVAL, { sensor with power_user := sensor.power_user - 1 }) := by
    unfold ar0144_s_power
    rw [if_neg (fun h => h rfl)]
    simp only []
    rw [if_pos (by rw [hcount]; decide)]
  rw [h]
  exact ⟨rfl, rfl, rfl⟩

/-- Witness for C19: the registered AR0144 has never been powered on;
powering it off returns `-EINVAL` and its transport log stays empty. -/
theorem s_power_off_unpowered_witness :
    ar0144_registered.power_user = 0 ∧
    (ar0144_s_power ar0144_registered 0 0).1 = -EINVAL ∧
    (ar0144_s_power ar0144_registered 0 0).2.i2c.log = ar0144_registered.i2c.log ∧
    (ar0144_s_power ar0144_registered 0 0).2.i2c.regs = ar0144_registered.i2c.regs :=
  ⟨rfl, s_power_off_unpowered ar0144_registered 0 rfl⟩

/-- C20: for every bus type, every behaviour of the register transport and
every initial content of the local of `ar0144_enter_standby`: when
`ar0144_stream_on` returns an error, `is_streaming` is what it was (so a
failed `ar0144_s_stream` enable on an idle sensor leaves it `false`); and
when `ar0144_stream_on` turns `is_streaming` from `false` to `true`, the
standby step (MIPI only), `ar0144_config_pll`, `ar0144_config_frame`, the
mono/colour `ar0144_update_bits` and the bus-specific step have all returned
0 and `ar0144_stream_on` returns 0. -/
theorem stream_on_atomic (sensor : ar0144) (val0 : Nat) :
    ((ar0144_stream_on sensor val0).1 ≠ 0 →
      (ar0144_stream_on sensor val0).2.is_streaming = sensor.is_streaming) ∧
    (∀ enable : Int, sensor.is_streaming = false →
      (ar0144_s_stream sensor val0 enable).1 ≠ 0 →
      (ar0144_s_stream sensor val0 enable).2.is_streaming = false) ∧
    (sensor.is_streaming = false →
      (ar0144_stream_on sensor val0).2.is_streaming = true →
      ∃ s0 s1 s2 s3 s4,
        (if sensor.info.bus_type = V4L2_MBUS_CSI2_DPHY then ar0144_enter_standby sensor val0
          else (0, sensor)) = (0, s0) ∧
        ar0144_config_pll s0 = (0, s1) ∧
        ar0144_config_frame s1 = (0, s2) ∧
        ar0144_update_bits s2 AR0144_DIGITAL_TEST BIT_MONOCHROME_OP
          (if s2.model.color = AR0144_MODEL_MONOCHROME then BIT_MONOCHROME_OP else 0) =
            (0, s3) ∧
        (if s3.info.bus_type = V4L2_MBUS_PARALLEL then ar0144_config_parallel s3
          else ar0144_config_mipi s3) = (0, s4) ∧
        ar0144_stream_on sensor val0 = (0, { s4 with is_streaming := true })) := by
  refine ⟨fun h => same_config_streaming (stream_on_err_config sensor val0 h), ?_,
    stream_on_steps sensor val0⟩
  intro enable hidle
  unfold ar0144_s_stream
  rw [if_neg (fun h => by rw [hidle] at h; exact Bool.noConfusion h.2)]
  by_cases he : enable = 0
  · rw [if_pos ⟨he, hidle⟩]
    intro h
    exact absurd rfl h
  · rw [if_neg (fun h => he h.1), if_pos he]
    intro h
    rw [same_config_streaming (stream_on_err_config sensor val0 h)]
    exact hidle

/-- Witness for C20: on a transport where every transfer fails,
`ar0144_stream_on` returns an error and `is_streaming` stays `false`; on the
working transport of the registered AR0144 it returns 0 after all steps have
returned 0. -/
theorem stream_on_atomic_witness :
    ((ar0144_stream_on ar0144_dead_bus 0).1 ≠ 0 ∧
      (ar0144_stream_on ar0144_dead_bus 0).2.is_streaming = false) ∧
    ((ar0144_s_stream ar0144_dead_bus 0 1).1 ≠ 0 ∧
      (ar0144_s_stream ar0144_dead_bus 0 1).2.is_streaming = false) ∧
    (ar0144_registered.is_streaming = false ∧
      (ar0144_stream_on ar0144_registered 0).2.is_streaming = true ∧
      ∃ s0 s1 s2 s3 s4,
        (if ar0144_registered.info.bus_type = V4L2_MBUS_CSI2_DPHY then
          ar0144_enter_standby ar0144_registered 0
          else (0, ar0144_registered)) = (0, s0) ∧
        ar0144_config_pll s0 = (0, s1) ∧
        ar0144_config_frame s1 = (0, s2) ∧
        ar0144_update_bits s2 AR0144_DIGITAL_TEST BIT_MONOCHROME_OP
          (if s2.model.color = AR0144_MODEL_MONOCHROME then BIT_MONOCHROME_OP else 0) =
            (0, s3) ∧
        (if s3.info.bus_type = V4L2_MBUS_PARALLEL then ar0144_config_parallel s3
          else ar0144_config_mipi s3) = (0, s4) ∧
        ar0144_stream_on ar0144_registered 0 = (0, { s4 with is_streaming := true })) :=
  ⟨⟨by decide, (stream_on_atomic ar0144_dead_bus 0).1 (by decide)⟩,
    ⟨by decide, (stream_on_atomic ar0144_dead_bus 0).2.1 1 rfl (by decide)⟩,
    rfl, by decide, (stream_on_atomic ar0144_registered 0).2.2 rfl (by decide)⟩

end stream_state

section analogue_gain

theorem again_coarse_eq (val : Nat) :
    again_coarse val =
      if val < 2000 then 0
      else if val < 4000 then 1
      else if val < 8000 then 2
      else if val < 16000 then 3
      else if val < 32000 then 4
      else 5 := by
  have hr : List.range 5 = [0, 1, 2, 3, 4] := by decide
  have e0 : u32 (u32 (1 <<< (0 + 1)) * 1000) = 2000 := by decide
  have e1 : u32 (u32 (1 <<< (1 + 1)) * 1000) = 4000 := by decide
  have e2 : u32 (u32 (1 <<< (2 + 1)) * 1000) = 8000 := by decide
  have e3 : u32 (u32 (1 <<< (3 + 1)) * 1000) = 16000 := by decide
  have e4 : u32 (u32 (1 <<< (4 + 1)) * 1000) = 32000 := by decide
  unfold again_coarse
  simp only [hr, List.find?, e0, e1, e2, e3, e4]
  by_cases h0 : val < 2000
  · simp [h0]
  · by_cases h1 : val < 4000
    · simp [h0, h1]
    · by_cases h2 : val < 8000
      · simp [h0, h1, h2]
      · by_cases h3 : val < 16000
        · simp [h0, h1, h2, h3]
        · by_cases h4 : val < 32000
          · simp [h0, h1, h2, h3, h4]
          · simp [h0, h1, h2, h3, h4]

theorem round_closest_eq (x d : Nat) (hd : 0 < d) :
    (x + d / 2) / d = spec_round_nearest x d := by
  unfold spec_round_nearest
  symm
  have h1 : d * ((x + d / 2) / d) + (x + d / 2) % d = x + d / 2 := Nat.div_add_mod _ _
  have h2 : (x + d / 2) % d < d := Nat.mod_lt _ hd
  generalize (x + d / 2) / d = q at h1 ⊢
  generalize (x + d / 2) % d = r at h1 h2
  apply Nat.div_eq_of_lt_le
  · have h3 : q * (2 * d) = 2 * (d * q) := by ring
    rw [h3]
    omega
  · have h3 : (q + 1) * (2 * d) = 2 * (d * q) + 2 * d := by ring
    rw [h3]
    omega

theorem u16_lt (n : Nat) : u16 n < 2 ^ 16 := Nat.mod_lt _ (by decide)

theorem u16_of_lt {n : Nat} (h : n < 2 ^ 16) : u16 n = n := Nat.mod_eq_of_lt h

/-- On a transport that completes every transfer `ar0144_update_bits`
returns 0 and leaves `(orig & ~mask) | (val & mask)` in the register. -/
theorem update_bits_value (sensor : ar0144) (reg mask val : Nat)
    (hok : ∀ n, sensor.i2c.fault n = none) :
    (ar0144_update_bits sensor reg mask val).1 = 0 ∧
    u16 ((ar0144_update_bits sensor reg mask val).2.i2c.regs (u16 reg)) =
      (u16 (sensor.i2c.regs (u16 reg)) &&& (0xffff - u16 mask)) ||| (u16 val &&& u16 mask) := by
  have hlt : (u16 (sensor.i2c.regs (u16 reg)) &&& (0xffff - u16 mask)) |||
      (u16 val &&& u16 mask) < 2 ^ 16 :=
    Nat.or_lt_two_pow (Nat.lt_of_le_of_lt Nat.and_le_left (u16_lt _))
      (Nat.lt_of_le_of_lt Nat.and_le_left (u16_lt _))
  unfold ar0144_update_bits ar0144_read ar0144_write i2c_transfer
  simp only [hok, Option.getD_none]
  by_cases h : (u16 (sensor.i2c.regs (u16 reg)) &&& (0xffff - u16 mask)) |||
      (u16 val &&& u16 mask) = u16 (sensor.i2c.regs (u16 reg))
  · simp [h]
  · simp [h, hok, u16_of_lt hlt, u16_of_lt (u16_lt reg)]

theorem u32_to_int_of_lt {n : Nat} (h : n < 2 ^ 31) : u32_to_int n = (n : Int) := by
  have h1 : u32 n = n := Nat.mod_eq_of_lt (by omega)
  unfold u32_to_int
  rw [h1, if_pos h]

theorem again_shift (c : Nat) (hc : c ≤ 4) :
    u32 (1 <<< c) = 2 ^ c ∧ u32 (u32 (1000 * u32 (1 <<< c)) * 32) = 1000 * 2 ^ c * 32 ∧
    BIT_COARSE_GAIN c = c <<< 4 ∧ 1000 * 2 ^ c * 32 ≤ 512000 := by
  interval_cases c <;> decide

/-- The fine field of a normalised value in [1000, 2000): the rounded
quotient, capped at 15. -/
theorem again_fine_eq (g c : Nat) (hc : c ≤ 4) (hv1 : 1000 ≤ g / 2 ^ c)
    (hv2 : g / 2 ^ c < 2000) :
    again_fine g c = min 15 (spec_round_nearest (32 * (g / 2 ^ c - 1000)) (g / 2 ^ c)) := by
  unfold again_fine DIV_ROUND_CLOSEST
  rw [(again_shift c hc).1]
  generalize g / 2 ^ c = v at hv1 hv2
  have e1 : u32 (v + (2 ^ 32 - 1000)) = v - 1000 := by
    unfold u32
    omega
  have e2 : u32 (32 * (v - 1000)) = 32 * (v - 1000) := by
    unfold u32
    omega
  have e3 : u32 (32 * (v - 1000) + v / 2) = 32 * (v - 1000) + v / 2 := by
    unfold u32
    omega
  simp only [e1, e2, e3]
  rw [round_closest_eq _ _ (by omega)]
  generalize spec_round_nearest (32 * (v - 1000)) v = f
  split_ifs <;> omega

theorem again_fine_le (g c : Nat) : again_fine g c ≤ 15 := by
  unfold again_fine
  simp only []
  split_ifs <;> omega

/-- What `ar0144_set_analogue_gain` does once the coarse step is known. -/
theorem set_analogue_gain_unfold (sensor : ar0144) (g c : Nat) (hcoarse : again_coarse g = c)
    (hc : c ≤ 4) :
    (ar0144_set_analogue_gain sensor g).2 =
      (ar0144_update_bits sensor AR0144_ANALOG_GAIN 0x7f
        ((c <<< 4) ||| again_fine g c)).2 ∧
    (ar0144_set_analogue_gain sensor g).1 =
      ((1000 * 2 ^ c * 32 / (32 - again_fine g c) : Nat) : Int) := by
  have hs := again_shift c hc
  have hm : BIT_COARSE_GAIN_MASK ||| BIT_FINE_GAIN_MASK = 0x7f := by decide
  unfold ar0144_set_analogue_gain
  simp only [hcoarse, hs.2.1, hs.2.2.1, hm, BIT_FINE_GAIN]
  refine ⟨trivial, ?_⟩
  apply u32_to_int_of_lt
  have h1 : 1000 * 2 ^ c * 32 / (32 - again_fine g c) ≤ 1000 * 2 ^ c * 32 := Nat.div_le_self _ _
  have h2 := hs.2.2.2
  omega

theorem again_field (o code : Nat) (hcode : code < 128) :
    ((o &&& (0xffff - u16 0x7f)) ||| (u16 code &&& u16 0x7f)) &&& 0x7f = code ∧
    ((o &&& (0xffff - u16 0x7f)) ||| (u16 code &&& u16 0x7f)) &&& 0xff80 = o &&& 0xff80 := by
  have e1 : 0xffff - u16 0x7f = 0xff80 := by decide
  have e2 : u16 0x7f = 0x7f := by decide
  have e3 : u16 code = code := u16_of_lt (by omega)
  have e4 : code &&& 0x7f = code := by
    have := Nat.and_pow_two_sub_one_of_lt_two_pow (n := 7) (x := code) (by omega)
    simpa using this
  have e5 : (0xff80 : Nat) &&& 0x7f = 0 := by decide
  have e6 : (0x7f : Nat) &&& 0xff80 = 0 := by decide
  have e7 : (0xff80 : Nat) &&& 0xff80 = 0xff80 := by decide
  have a1 : (o &&& 0xff80) &&& 0x7f = 0 := by rw [Nat.and_assoc, e5, Nat.and_zero]
  have a2 : code &&& 0xff80 = 0 := by rw [← e4, Nat.and_assoc, e6, Nat.and_zero]
  have a3 : (o &&& 0xff80) &&& 0xff80 = o &&& 0xff80 := by rw [Nat.and_assoc, e7]
  rw [e1, e2, e3, e4]
  constructor
  · rw [Nat.and_comm (o &&& 0xff80 ||| code) 0x7f, Nat.and_or_distrib_left,
      Nat.and_comm 0x7f (o &&& 0xff80), a1, Nat.and_comm 0x7f code, e4, Nat.zero_or]
  · rw [Nat.and_comm (o &&& 0xff80 ||| code) 0xff80, Nat.and_or_distrib_left,
      Nat.and_comm 0xff80 (o &&& 0xff80), a3, Nat.and_comm 0xff80 code, a2, Nat.or_zero]

theorem again_code_eq : ∀ c < 5, ∀ f < 16, (c <<< 4) ||| f = 16 * c + f := by decide

/-- The coarse step of a gain of the control range and the normalised
value it leaves. -/
theorem again_coarse_range (g : Nat) (hlo : 1684 ≤ g) (hhi : g ≤ 16000) :
    ∃ c, c ≤ 4 ∧ again_coarse g = c ∧ g < 1000 * 2 ^ (c + 1) ∧
      (∀ k, k < c → ¬ g < 1000 * 2 ^ (k + 1)) ∧ 1000 ≤ g / 2 ^ c ∧ g / 2 ^ c < 2000 := by
  rw [again_coarse_eq]
  by_cases h0 : g < 2000
  · refine ⟨0, by omega, by rw [if_pos h0], by omega, fun k hk => absurd hk (by omega), ?_, ?_⟩
    · simp only [pow_zero, Nat.div_one]; omega
    · simp only [pow_zero, Nat.div_one]; omega
  by_cases h1 : g < 4000
  · refine ⟨1, by omega, by rw [if_neg h0, if_pos h1], by norm_num; omega, ?_, ?_, ?_⟩
    · intro k hk
      interval_cases k
      norm_num; omega
    · norm_num; omega
    · norm_num; omega
  by_cases h2 : g < 8000
  · refine ⟨2, by omega, by rw [if_neg h0, if_neg h1, if_pos h2], by norm_num; omega, ?_, ?_, ?_⟩
    · intro k hk
      interval_cases k <;> norm_num <;> omega
    · norm_num; omega
    · norm_num; omega
  by_cases h3 : g < 16000
  · refine ⟨3, by omega, by rw [if_neg h0, if_neg h1, if_neg h2, if_pos h3], by norm_num; omega,
      ?_, ?_, ?_⟩
    · intro k hk
      interval_cases k <;> norm_num <;> omega
    · norm_num; omega
    · norm_num; omega
  · refine ⟨4, by omega, by rw [if_neg h0, if_neg h1, if_neg h2, if_neg h3, if_pos (by omega)],
      by norm_num; omega, ?_, ?_, ?_⟩
    · intro k hk
      interval_cases k <;> norm_num <;> omega
    · norm_num; omega
    · norm_num; omega

/-- C13: for every requested analog gain `g` of the control range
[1684, 16000], `ar0144_set_analogue_gain` works with `coarse`, the smallest
integer in [0, 4] with `g < 1000 * 2^(coarse+1)`, the normalised value
`v = g / 2^coarse` and `fine = min(15, round(32 * (v - 1000) / v))`, rounded
to the nearest integer; it updates the analog gain register under the mask
`0x7f` with `(coarse << 4) | fine` (so, when the transfers complete, bits
0..6 of the register hold that code and the other bits keep their value)
and returns `1000 * 2^coarse * 32 / (32 - fine)`. -/
theorem set_analogue_gain_encoding (sensor : ar0144) (g : Nat)
    (hlo : 1684 ≤ g) (hhi : g ≤ 16000) :
    ∃ coarse fine,
      coarse ≤ 4 ∧ g < 1000 * 2 ^ (coarse + 1) ∧
      (∀ k, k < coarse → ¬ g < 1000 * 2 ^ (k + 1)) ∧
      1000 ≤ g / 2 ^ coarse ∧
      fine = min 15 (spec_round_nearest (32 * (g / 2 ^ coarse - 1000)) (g / 2 ^ coarse)) ∧
      (ar0144_set_analogue_gain sensor g).2 =
        (ar0144_update_bits sensor AR0144_ANALOG_GAIN 0x7f ((coarse <<< 4) ||| fine)).2 ∧
      ((∀ n, sensor.i2c.fault n = none) →
        u16 ((ar0144_set_analogue_gain sensor g).2.i2c.regs AR0144_ANALOG_GAIN) &&& 0x7f =
          (coarse <<< 4) ||| fine ∧
        u16 ((ar0144_set_analogue_gain sensor g).2.i2c.regs AR0144_ANALOG_GAIN) &&& 0xff80 =
          u16 (sensor.i2c.regs AR0144_ANALOG_GAIN) &&& 0xff80) ∧
      (ar0144_set_analogue_gain sensor g).1 =
        ((1000 * 2 ^ coarse * 32 / (32 - fine) : Nat) : Int) := by
  obtain ⟨c, hc, hcoarse, hlt, hmin, hv1, hv2⟩ := again_coarse_range g hlo hhi
  obtain ⟨hdev, hret⟩ := set_analogue_gain_unfold sensor g c hcoarse hc
  refine ⟨c, again_fine g c, hc, hlt, hmin, hv1, again_fine_eq g c hc hv1 hv2, hdev, ?_, hret⟩
  intro hok
  have hreg : u16 AR0144_ANALOG_GAIN = AR0144_ANALOG_GAIN := by decide
  have hval := (update_bits_value sensor AR0144_ANALOG_GAIN 0x7f
    ((c <<< 4) ||| again_fine g c) hok).2
  rw [hreg] at hval
  have hcode : (c <<< 4) ||| again_fine g c < 128 := by
    have hf := again_fine_le g c
    rw [again_code_eq c (by omega) _ (by omega)]
    omega
  rw [hdev, hval]
  exact again_field _ _ hcode

/-- Witness for C13: a request of 7999 on the registered AR0144 takes
coarse step 2 and fine step 15 and returns 7529. -/
theorem set_analogue_gain_encoding_witness :
    ((1684 : Nat) ≤ 7999 ∧ (7999 : Nat) ≤ 16000) ∧
    (ar0144_set_analogue_gain ar0144_registered 7999).1 = 7529 ∧
    (ar0144_set_analogue_gain ar0144_registered 7999).2.i2c.log =
      [i2c_msg.read AR0144_ANALOG_GAIN, i2c_msg.write AR0144_ANALOG_GAIN 0x2f] ∧
    ∃ coarse fine,
      coarse ≤ 4 ∧ 7999 < 1000 * 2 ^ (coarse + 1) ∧
      (∀ k, k < coarse → ¬ 7999 < 1000 * 2 ^ (k + 1)) ∧
      1000 ≤ 7999 / 2 ^ coarse ∧
      fine =
        min 15 (spec_round_nearest (32 * (7999 / 2 ^ coarse - 1000)) (7999 / 2 ^ coarse)) ∧
      (ar0144_set_analogue_gain ar0144_registered 7999).2 =
        (ar0144_update_bits ar0144_registered AR0144_ANALOG_GAIN 0x7f
          ((coarse <<< 4) ||| fine)).2 ∧
      ((∀ n, ar0144_registered.i2c.fault n = none) →
        u16 ((ar0144_set_analogue_gain ar0144_registered 7999).2.i2c.regs AR0144_ANALOG_GAIN)
          &&& 0x7f = (coarse <<< 4) ||| fine ∧
        u16 ((ar0144_set_analogue_gain ar0144_registered 7999).2.i2c.regs AR0144_ANALOG_GAIN)
          &&& 0xff80 = u16 (ar0144_registered.i2c.regs AR0144_ANALOG_GAIN) &&& 0xff80) ∧
      (ar0144_set_analogue_gain ar0144_registered 7999).1 =
        ((1000 * 2 ^ coarse * 32 / (32 - fine) : Nat) : Int) :=
  ⟨⟨by decide, by decide⟩, by decide, by decide,
    set_analogue_gain_encoding ar0144_registered 7999 (by decide) (by decide)⟩

theorem set_analogue_gain_ret (s1 s2 : ar0144) (g : Nat) :
    (ar0144_set_analogue_gain s1 g).1 = (ar0144_set_analogue_gain s2 g).1 := rfl

/-- C14: the representable gains `1000 * 2^c * 32 / (32 - f)` (`c` in 0..4,
`f` in 0..15) increase strictly in the order of `(c, f)`, and for each `g`
in {1684, 2000, 7999, 15999} there are adjacent representable gains that
bracket `g`, and for every such pair `lo <= g <= hi` the gain returned by
`ar0144_set_analogue_gain` is closer to `g` than `hi - lo`. -/
theorem analogue_gain_within_step (sensor : ar0144) :
    again_levels.Pairwise (fun a b => a < b) ∧
    ∀ g ∈ [1684, 2000, 7999, 15999],
      (∃ p ∈ again_steps, p.1 ≤ g ∧ g ≤ p.2) ∧
      ∀ p ∈ again_steps, p.1 ≤ g → g ≤ p.2 →
        Int.natAbs ((ar0144_set_analogue_gain sensor g).1 - (g : Int)) < p.2 - p.1 := by
  have h : again_levels.Pairwise (fun a b => a < b) ∧
      ∀ g ∈ [1684, 2000, 7999, 15999],
        (∃ p ∈ again_steps, p.1 ≤ g ∧ g ≤ p.2) ∧
        ∀ p ∈ again_steps, p.1 ≤ g → g ≤ p.2 →
          Int.natAbs ((ar0144_set_analogue_gain ar0144_registered g).1 - (g : Int)) <
            p.2 - p.1 := by
    decide
  refine ⟨h.1, fun g hg => ⟨(h.2 g hg).1, fun p hp h1 h2 => ?_⟩⟩
  rw [set_analogue_gain_ret sensor ar0144_registered g]
  exact (h.2 g hg).2 p hp h1 h2

/-- The capped rounded quotient `min(15, round(32 * (v - 1000) / v))` does
not decrease when the normalised value `v` grows. -/
theorem fine_mono (v1 v2 : Nat) (h1 : 1000 ≤ v1) (h12 : v1 ≤ v2) :
    min 15 (spec_round_nearest (32 * (v1 - 1000)) v1) ≤
      min 15 (spec_round_nearest (32 * (v2 - 1000)) v2) := by
  unfold spec_round_nearest
  generalize hk : min 15 ((2 * (32 * (v1 - 1000)) + v1) / (2 * v1)) = k
  have hk15 : k ≤ 15 := by rw [← hk]; exact Nat.min_le_left _ _
  have hk1 : k ≤ (2 * (32 * (v1 - 1000)) + v1) / (2 * v1) := by
    rw [← hk]; exact Nat.min_le_right _ _
  rw [Nat.le_div_iff_mul_le (by omega)] at hk1
  apply le_min hk15
  rw [Nat.le_div_iff_mul_le (by omega)]
  interval_cases k <;> omega

theorem again_applied_mono (c1 c2 f1 f2 : Nat) (hc2 : c2 ≤ 4) (hf1 : f1 ≤ 15) (hf2 : f2 ≤ 15)
    (h : c1 < c2 ∨ (c1 = c2 ∧ f1 ≤ f2)) :
    (c1 <<< 4) ||| f1 ≤ (c2 <<< 4) ||| f2 ∧
    1000 * 2 ^ c1 * 32 / (32 - f1) ≤ 1000 * 2 ^ c2 * 32 / (32 - f2) := by
  have hc1 : c1 ≤ 4 := by omega
  rw [again_code_eq c1 (by omega) f1 (by omega), again_code_eq c2 (by omega) f2 (by omega)]
  rcases h with h | ⟨rfl, h⟩
  · refine ⟨by omega, ?_⟩
    have a1 : 1000 * 2 ^ c1 * 32 / (32 - f1) ≤ 1000 * 2 ^ c1 * 32 / 17 :=
      Nat.div_le_div_left (by omega) (by omega)
    have a2 : 1000 * 2 ^ c2 * 32 / 32 ≤ 1000 * 2 ^ c2 * 32 / (32 - f2) :=
      Nat.div_le_div_left (by omega) (by omega)
    have a3 : 1000 * 2 ^ c1 * 32 / 17 ≤ 1000 * 2 ^ c2 * 32 / 32 := by
      interval_cases c2 <;> interval_cases c1 <;> omega
    omega
  · exact ⟨by omega, Nat.div_le_div_left (by omega) (by omega)⟩

/-- C15: the analog gain encoding is monotonic. For `g1 <= g2` in
[1684, 16000] the register code `(coarse << 4) | fine` that
`ar0144_set_analogue_gain` passes to the register update for `g1` is not
greater than the one for `g2`, and the applied gain returned for `g1` is not
greater than the one returned for `g2`. -/
theorem analogue_gain_monotone (s1 s2 : ar0144) (g1 g2 : Nat)
    (hlo : 1684 ≤ g1) (hle : g1 ≤ g2) (hhi : g2 ≤ 16000) :
    (ar0144_set_analogue_gain s1 g1).2 =
      (ar0144_update_bits s1 AR0144_ANALOG_GAIN (BIT_COARSE_GAIN_MASK ||| BIT_FINE_GAIN_MASK)
        (BIT_COARSE_GAIN (again_coarse g1) ||| BIT_FINE_GAIN (again_fine g1 (again_coarse g1)))).2 ∧
    (ar0144_set_analogue_gain s2 g2).2 =
      (ar0144_update_bits s2 AR0144_ANALOG_GAIN (BIT_COARSE_GAIN_MASK ||| BIT_FINE_GAIN_MASK)
        (BIT_COARSE_GAIN (again_coarse g2) ||| BIT_FINE_GAIN (again_fine g2 (again_coarse g2)))).2 ∧
    BIT_COARSE_GAIN (again_coarse g1) ||| BIT_FINE_GAIN (again_fine g1 (again_coarse g1)) ≤
      BIT_COARSE_GAIN (again_coarse g2) ||| BIT_FINE_GAIN (again_fine g2 (again_coarse g2)) ∧
    (ar0144_set_analogue_gain s1 g1).1 ≤ (ar0144_set_analogue_gain s2 g2).1 := by
  obtain ⟨c1, hc1, e1, hlt1, hmin1, v1lo, v1hi⟩ := again_coarse_range g1 hlo (by omega)
  obtain ⟨c2, hc2, e2, hlt2, hmin2, v2lo, v2hi⟩ := again_coarse_range g2 (by omega) hhi
  have hcc : c1 ≤ c2 := by
    by_contra hcon
    exact hmin1 c2 (by omega) (by omega)
  have hord : c1 < c2 ∨ (c1 = c2 ∧ again_fine g1 c1 ≤ again_fine g2 c2) := by
    rcases Nat.lt_or_ge c1 c2 with h | h
    · exact Or.inl h
    · have hc : c1 = c2 := by omega
      subst hc
      refine Or.inr ⟨rfl, ?_⟩
      rw [again_fine_eq g1 c1 hc1 v1lo v1hi, again_fine_eq g2 c1 hc1 v2lo v2hi]
      exact fine_mono _ _ v1lo (Nat.div_le_div_right hle)
  have hmono := again_applied_mono c1 c2 (again_fine g1 c1) (again_fine g2 c2) hc2
    (again_fine_le g1 c1) (again_fine_le g2 c2) hord
  refine ⟨rfl, rfl, ?_, ?_⟩
  · rw [e1, e2, (again_shift c1 hc1).2.2.1, (again_shift c2 hc2).2.2.1]
    exact hmono.1
  · rw [(set_analogue_gain_unfold s1 g1 c1 e1 hc1).2, (set_analogue_gain_unfold s2 g2 c2 e2 hc2).2]
    exact Int.ofNat_le.mpr hmono.2

/-- Witness for C15: the requests 7999 and 8000 get the codes `0x2f` and
`0x30` and the applied gains 7529 and 8000. -/
theorem analogue_gain_monotone_witness :
    ((1684 : Nat) ≤ 7999 ∧ (7999 : Nat) ≤ 8000 ∧ (8000 : Nat) ≤ 16000) ∧
    (BIT_COARSE_GAIN (again_coarse 7999) ||| BIT_FINE_GAIN (again_fine 7999 (again_coarse 7999))
      = 0x2f ∧
    BIT_COARSE_GAIN (again_coarse 8000) ||| BIT_FINE_GAIN (again_fine 8000 (again_coarse 8000))
      = 0x30 ∧
    (ar0144_set_analogue_gain ar0144_registered 7999).1 = 7529 ∧
    (ar0144_set_analogue_gain ar0144_registered 8000).1 = 8000) ∧
    BIT_COARSE_GAIN (again_coarse 7999) ||| BIT_FINE_GAIN (again_fine 7999 (again_coarse 7999)) ≤
      BIT_COARSE_GAIN (again_coarse 8000) |||
        BIT_FINE_GAIN (again_fine 8000 (again_coarse 8000)) ∧
    (ar0144_set_analogue_gain ar0144_registered 7999).1 ≤
      (ar0144_set_analogue_gain ar0144_registered 8000).1 :=
  ⟨⟨by decide, by decide, by decide⟩, ⟨by decide, by decide, by decide, by decide⟩,
    (analogue_gain_monotone ar0144_registered ar0144_registered 7999 8000
      (by decide) (by decide) (by decide)).2.2⟩

end analogue_gain

section digital_gain

theorem int_to_u32_natCast (v : Nat) (h : v < 2 ^ 32) : int_to_u32 (v : Int) = v := by
  unfold int_to_u32
  omega

theorem int_to_u32_cast (x : Int) (h0 : 0 ≤ x) (h1 : x < 2 ^ 32) :
    ((int_to_u32 x : Nat) : Int) = x := by
  unfold int_to_u32
  omega

theorem get_min_color_gain_eq (s : ar0144) :
    ar0144_get_min_color_gain s =
      min (min (min (int_to_u32 s.gains.red_ctrl.val) (int_to_u32 s.gains.greenr_ctrl.val))
        (int_to_u32 s.gains.greenb_ctrl.val)) (int_to_u32 s.gains.blue_ctrl.val) := by
  unfold ar0144_get_min_color_gain
  generalize int_to_u32 s.gains.red_ctrl.val = a
  generalize int_to_u32 s.gains.greenr_ctrl.val = b
  generalize int_to_u32 s.gains.greenb_ctrl.val = c
  generalize int_to_u32 s.gains.blue_ctrl.val = d
  have hr : List.range 4 = [0, 1, 2, 3] := by decide
  have e0 : [a, b, c, d].getD 0 0 = a := rfl
  have e1 : [a, b, c, d].getD 1 0 = b := rfl
  have e2 : [a, b, c, d].getD 2 0 = c := rfl
  have e3 : [a, b, c, d].getD 3 0 = d := rfl
  simp only [hr, List.foldl, e0, e1, lt_self_iff_false, if_false]
  by_cases h1 : b < a
  · simp only [h1, if_true, e1, e2]
    by_cases h2 : c < b
    · simp only [h2, if_true, e2, e3]
      by_cases h3 : d < c
      · simp only [h3, if_true, e3, Nat.min_def]
        split_ifs <;> omega
      · simp only [h3, if_false, e2, Nat.min_def]
        split_ifs <;> omega
    · simp only [h2, if_false, e1, e3]
      by_cases h3 : d < b
      · simp only [h3, if_true, e3, Nat.min_def]
        split_ifs <;> omega
      · simp only [h3, if_false, e1, Nat.min_def]
        split_ifs <;> omega
  · simp only [h1, if_false, e0, e2]
    by_cases h2 : c < a
    · simp only [h2, if_true, e2, e3]
      by_cases h3 : d < c
      · simp only [h3, if_true, e3, Nat.min_def]
        split_ifs <;> omega
      · simp only [h3, if_false, e2, Nat.min_def]
        split_ifs <;> omega
    · simp only [h2, if_false, e0, e3]
      by_cases h3 : d < a
      · simp only [h3, if_true, e3, Nat.min_def]
        split_ifs <;> omega
      · simp only [h3, if_false, e0, Nat.min_def]
        split_ifs <;> omega

theorem write_keeps (s : ar0144) (reg val : Nat) :
    (ar0144_write s reg val).2.gains = s.gains ∧ (ar0144_write s reg val).2.model = s.model := by
  have h := ar0144_write_config s reg val
  unfold same_config at h
  rw [h]
  exact ⟨rfl, rfl⟩

theorem and_then_zero (r : Int × ar0144) (f : ar0144 → Int × ar0144)
    (h : (and_then r f).1 = 0) : r.1 = 0 ∧ and_then r f = f r.2 := by
  unfold and_then at h ⊢
  by_cases h0 : r.1 ≠ 0
  · rw [if_pos h0] at h
    exact absurd h h0
  · exact ⟨not_not.mp h0, if_neg h0⟩

theorem dgain_fan_red_ok (s : ar0144) (val : Int) (h : (dgain_fan_red s val).1 = 0) :
    (dgain_fan_red s val).2.gains =
      { s.gains with
        red_ctrl := ⟨u32_to_int (dgain_scale s.gains.red val s.gains.min_ref),
          u32_to_int (dgain_scale s.gains.red val s.gains.min_ref)⟩ } ∧
    (dgain_fan_red s val).2.model = s.model := by
  unfold dgain_fan_red at h ⊢
  simp only [] at h ⊢
  split_ifs at h ⊢ with h1
  · exact absurd h h1
  · simp only [(write_keeps s _ _).1, (write_keeps s _ _).2]
    exact ⟨trivial, trivial⟩

theorem dgain_fan_greenr_ok (s : ar0144) (val : Int) (h : (dgain_fan_greenr s val).1 = 0) :
    (dgain_fan_greenr s val).2.gains =
      { s.gains with
        greenr_ctrl := ⟨u32_to_int (dgain_scale s.gains.greenr val s.gains.min_ref),
          u32_to_int (dgain_scale s.gains.greenr val s.gains.min_ref)⟩ } ∧
    (dgain_fan_greenr s val).2.model = s.model := by
  unfold dgain_fan_greenr at h ⊢
  simp only [] at h ⊢
  split_ifs at h ⊢ with h1
  · exact absurd h h1
  · simp only [(write_keeps s _ _).1, (write_keeps s _ _).2]
    exact ⟨trivial, trivial⟩

theorem dgain_fan_greenb_ok (s : ar0144) (val : Int) (h : (dgain_fan_greenb s val).1 = 0) :
    (dgain_fan_greenb s val).2.gains =
      { s.gains with
        greenb_ctrl := ⟨u32_to_int (dgain_scale s.gains.greenb val s.gains.min_ref),
          u32_to_int (dgain_scale s.gains.greenb val s.gains.min_ref)⟩ } ∧
    (dgain_fan_greenb s val).2.model = s.model := by
  unfold dgain_fan_greenb at h ⊢
  simp only [] at h ⊢
  split_ifs at h ⊢ with h1
  · exact absurd h h1
  · simp only [(write_keeps s _ _).1, (write_keeps s _ _).2]
    exact ⟨trivial, trivial⟩

theorem dgain_fan_blue_ok (s : ar0144) (val : Int) (h : (dgain_fan_blue s val).1 = 0) :
    (dgain_fan_blue s val).2.gains =
      { s.gains with
        blue_ctrl := ⟨u32_to_int (dgain_scale s.gains.blue val s.gains.min_ref),
          u32_to_int (dgain_scale s.gains.blue val s.gains.min_ref)⟩ } ∧
    (dgain_fan_blue s val).2.model = s.model := by
  unfold dgain_fan_blue at h ⊢
  simp only [] at h ⊢
  split_ifs at h ⊢ with h1
  · exact absurd h h1
  · simp only [(write_keeps s _ _).1, (write_keeps s _ _).2]
    exact ⟨trivial, trivial⟩

/-- The gain state after a successful global request on a sensor that is
not monochrome: the four channel controls hold the scaled saved values, the
saved values and the reference are untouched. -/
theorem dgain_global_ok (sensor : ar0144) (val : Int)
    (hcolor : sensor.model.color ≠ AR0144_MODEL_MONOCHROME)
    (hret : (ar0144_set_digital_gain sensor V4L2_CID_DIGITAL_GAIN val).1 = 0) :
    (ar0144_set_digital_gain sensor V4L2_CID_DIGITAL_GAIN val).2.gains =
      { sensor.gains with
        dig_ctrl := { sensor.gains.dig_ctrl with val := val }
        red_ctrl := ⟨u32_to_int (dgain_scale sensor.gains.red val sensor.gains.min_ref),
          u32_to_int (dgain_scale sensor.gains.red val sensor.gains.min_ref)⟩
        greenr_ctrl := ⟨u32_to_int (dgain_scale sensor.gains.greenr val sensor.gains.min_ref),
          u32_to_int (dgain_scale sensor.gains.greenr val sensor.gains.min_ref)⟩
        greenb_ctrl := ⟨u32_to_int (dgain_scale sensor.gains.greenb val sensor.gains.min_ref),
          u32_to_int (dgain_scale sensor.gains.greenb val sensor.gains.min_ref)⟩
        blue_ctrl := ⟨u32_to_int (dgain_scale sensor.gains.blue val sensor.gains.min_ref),
          u32_to_int (dgain_scale sensor.gains.blue val sensor.gains.min_ref)⟩ } ∧
    (ar0144_set_digital_gain sensor V4L2_CID_DIGITAL_GAIN val).2.model = sensor.model := by
  unfold ar0144_set_digital_gain at hret ⊢
  simp only [gain_ctrl_store] at hret ⊢
  rw [if_neg hcolor] at hret ⊢
  obtain ⟨h1, e1⟩ := and_then_zero _ _ hret
  rw [e1] at hret ⊢
  obtain ⟨g1, m1⟩ := dgain_fan_red_ok _ val h1
  obtain ⟨h2, e2⟩ := and_then_zero _ _ hret
  rw [e2] at hret ⊢
  obtain ⟨g2, m2⟩ := dgain_fan_greenr_ok _ val h2
  obtain ⟨h3, e3⟩ := and_then_zero _ _ hret
  rw [e3] at hret ⊢
  obtain ⟨g3, m3⟩ := dgain_fan_greenb_ok _ val h3
  obtain ⟨g4, m4⟩ := dgain_fan_blue_ok _ val hret
  rw [g4, m4, g3, m3, g2, m2, g1, m1]
  exact ⟨rfl, rfl⟩

/-- The gain state after a successful channel write. -/
theorem dgain_channel_ok (sensor : ar0144) (id : v4l2_gain_id) (val : Int)
    (hid : id ≠ V4L2_CID_DIGITAL_GAIN)
    (hret : (ar0144_set_digital_gain sensor id val).1 = 0) :
    (ar0144_set_digital_gain sensor id val).2.gains =
      (dgain_save_channels
        { sensor with gains := gain_ctrl_store sensor.gains id val }).gains ∧
    (ar0144_set_digital_gain sensor id val).2.model = sensor.model := by
  have key : ∀ reg code,
      (and_then (ar0144_write { sensor with gains := gain_ctrl_store sensor.gains id val }
        reg code) fun s => (0, dgain_save_channels s)).1 = 0 →
      (and_then (ar0144_write { sensor with gains := gain_ctrl_store sensor.gains id val }
        reg code) fun s => (0, dgain_save_channels s)).2.gains =
        (dgain_save_channels
          { sensor with gains := gain_ctrl_store sensor.gains id val }).gains ∧
      (and_then (ar0144_write { sensor with gains := gain_ctrl_store sensor.gains id val }
        reg code) fun s => (0, dgain_save_channels s)).2.model = sensor.model := by
    intro reg code h
    obtain ⟨-, e1⟩ := and_then_zero _ _ h
    rw [e1]
    have hk := write_keeps { sensor with gains := gain_ctrl_store sensor.gains id val } reg code
    unfold dgain_save_channels ar0144_get_min_color_gain
    simp only [hk.1, hk.2]
    exact ⟨trivial, trivial⟩
  cases id with
  | V4L2_CID_DIGITAL_GAIN => exact absurd rfl hid
  | V4L2_CID_X_DIGITAL_GAIN_RED => exact key _ _ hret
  | V4L2_CID_X_DIGITAL_GAIN_GREENR => exact key _ _ hret
  | V4L2_CID_X_DIGITAL_GAIN_BLUE => exact key _ _ hret
  | V4L2_CID_X_DIGITAL_GAIN_GREENB => exact key _ _ hret

theorem dgain_scale_eq (saved m v : Nat) (hv : v < 2 ^ 32) (h : saved * v < 2 ^ 32) :
    dgain_scale saved (v : Int) m = clamp_t (saved * v / m) 1000 15999 := by
  unfold dgain_scale
  rw [int_to_u32_natCast v hv]
  have e : u32 (saved * v) = saved * v := Nat.mod_eq_of_lt h
  rw [e]

theorem dgain_clamp_cast (x : Nat) :
    u32_to_int (clamp_t x 1000 15999) = ((clamp_t x 1000 15999 : Nat) : Int) := by
  have h := (clamp_t_bounds x 1000 15999 (by decide)).2
  exact u32_to_int_of_lt (by omega)

/-- A saved channel value at or above the reference, scaled by a request
`v` of the control range: the result is in range, at least `v`, and exactly
`v` for the reference channel. -/
theorem dgain_scale_facts (saved m v : Nat) (hs : saved ≤ 15999) (hm : 0 < m) (hms : m ≤ saved)
    (hv1 : 1000 ≤ v) (hv2 : v ≤ 15999) :
    (v : Int) ≤ u32_to_int (dgain_scale saved (v : Int) m) ∧
    u32_to_int (dgain_scale saved (v : Int) m) ≤ 15999 ∧
    (saved = m → u32_to_int (dgain_scale saved (v : Int) m) = (v : Int)) := by
  have hprod : saved * v < 2 ^ 32 := by
    have : saved * v ≤ 15999 * 15999 := Nat.mul_le_mul hs hv2
    omega
  rw [dgain_scale_eq saved m v (by omega) hprod, dgain_clamp_cast]
  have hq : v ≤ saved * v / m := by
    rw [Nat.le_div_iff_mul_le hm]
    exact Nat.mul_le_mul_right v hms |>.trans_eq' (Nat.mul_comm v m)
  have hself : saved = m → saved * v / m = v := by
    intro e
    rw [e]
    exact Nat.mul_div_cancel_left v hm
  generalize saved * v / m = q at hq hself
  have hc : clamp_t q 1000 15999 = if q > 15999 then 15999 else q := by
    unfold clamp_t min_t max_t
    split_ifs <;> omega
  rw [hc]
  refine ⟨?_, ?_, ?_⟩
  · split_ifs <;> omega
  · split_ifs <;> omega
  · intro e
    have := hself e
    split_ifs <;> omega

/-- C16: on a colour sensor whose saved channel values lie in the control
range and whose reference `min_ref` is not zero, a global digital gain
request `v` in [1000, 15999] that returns 0 leaves each of the four channel
controls at `clamp(saved_channel * v / min_ref, 1000, 15999)` (integer
division), with `saved_channel` and `min_ref` as the last channel write
recorded them; with all four saved values and the reference at 1000 a
request of 2000 leaves every channel control at 2000. -/
theorem global_gain_fan_out (sensor : ar0144) (v : Nat)
    (hcolor : sensor.model.color = AR0144_MODEL_COLOR)
    (hv : 1000 ≤ v ∧ v ≤ 15999)
    (hsaved : sensor.gains.red ≤ 15999 ∧ sensor.gains.greenr ≤ 15999 ∧
      sensor.gains.greenb ≤ 15999 ∧ sensor.gains.blue ≤ 15999)
    (hmin : 0 < sensor.gains.min_ref)
    (hret : (ar0144_set_digital_gain sensor V4L2_CID_DIGITAL_GAIN (v : Int)).1 = 0) :
    ((ar0144_set_digital_gain sensor V4L2_CID_DIGITAL_GAIN (v : Int)).2.gains.red_ctrl.val =
        ((clamp_t (sensor.gains.red * v / sensor.gains.min_ref) 1000 15999 : Nat) : Int) ∧
      (ar0144_set_digital_gain sensor V4L2_CID_DIGITAL_GAIN (v : Int)).2.gains.greenr_ctrl.val =
        ((clamp_t (sensor.gains.greenr * v / sensor.gains.min_ref) 1000 15999 : Nat) : Int) ∧
      (ar0144_set_digital_gain sensor V4L2_CID_DIGITAL_GAIN (v : Int)).2.gains.greenb_ctrl.val =
        ((clamp_t (sensor.gains.greenb * v / sensor.gains.min_ref) 1000 15999 : Nat) : Int) ∧
      (ar0144_set_digital_gain sensor V4L2_CID_DIGITAL_GAIN (v : Int)).2.gains.blue_ctrl.val =
        ((clamp_t (sensor.gains.blue * v / sensor.gains.min_ref) 1000 15999 : Nat) : Int)) ∧
    (v = 2000 → sensor.gains.red = 1000 → sensor.gains.greenr = 1000 →
      sensor.gains.greenb = 1000 → sensor.gains.blue = 1000 → sensor.gains.min_ref = 1000 →
      (ar0144_set_digital_gain sensor V4L2_CID_DIGITAL_GAIN (v : Int)).2.gains.red_ctrl.val
        = 2000 ∧
      (ar0144_set_digital_gain sensor V4L2_CID_DIGITAL_GAIN (v : Int)).2.gains.greenr_ctrl.val
        = 2000 ∧
      (ar0144_set_digital_gain sensor V4L2_CID_DIGITAL_GAIN (v : Int)).2.gains.greenb_ctrl.val
        = 2000 ∧
      (ar0144_set_digital_gain sensor V4L2_CID_DIGITAL_GAIN (v : Int)).2.gains.blue_ctrl.val
        = 2000) := by
  have hne : sensor.model.color ≠ AR0144_MODEL_MONOCHROME := by
    rw [hcolor]
    decide
  have _ := hmin
  have hg := (dgain_global_ok sensor (v : Int) hne hret).1
  have hprod : ∀ saved, saved ≤ 15999 → saved * v < 2 ^ 32 := by
    intro saved hs
    have : saved * v ≤ 15999 * 15999 := Nat.mul_le_mul hs hv.2
    omega
  have hval : ∀ saved, saved ≤ 15999 →
      u32_to_int (dgain_scale saved (v : Int) sensor.gains.min_ref) =
        ((clamp_t (saved * v / sensor.gains.min_ref) 1000 15999 : Nat) : Int) := by
    intro saved hs
    rw [dgain_scale_eq saved _ v (by omega) (hprod saved hs), dgain_clamp_cast]
  have hall :
      (ar0144_set_digital_gain sensor V4L2_CID_DIGITAL_GAIN (v : Int)).2.gains.red_ctrl.val =
        ((clamp_t (sensor.gains.red * v / sensor.gains.min_ref) 1000 15999 : Nat) : Int) ∧
      (ar0144_set_digital_gain sensor V4L2_CID_DIGITAL_GAIN (v : Int)).2.gains.greenr_ctrl.val =
        ((clamp_t (sensor.gains.greenr * v / sensor.gains.min_ref) 1000 15999 : Nat) : Int) ∧
      (ar0144_set_digital_gain sensor V4L2_CID_DIGITAL_GAIN (v : Int)).2.gains.greenb_ctrl.val =
        ((clamp_t (sensor.gains.greenb * v / sensor.gains.min_ref) 1000 15999 : Nat) : Int) ∧
      (ar0144_set_digital_gain sensor V4L2_CID_DIGITAL_GAIN (v : Int)).2.gains.blue_ctrl.val =
        ((clamp_t (sensor.gains.blue * v / sensor.gains.min_ref) 1000 15999 : Nat) : Int) := by
    rw [hg]
    exact ⟨hval _ hsaved.1, hval _ hsaved.2.1, hval _ hsaved.2.2.1, hval _ hsaved.2.2.2⟩
  refine ⟨hall, ?_⟩
  intro e hr hgr hgb hb hm
  obtain ⟨a1, a2, a3, a4⟩ := hall
  rw [a1, a2, a3, a4, e, hr, hgr, hgb, hb, hm]
  decide

/-- Witness for C16: on the colour AR0144 as probed (saved values and
reference at 1000, working transport) a global request of 2000 returns 0 and
leaves the four channel controls at 2000. -/
theorem global_gain_fan_out_witness :
    (ar0144_colour.model.color = AR0144_MODEL_COLOR ∧
      ((1000 : Nat) ≤ 2000 ∧ (2000 : Nat) ≤ 15999) ∧
      ar0144_colour.gains.red = 1000 ∧ ar0144_colour.gains.greenr = 1000 ∧
      ar0144_colour.gains.greenb = 1000 ∧ ar0144_colour.gains.blue = 1000 ∧
      ar0144_colour.gains.min_ref = 1000 ∧
      (ar0144_set_digital_gain ar0144_colour V4L2_CID_DIGITAL_GAIN ((2000 : Nat) : Int)).1 = 0) ∧
    (ar0144_set_digital_gain ar0144_colour V4L2_CID_DIGITAL_GAIN
      ((2000 : Nat) : Int)).2.gains.red_ctrl.val = 2000 ∧
    (ar0144_set_digital_gain ar0144_colour V4L2_CID_DIGITAL_GAIN
      ((2000 : Nat) : Int)).2.gains.greenr_ctrl.val = 2000 ∧
    (ar0144_set_digital_gain ar0144_colour V4L2_CID_DIGITAL_GAIN
      ((2000 : Nat) : Int)).2.gains.greenb_ctrl.val = 2000 ∧
    (ar0144_set_digital_gain ar0144_colour V4L2_CID_DIGITAL_GAIN
      ((2000 : Nat) : Int)).2.gains.blue_ctrl.val = 2000 :=
  ⟨⟨by decide, ⟨by decide, by decide⟩, by decide, by decide, by decide, by decide, by decide,
      by decide⟩,
    (global_gain_fan_out ar0144_colour 2000 (by decide) ⟨by decide, by decide⟩
      ⟨by decide, by decide, by decide, by decide⟩ (by decide) (by decide)).2
      rfl (by decide) (by decide) (by decide) (by decide) (by decide)⟩

theorem dgain_min_cast (x1 x2 x3 x4 : Int)
    (h1 : 1000 ≤ x1 ∧ x1 ≤ 15999) (h2 : 1000 ≤ x2 ∧ x2 ≤ 15999)
    (h3 : 1000 ≤ x3 ∧ x3 ≤ 15999) (h4 : 1000 ≤ x4 ∧ x4 ≤ 15999) :
    ((1000 ≤ int_to_u32 x1 ∧ int_to_u32 x1 ≤ 15999) ∧
      (1000 ≤ int_to_u32 x2 ∧ int_to_u32 x2 ≤ 15999) ∧
      (1000 ≤ int_to_u32 x3 ∧ int_to_u32 x3 ≤ 15999) ∧
      (1000 ≤ int_to_u32 x4 ∧ int_to_u32 x4 ≤ 15999)) ∧
    u32_to_int (min (min (min (int_to_u32 x1) (int_to_u32 x2)) (int_to_u32 x3))
      (int_to_u32 x4)) = min (min (min x1 x2) x3) x4 := by
  have c1 := int_to_u32_cast x1 (by omega) (by omega)
  have c2 := int_to_u32_cast x2 (by omega) (by omega)
  have c3 := int_to_u32_cast x3 (by omega) (by omega)
  have c4 := int_to_u32_cast x4 (by omega) (by omega)
  generalize int_to_u32 x1 = n1 at c1
  generalize int_to_u32 x2 = n2 at c2
  generalize int_to_u32 x3 = n3 at c3
  generalize int_to_u32 x4 = n4 at c4
  refine ⟨by omega, ?_⟩
  have hlt : min (min (min n1 n2) n3) n4 < 2 ^ 31 := by
    have : min (min (min n1 n2) n3) n4 ≤ n4 := Nat.min_le_right _ _
    omega
  rw [u32_to_int_of_lt hlt]
  subst c1 c2 c3 c4
  simp only [Nat.cast_min]

/-- A successful digital gain write with a value of the control range
keeps `dgain_inv`. -/
theorem dgain_inv_step (s : ar0144) (id : v4l2_gain_id) (val : Int)
    (hinv : dgain_inv s) (hv1 : 1000 ≤ val) (hv2 : val ≤ 15999)
    (hret : (ar0144_set_digital_gain s id val).1 = 0) :
    dgain_inv (ar0144_set_digital_gain s id val).2 := by
  obtain ⟨hcolor, ⟨cr, cgr, cgb, cb⟩, ⟨sr, sgr, sgb, sb⟩, hdig, hmin⟩ := hinv
  by_cases hid : id = V4L2_CID_DIGITAL_GAIN
  · subst hid
    have hne : s.model.color ≠ AR0144_MODEL_MONOCHROME := by
      rw [hcolor]
      decide
    obtain ⟨hg, hm⟩ := dgain_global_ok s val hne hret
    obtain ⟨v, rfl⟩ : ∃ v : Nat, val = (v : Int) := ⟨val.toNat, by omega⟩
    have hmle : s.gains.min_ref ≤ s.gains.red ∧ s.gains.min_ref ≤ s.gains.greenr ∧
        s.gains.min_ref ≤ s.gains.greenb ∧ s.gains.min_ref ≤ s.gains.blue ∧
        (s.gains.red = s.gains.min_ref ∨ s.gains.greenr = s.gains.min_ref ∨
          s.gains.greenb = s.gains.min_ref ∨ s.gains.blue = s.gains.min_ref) := by
      rw [hmin]
      simp only [Nat.min_def]
      split_ifs <;> omega
    have hpos : 0 < s.gains.min_ref := by
      rw [hmin]
      simp only [Nat.min_def]
      split_ifs <;> omega
    have f1 := dgain_scale_facts s.gains.red s.gains.min_ref v sr.2 hpos hmle.1
      (by omega) (by omega)
    have f2 := dgain_scale_facts s.gains.greenr s.gains.min_ref v sgr.2 hpos hmle.2.1
      (by omega) (by omega)
    have f3 := dgain_scale_facts s.gains.greenb s.gains.min_ref v sgb.2 hpos hmle.2.2.1
      (by omega) (by omega)
    have f4 := dgain_scale_facts s.gains.blue s.gains.min_ref v sb.2 hpos hmle.2.2.2.1
      (by omega) (by omega)
    unfold dgain_inv
    rw [hg, hm]
    simp only []
    generalize u32_to_int (dgain_scale s.gains.red (v : Int) s.gains.min_ref) = R at f1
    generalize u32_to_int (dgain_scale s.gains.greenr (v : Int) s.gains.min_ref) = GR at f2
    generalize u32_to_int (dgain_scale s.gains.greenb (v : Int) s.gains.min_ref) = GB at f3
    generalize u32_to_int (dgain_scale s.gains.blue (v : Int) s.gains.min_ref) = B at f4
    refine ⟨hcolor, ⟨⟨by omega, f1.2.1⟩, ⟨by omega, f2.2.1⟩, ⟨by omega, f3.2.1⟩,
      ⟨by omega, f4.2.1⟩⟩, ⟨sr, sgr, sgb, sb⟩, ?_, hmin⟩
    have hsome : R = (v : Int) ∨ GR = (v : Int) ∨ GB = (v : Int) ∨ B = (v : Int) := by
      rcases hmle.2.2.2.2 with e | e | e | e
      · exact Or.inl (f1.2.2 e)
      · exact Or.inr (Or.inl (f2.2.2 e))
      · exact Or.inr (Or.inr (Or.inl (f3.2.2 e)))
      · exact Or.inr (Or.inr (Or.inr (f4.2.2 e)))
    have g1 := f1.1
    have g2 := f2.1
    have g3 := f3.1
    have g4 := f4.1
    simp only [min_def]
    split_ifs <;> omega
  · obtain ⟨hg, hm⟩ := dgain_channel_ok s id val hid hret
    unfold dgain_inv
    rw [hg, hm]
    unfold dgain_save_channels
    rw [get_min_color_gain_eq]
    cases id with
    | V4L2_CID_DIGITAL_GAIN => exact absurd rfl hid
    | V4L2_CID_X_DIGITAL_GAIN_RED =>
      simp only [gain_ctrl_store]
      obtain ⟨hr, hc⟩ := dgain_min_cast val s.gains.greenr_ctrl.val s.gains.greenb_ctrl.val
        s.gains.blue_ctrl.val ⟨hv1, hv2⟩ cgr cgb cb
      exact ⟨hcolor, ⟨⟨hv1, hv2⟩, cgr, cgb, cb⟩, hr, hc, trivial⟩
    | V4L2_CID_X_DIGITAL_GAIN_GREENR =>
      simp only [gain_ctrl_store]
      obtain ⟨hr, hc⟩ := dgain_min_cast s.gains.red_ctrl.val val s.gains.greenb_ctrl.val
        s.gains.blue_ctrl.val cr ⟨hv1, hv2⟩ cgb cb
      exact ⟨hcolor, ⟨cr, ⟨hv1, hv2⟩, cgb, cb⟩, hr, hc, trivial⟩
    | V4L2_CID_X_DIGITAL_GAIN_BLUE =>
      simp only [gain_ctrl_store]
      obtain ⟨hr, hc⟩ := dgain_min_cast s.gains.red_ctrl.val s.gains.greenr_ctrl.val
        s.gains.greenb_ctrl.val val cr cgr cgb ⟨hv1, hv2⟩
      exact ⟨hcolor, ⟨cr, cgr, cgb, ⟨hv1, hv2⟩⟩, hr, hc, trivial⟩
    | V4L2_CID_X_DIGITAL_GAIN_GREENB =>
      simp only [gain_ctrl_store]
      obtain ⟨hr, hc⟩ := dgain_min_cast s.gains.red_ctrl.val s.gains.greenr_ctrl.val val
        s.gains.blue_ctrl.val cr cgr ⟨hv1, hv2⟩ cb
      exact ⟨hcolor, ⟨cr, cgr, ⟨hv1, hv2⟩, cb⟩, hr, hc, trivial⟩

/-- The state that `ar0144_set_defaults` and `ar0144_create_ctrls` leave on a
colour sensor satisfies `dgain_inv`. -/
theorem dgain_inv_start (base : ar0144) (hcolor : base.model.color = AR0144_MODEL_COLOR) :
    dgain_inv (ar0144_create_ctrls (ar0144_set_defaults base)) := by
  unfold dgain_inv ar0144_create_ctrls ar0144_set_defaults
  simp only [hcolor, if_true]
  decide

theorem dgain_run_inv (ops : List (v4l2_gain_id × Int)) (s0 s : ar0144)
    (hinv : dgain_inv s0) (hops : ∀ op ∈ ops, 1000 ≤ op.2 ∧ op.2 ≤ 15999)
    (hrun : dgain_run s0 ops = some s) : dgain_inv s := by
  induction ops generalizing s0 with
  | nil =>
    unfold dgain_run at hrun
    cases hrun
    exact hinv
  | cons op ops ih =>
    unfold dgain_run at hrun
    simp only [] at hrun
    split_ifs at hrun with h
    have hop := hops op (List.mem_cons_self _ _)
    exact ih _ (dgain_inv_step s0 op.1 op.2 hinv hop.1 hop.2 (not_not.mp h))
      (fun x hx => hops x (List.mem_cons_of_mem _ hx)) hrun

/-- C17: on a colour sensor, starting from the state that
`ar0144_set_defaults` and the creation of the controls leave (saved channel
values and reference at 1000, every digital gain control at its default
1000), after any sequence of digital gain writes, global or per channel,
with values in [1000, 15999] that all return 0, the value of the global
digital gain control is the minimum of the four channel control values, and
`min_ref` is the minimum of the four saved channel values and at least
1000. -/
theorem dgain_reference_invariant (base s : ar0144) (ops : List (v4l2_gain_id × Int))
    (hcolor : base.model.color = AR0144_MODEL_COLOR)
    (hops : ∀ op ∈ ops, 1000 ≤ op.2 ∧ op.2 ≤ 15999)
    (hrun : dgain_run (ar0144_create_ctrls (ar0144_set_defaults base)) ops = some s) :
    s.gains.dig_ctrl.val =
      min (min (min s.gains.red_ctrl.val s.gains.greenr_ctrl.val) s.gains.greenb_ctrl.val)
        s.gains.blue_ctrl.val ∧
    s.gains.min_ref = min (min (min s.gains.red s.gains.greenr) s.gains.greenb) s.gains.blue ∧
    1000 ≤ s.gains.min_ref := by
  obtain ⟨-, -, ⟨sr, sgr, sgb, sb⟩, hdig, hmin⟩ :=
    dgain_run_inv ops _ s (dgain_inv_start base hcolor) hops hrun
  refine ⟨hdig, hmin, ?_⟩
  rw [hmin]
  simp only [Nat.min_def]
  split_ifs <;> omega

/-- Witness for C17: on the colour AR0144 the writes red := 3000,
global := 2000, green-red := 1500 all succeed; afterwards the channel
controls are 6000, 1500, 2000, 2000, the global control is 1500 and the
reference is 1500. -/
theorem dgain_reference_invariant_witness :
    ((ar0144_alloc ar0144_col ⟨V4L2_MBUS_PARALLEL, 0, 74250000, 1⟩ i2c_idle).model.color =
        AR0144_MODEL_COLOR ∧
      (∀ op ∈ [(V4L2_CID_X_DIGITAL_GAIN_RED, (3000 : Int)), (V4L2_CID_DIGITAL_GAIN, 2000),
          (V4L2_CID_X_DIGITAL_GAIN_GREENR, 1500)], 1000 ≤ op.2 ∧ op.2 ≤ 15999) ∧
      dgain_run ar0144_colour
        [(V4L2_CID_X_DIGITAL_GAIN_RED, 3000), (V4L2_CID_DIGITAL_GAIN, 2000),
          (V4L2_CID_X_DIGITAL_GAIN_GREENR, 1500)] = some ar0144_colour_tuned ∧
      ar0144_colour_tuned.gains =
        ⟨⟨1500, 1500⟩, ⟨2000, 2000⟩, ⟨6000, 6000⟩, ⟨2000, 2000⟩, ⟨1500, 2000⟩,
          ⟨2000, 2000⟩, 6000, 2000, 1500, 2000, 1500, 16000⟩) ∧
    ar0144_colour_tuned.gains.dig_ctrl.val =
      min (min (min ar0144_colour_tuned.gains.red_ctrl.val
        ar0144_colour_tuned.gains.greenr_ctrl.val) ar0144_colour_tuned.gains.greenb_ctrl.val)
        ar0144_colour_tuned.gains.blue_ctrl.val ∧
    ar0144_colour_tuned.gains.min_ref =
      min (min (min ar0144_colour_tuned.gains.red ar0144_colour_tuned.gains.greenr)
        ar0144_colour_tuned.gains.greenb) ar0144_colour_tuned.gains.blue ∧
    1000 ≤ ar0144_colour_tuned.gains.min_ref :=
  ⟨⟨rfl, by decide, rfl, by decide⟩,
    dgain_reference_invariant
      (ar0144_alloc ar0144_col ⟨V4L2_MBUS_PARALLEL, 0, 74250000, 1⟩ i2c_idle)
      ar0144_colour_tuned
      [(V4L2_CID_X_DIGITAL_GAIN_RED, 3000), (V4L2_CID_DIGITAL_GAIN, 2000),
        (V4L2_CID_X_DIGITAL_GAIN_GREENR, 1500)] rfl (by decide) rfl⟩

end digital_gain

section register_update

/-- The two outcomes of `ar0144_read`: the register value, or a negative
error code; the read is logged in both. -/
theorem ar0144_read_cases (s : ar0144) (reg : Nat) :
    (ar0144_read s reg).2.i2c.log = s.i2c.log ++ [i2c_msg.read (u16 reg)] ∧
    (ar0144_read s reg).2.i2c.regs = s.i2c.regs ∧
    ((ar0144_read s reg).1 = Except.ok (u16 (s.i2c.regs (u16 reg))) ∨
      ∃ e, e < 0 ∧ (ar0144_read s reg).1 = Except.error e) := by
  unfold ar0144_read i2c_transfer
  simp only []
  generalize (s.i2c.fault s.i2c.log.length).getD 2 = ret
  split_ifs with h1 h2 h3
  · exact ⟨rfl, rfl, Or.inr ⟨_, by decide, rfl⟩⟩
  · exact absurd (show (- EIO : Int) < 0 by decide) h2
  · exact ⟨rfl, rfl, Or.inr ⟨_, h3, rfl⟩⟩
  · exact ⟨rfl, rfl, Or.inl rfl⟩

/-- The two outcomes of `ar0144_write`: 0 with the register updated, or a
negative error code; the write is logged in both. -/
theorem ar0144_write_cases (s : ar0144) (reg val : Nat) :
    (ar0144_write s reg val).2.i2c.log = s.i2c.log ++ [i2c_msg.write (u16 reg) (u16 val)] ∧
    (((ar0144_write s reg val).1 = 0 ∧
        (ar0144_write s reg val).2.i2c.regs =
          fun r => if r = u16 reg then u16 val else s.i2c.regs r) ∨
      (ar0144_write s reg val).1 < 0) := by
  unfold ar0144_write i2c_transfer
  simp only []
  generalize (s.i2c.fault s.i2c.log.length).getD 1 = ret
  by_cases e : ret = 1
  · subst e
    refine ⟨?_, Or.inl ⟨?_, ?_⟩⟩ <;> simp
  · by_cases h : ret ≥ 0
    · rw [if_pos (⟨h, e⟩ : ret ≥ 0 ∧ ret ≠ 1), if_pos (show (- EIO : Int) < 0 by decide)]
      exact ⟨rfl, Or.inr (show (- EIO : Int) < 0 by decide)⟩
    · have hlt : ret < 0 := by omega
      rw [if_neg (fun x : ret ≥ 0 ∧ ret ≠ 1 => h x.1), if_pos hlt]
      exact ⟨rfl, Or.inr hlt⟩

theorem mask_split (m : Nat) (hm : m < 2 ^ 16) : m &&& (0xffff - m) = 0 := by
  apply Nat.eq_of_testBit_eq
  intro i
  have h : (0xffff : Nat) - m = 2 ^ 16 - (m + 1) := by omega
  rw [h, Nat.testBit_and, Nat.testBit_two_pow_sub_succ hm, Nat.zero_testBit]
  cases m.testBit i <;> simp

/-- The bit algebra of a masked update: bits outside of the mask keep the
old value, bits inside take the new one, and a second update changes
nothing. -/
theorem mask_update (o v m : Nat) (hm : m < 2 ^ 16) :
    ((o &&& (0xffff - m)) ||| (v &&& m)) &&& (0xffff - m) = o &&& (0xffff - m) ∧
    ((o &&& (0xffff - m)) ||| (v &&& m)) &&& m = v &&& m ∧
    ((((o &&& (0xffff - m)) ||| (v &&& m)) &&& (0xffff - m)) ||| (v &&& m)) =
      (o &&& (0xffff - m)) ||| (v &&& m) := by
  have h0 := mask_split m hm
  have h1 : (0xffff - m) &&& m = 0 := by rw [Nat.and_comm]; exact h0
  have a1 : (o &&& (0xffff - m)) &&& (0xffff - m) = o &&& (0xffff - m) := by
    rw [Nat.and_assoc, Nat.and_self]
  have a2 : (v &&& m) &&& (0xffff - m) = 0 := by rw [Nat.and_assoc, h0, Nat.and_zero]
  have a3 : (o &&& (0xffff - m)) &&& m = 0 := by rw [Nat.and_assoc, h1, Nat.and_zero]
  have a4 : (v &&& m) &&& m = v &&& m := by rw [Nat.and_assoc, Nat.and_self]
  have e1 : ((o &&& (0xffff - m)) ||| (v &&& m)) &&& (0xffff - m) = o &&& (0xffff - m) := by
    rw [Nat.and_comm, Nat.and_or_distrib_left, Nat.and_comm (0xffff - m) (o &&& (0xffff - m)),
      a1, Nat.and_comm (0xffff - m) (v &&& m), a2, Nat.or_zero]
  have e2 : ((o &&& (0xffff - m)) ||| (v &&& m)) &&& m = v &&& m := by
    rw [Nat.and_comm, Nat.and_or_distrib_left, Nat.and_comm m (o &&& (0xffff - m)), a3,
      Nat.and_comm m (v &&& m), a4, Nat.zero_or]
  exact ⟨e1, e2, by rw [e1]⟩

/-- The three ways `ar0144_update_bits` can go: the read fails; the value
is already in place and nothing is written; the new value is written. -/
theorem update_bits_cases (s : ar0144) (reg mask val : Nat) :
    ((ar0144_update_bits s reg mask val).1 < 0 ∧
      (ar0144_update_bits s reg mask val).2.i2c.log = s.i2c.log ++ [i2c_msg.read (u16 reg)]) ∨
    ((u16 (s.i2c.regs (u16 reg)) &&& (0xffff - u16 mask)) ||| (u16 val &&& u16 mask) =
        u16 (s.i2c.regs (u16 reg)) ∧
      (ar0144_update_bits s reg mask val).1 = 0 ∧
      (ar0144_update_bits s reg mask val).2.i2c.log = s.i2c.log ++ [i2c_msg.read (u16 reg)] ∧
      (ar0144_update_bits s reg mask val).2.i2c.regs = s.i2c.regs) ∨
    ((u16 (s.i2c.regs (u16 reg)) &&& (0xffff - u16 mask)) ||| (u16 val &&& u16 mask) ≠
        u16 (s.i2c.regs (u16 reg)) ∧
      (ar0144_update_bits s reg mask val).2.i2c.log =
        s.i2c.log ++ [i2c_msg.read (u16 reg),
          i2c_msg.write (u16 reg)
            (u16 ((u16 (s.i2c.regs (u16 reg)) &&& (0xffff - u16 mask)) |||
              (u16 val &&& u16 mask)))] ∧
      (((ar0144_update_bits s reg mask val).1 = 0 ∧
          (ar0144_update_bits s reg mask val).2.i2c.regs =
            fun r => if r = u16 reg then
              u16 ((u16 (s.i2c.regs (u16 reg)) &&& (0xffff - u16 mask)) |||
                (u16 val &&& u16 mask))
            else s.i2c.regs r) ∨
        (ar0144_update_bits s reg mask val).1 < 0)) := by
  obtain ⟨hlog, hregs, hres⟩ := ar0144_read_cases s reg
  unfold ar0144_update_bits
  generalize ar0144_read s reg = r at hlog hregs hres
  obtain ⟨e, s1⟩ := r
  simp only at hlog hregs hres
  rcases hres with rfl | ⟨ret, hneg, rfl⟩
  · simp only []
    by_cases h : (u16 (s.i2c.regs (u16 reg)) &&& (0xffff - u16 mask)) |||
        (u16 val &&& u16 mask) = u16 (s.i2c.regs (u16 reg))
    · right; left
      rw [if_neg (not_not.mpr h)]
      exact ⟨h, rfl, hlog, hregs⟩
    · right; right
      rw [if_pos h]
      obtain ⟨wlog, wres⟩ := ar0144_write_cases s1 reg
        ((u16 (s.i2c.regs (u16 reg)) &&& (0xffff - u16 mask)) ||| (u16 val &&& u16 mask))
      refine ⟨h, ?_, ?_⟩
      · rw [wlog, hlog, List.append_assoc]
        rfl
      · rcases wres with ⟨w0, wregs⟩ | wneg
        · left
          rw [wregs, hregs]
          exact ⟨w0, rfl⟩
        · exact Or.inr wneg
  · left
    exact ⟨hneg, hlog⟩

/-- C23: a successful `ar0144_update_bits` (return value 0) leaves the
register equal to `(orig & ~mask) | (val & mask)`, where `orig` is the 16 bit
value that the register held: the bits outside of the mask are those of
`orig` and the bits inside are those of `val`. It issues the read and, only
when the new value differs from `orig`, one write; and the same update
repeated right afterwards issues its read and no write, whatever the
transport does then. -/
theorem update_bits_effect (sensor : ar0144) (reg mask val : Nat)
    (hret : (ar0144_update_bits sensor reg mask val).1 = 0) :
    u16 ((ar0144_update_bits sensor reg mask val).2.i2c.regs (u16 reg)) =
      (u16 (sensor.i2c.regs (u16 reg)) &&& (0xffff - u16 mask)) ||| (u16 val &&& u16 mask) ∧
    u16 ((ar0144_update_bits sensor reg mask val).2.i2c.regs (u16 reg)) &&& (0xffff - u16 mask) =
      u16 (sensor.i2c.regs (u16 reg)) &&& (0xffff - u16 mask) ∧
    u16 ((ar0144_update_bits sensor reg mask val).2.i2c.regs (u16 reg)) &&& u16 mask =
      u16 val &&& u16 mask ∧
    (ar0144_update_bits sensor reg mask val).2.i2c.log =
      sensor.i2c.log ++
        (if (u16 (sensor.i2c.regs (u16 reg)) &&& (0xffff - u16 mask)) |||
            (u16 val &&& u16 mask) = u16 (sensor.i2c.regs (u16 reg)) then
          [i2c_msg.read (u16 reg)]
        else
          [i2c_msg.read (u16 reg),
            i2c_msg.write (u16 reg)
              ((u16 (sensor.i2c.regs (u16 reg)) &&& (0xffff - u16 mask)) |||
                (u16 val &&& u16 mask))]) ∧
    (ar0144_update_bits (ar0144_update_bits sensor reg mask val).2 reg mask val).2.i2c.log =
      (ar0144_update_bits sensor reg mask val).2.i2c.log ++ [i2c_msg.read (u16 reg)] := by
  have hm := mask_update (u16 (sensor.i2c.regs (u16 reg))) (u16 val) (u16 mask) (u16_lt mask)
  have hlt : (u16 (sensor.i2c.regs (u16 reg)) &&& (0xffff - u16 mask)) |||
      (u16 val &&& u16 mask) < 2 ^ 16 :=
    Nat.or_lt_two_pow (Nat.lt_of_le_of_lt Nat.and_le_left (u16_lt _))
      (Nat.lt_of_le_of_lt Nat.and_le_left (u16_lt _))
  have hval : u16 ((ar0144_update_bits sensor reg mask val).2.i2c.regs (u16 reg)) =
      (u16 (sensor.i2c.regs (u16 reg)) &&& (0xffff - u16 mask)) ||| (u16 val &&& u16 mask) ∧
      (ar0144_update_bits sensor reg mask val).2.i2c.log =
        sensor.i2c.log ++
          (if (u16 (sensor.i2c.regs (u16 reg)) &&& (0xffff - u16 mask)) |||
              (u16 val &&& u16 mask) = u16 (sensor.i2c.regs (u16 reg)) then
            [i2c_msg.read (u16 reg)]
          else
            [i2c_msg.read (u16 reg),
              i2c_msg.write (u16 reg)
                ((u16 (sensor.i2c.regs (u16 reg)) &&& (0xffff - u16 mask)) |||
                  (u16 val &&& u16 mask))]) := by
    rcases update_bits_cases sensor reg mask val with ⟨hneg, -⟩ | ⟨hsame, -, hlog, hregs⟩ |
      ⟨hdiff, hlog, ⟨-, hregs⟩ | hneg⟩
    · rw [hret] at hneg
      exact absurd hneg (by decide)
    · rw [hregs, hlog, if_pos hsame]
      exact ⟨hsame.symm, rfl⟩
    · rw [hregs, hlog, if_neg hdiff, u16_of_lt hlt]
      simp only [if_true]
      exact ⟨u16_of_lt hlt, trivial⟩
    · rw [hret] at hneg
      exact absurd hneg (by decide)
  refine ⟨hval.1, ?_, ?_, hval.2, ?_⟩
  · rw [hval.1]
    exact hm.1
  · rw [hval.1]
    exact hm.2.1
  · rcases update_bits_cases (ar0144_update_bits sensor reg mask val).2 reg mask val with
      ⟨-, hlog⟩ | ⟨-, -, hlog, -⟩ | ⟨hdiff, -, -⟩
    · exact hlog
    · exact hlog
    · rw [hval.1] at hdiff
      exact absurd hm.2.2 hdiff

/-- Witness for C23: setting the grouped-parameter-hold bit on the
registered AR0144 returns 0, reads the reset register, writes `0x8000` and
leaves the hold bit set; the repeated call only reads. -/
theorem update_bits_effect_witness :
    (ar0144_update_bits ar0144_registered AR0144_RESET_REGISTER BIT_GROUPED_PARAM_HOLD
      BIT_GROUPED_PARAM_HOLD).1 = 0 ∧
    (ar0144_update_bits ar0144_registered AR0144_RESET_REGISTER BIT_GROUPED_PARAM_HOLD
      BIT_GROUPED_PARAM_HOLD).2.i2c.log =
      [i2c_msg.read AR0144_RESET_REGISTER, i2c_msg.write AR0144_RESET_REGISTER 0x8000] ∧
    (ar0144_update_bits
      (ar0144_update_bits ar0144_registered AR0144_RESET_REGISTER BIT_GROUPED_PARAM_HOLD
        BIT_GROUPED_PARAM_HOLD).2
      AR0144_RESET_REGISTER BIT_GROUPED_PARAM_HOLD BIT_GROUPED_PARAM_HOLD).2.i2c.log =
      (ar0144_update_bits ar0144_registered AR0144_RESET_REGISTER BIT_GROUPED_PARAM_HOLD
        BIT_GROUPED_PARAM_HOLD).2.i2c.log ++ [i2c_msg.read (u16 AR0144_RESET_REGISTER)] :=
  ⟨by decide, by decide,
    (update_bits_effect ar0144_registered AR0144_RESET_REGISTER BIT_GROUPED_PARAM_HOLD
      BIT_GROUPED_PARAM_HOLD (by decide)).2.2.2.2⟩

end register_update

section gain_fixed_point

/-- Every gain `1000 * 2^c * 32 / (32 - f)` that the encoding can return is
encoded with the coarse step `c` and the fine step `f` again. -/
theorem again_level_code :
    ∀ c < 5, ∀ f < 16,
      again_coarse (1000 * 2 ^ c * 32 / (32 - f)) = c ∧
      again_fine (1000 * 2 ^ c * 32 / (32 - f)) c = f := by
  decide

/-- C27: the analog gain quantisation is a fixed point on its own output.
For every `g` in [1684, 16000] the value `a` returned by
`ar0144_set_analogue_gain` for `g` is not negative, and
`ar0144_set_analogue_gain` applied to `a` selects the same coarse step and
the same fine step as for `g` and returns `a` again. -/
theorem analogue_gain_fixed_point (s1 s2 : ar0144) (g : Nat)
    (hlo : 1684 ≤ g) (hhi : g ≤ 16000) :
    (ar0144_set_analogue_gain s1 g).1 =
      (((ar0144_set_analogue_gain s1 g).1.toNat : Nat) : Int) ∧
    again_coarse (ar0144_set_analogue_gain s1 g).1.toNat = again_coarse g ∧
    again_fine (ar0144_set_analogue_gain s1 g).1.toNat
        (again_coarse (ar0144_set_analogue_gain s1 g).1.toNat) =
      again_fine g (again_coarse g) ∧
    (ar0144_set_analogue_gain s2 (ar0144_set_analogue_gain s1 g).1.toNat).1 =
      (ar0144_set_analogue_gain s1 g).1 := by
  obtain ⟨c, hc, hcoarse, -, -, -, -⟩ := again_coarse_range g hlo hhi
  have hf := again_fine_le g c
  have hret := (set_analogue_gain_unfold s1 g c hcoarse hc).2
  obtain ⟨ec, ef⟩ := again_level_code c (by omega) (again_fine g c) (by omega)
  rw [hret, Int.toNat_ofNat, hcoarse, ec, ef]
  refine ⟨rfl, rfl, rfl, ?_⟩
  rw [(set_analogue_gain_unfold s2 _ c ec hc).2, ef]

/-- Witness for C27: a request of 7999 is answered with 7529, and a request
of 7529 is answered with 7529 again, with coarse step 2 and fine step 15 in
both cases. -/
theorem analogue_gain_fixed_point_witness :
    ((1684 : Nat) ≤ 7999 ∧ (7999 : Nat) ≤ 16000) ∧
    ((ar0144_set_analogue_gain ar0144_registered 7999).1 = 7529 ∧
      again_coarse 7999 = 2 ∧ again_fine 7999 2 = 15 ∧
      again_coarse 7529 = 2 ∧ again_fine 7529 2 = 15) ∧
    (ar0144_set_analogue_gain ar0144_registered
        (ar0144_set_analogue_gain ar0144_registered 7999).1.toNat).1 =
      (ar0144_set_analogue_gain ar0144_registered 7999).1 :=
  ⟨⟨by decide, by decide⟩, ⟨by decide, by decide, by decide, by decide, by decide⟩,
    (analogue_gain_fixed_point ar0144_registered ar0144_registered 7999
      (by decide) (by decide)).2.2.2⟩

end gain_fixed_point

section pll_registers

/-- The serial frequency stored with a configuration never exceeds the link
frequency that the target was derived from. -/
theorem pll_stored_ser_le (sensor : ar0144) (ext_freq link_freq bpp op0 : Nat)
    (hl : pll_limits_ok sensor.model.data.limits) (p : ar0144_pll_config)
    (h : pll_stored (pll_setup sensor ext_freq link_freq bpp) op0 p) :
    p.ser_freq ≤ link_freq := by
  have hpix := (pll_stored_bounds (pll_setup sensor ext_freq link_freq bpp) hl op0 p h).2.2.2
  obtain ⟨d, m, v, k, -, -, -, -, hstore⟩ := h
  have e1 : p.ser_freq =
      if sensor.info.bus_type = V4L2_MBUS_PARALLEL then p.pix_freq
      else ar0144_clk_mul_div p.pix_freq bpp (u32 (2 * sensor.info.num_lanes)) := by
    have e2 : p.pix_freq = pll_pix_clk (pll_setup sensor ext_freq link_freq bpp)
        ⟨d, m, v, bpp >>> k, op0 >>> k, 0, p⟩ := by
      conv_lhs => rw [← hstore]
      rfl
    rw [e2]
    conv_lhs => rw [← hstore]
    rfl
  have et : (pll_setup sensor ext_freq link_freq bpp).pix_target =
      if sensor.info.bus_type = V4L2_MBUS_PARALLEL then u64 link_freq
      else ar0144_clk_mul_div link_freq (u32 (2 * sensor.info.num_lanes)) bpp := rfl
  rw [et] at hpix
  rw [e1]
  generalize p.pix_freq = pix at hpix ⊢
  generalize u32 (2 * sensor.info.num_lanes) = L at hpix ⊢
  split_ifs at hpix ⊢ with hbus
  · exact le_trans hpix (u64_le _)
  · by_cases hL : L = 0
    · subst hL
      unfold ar0144_clk_mul_div
      rw [if_pos rfl]
      exact Nat.zero_le _
    · by_cases hb : bpp = 0
      · subst hb
        unfold ar0144_clk_mul_div at hpix ⊢
        rw [if_pos rfl] at hpix
        rw [if_neg hL]
        have hz : pix = 0 := by omega
        subst hz
        simp [u64]
      · have h1 : pix ≤ link_freq * L / bpp := le_trans hpix (clk_mul_div_le _ _ _)
        have h2 : pix * bpp ≤ link_freq * L :=
          le_trans (Nat.mul_le_mul_right bpp h1) (Nat.div_mul_le_self _ _)
        calc ar0144_clk_mul_div pix bpp L ≤ pix * bpp / L := clk_mul_div_le _ _ _
          _ ≤ link_freq * L / L := Nat.div_le_div_right h2
          _ = link_freq := Nat.mul_div_cancel _ (Nat.pos_of_ne_zero hL)

/-- C24: on success of `ar0144_calculate_pll` the achieved link frequency
does not exceed the configured one: `ser_freq <= link_freq` on the parallel
and on the serial bus, for every lane count and every bits-per-pixel value
(in particular for those that are at least 1); the function returns for all
of them. -/
theorem calculate_pll_ser_le_link (sensor : ar0144) (pll : ar0144_pll_config)
    (ext_freq link_freq bpp : Nat) (hmodel : sensor.model ∈ ar0144_models) :
    ∃ r : Int × ar0144_pll_config,
      (∀ fuel, pll_fuel sensor ≤ fuel →
        ar0144_calculate_pll fuel sensor pll ext_freq link_freq bpp = some r) ∧
      (r.1 = 0 → r.2.ser_freq ≤ link_freq) := by
  have hl := models_limits_ok sensor.model hmodel
  obtain ⟨s, hinv, -, hres⟩ := calculate_pll_run sensor pll ext_freq link_freq bpp hl
  refine ⟨_, hres, ?_⟩
  intro h0
  have hne : s.pll.pre_pll_mul ≠ 0 := by
    intro hz
    rw [if_pos hz] at h0
    have h1 : (-EINVAL : Int) = 0 := h0
    exact absurd h1 (by decide)
  obtain ⟨hst, -, -⟩ := hinv.2.2.2.2 hne
  exact pll_stored_ser_le sensor ext_freq link_freq bpp _ hl _ hst

/-- Witness for C24: an AR0144 on two MIPI lanes with a 24 MHz clock, a
384 MHz link and 12 bits per pixel gets a configuration whose serial
frequency is at most 384 MHz. -/
theorem calculate_pll_ser_le_link_witness :
    (ar0144_on_mipi 384000000 2).model ∈ ar0144_models ∧
    ∃ r : Int × ar0144_pll_config,
      (∀ fuel, pll_fuel (ar0144_on_mipi 384000000 2) ≤ fuel →
        ar0144_calculate_pll fuel (ar0144_on_mipi 384000000 2) pll_zero
          24000000 384000000 12 = some r) ∧
      r.1 = 0 ∧ r.2.ser_freq ≤ 384000000 := by
  refine ⟨by decide, ?_⟩
  obtain ⟨r, h1, h2⟩ :=
    calculate_pll_ser_le_link (ar0144_on_mipi 384000000 2) pll_zero 24000000 384000000 12
      (by decide)
  have h0 : r.1 = 0 :=
    calculate_pll_success (ar0144_on_mipi 384000000 2) pll_zero 24000000 384000000 12
      (by decide) 1 1 32 (by decide) (by decide) (by decide) _ (le_refl _) r (h1 _ (le_refl _))
  exact ⟨r, h1, h0, h2 h0⟩

/-- Register ranges met by every stored configuration. -/
theorem pll_stored_registers (a : pll_args) (hl : pll_limits_ok a.limits) (op0 : Nat)
    (p : ar0144_pll_config) (h : pll_stored a op0 p) :
    (a.limits.div_lim.min ≤ p.pre_pll_div ∧ p.pre_pll_div ≤ a.limits.div_lim.max) ∧
    (p.pre_pll_mul % 2 = 0 ∧ a.limits.mul_lim.min ≤ p.pre_pll_mul ∧
      p.pre_pll_mul ≤ a.limits.mul_lim.max) ∧
    (a.limits.vt_div_lim.min ≤ p.vt_sys_div ∧ p.vt_sys_div ≤ a.limits.vt_div_lim.max) ∧
    p.op_sys_div ≤ a.limits.vt_div_lim.max ∧
    (p.vt_pix_div = a.bpp ∨ p.vt_pix_div = a.bpp / 2) := by
  obtain ⟨d, m, v, k, hg, -, hk, hp, hst⟩ := h
  obtain ⟨hguard, -⟩ := hp
  obtain ⟨hd, hm, hv, -, -⟩ := hl
  have e1 : p.pre_pll_div = d := by
    conv_lhs => rw [← hst]
    rfl
  have e2 : p.pre_pll_mul = m := by
    conv_lhs => rw [← hst]
    rfl
  have e3 : p.vt_sys_div = v := by
    conv_lhs => rw [← hst]
    rfl
  have e4 : p.op_sys_div = u32 (op0 >>> k * v) := by
    conv_lhs => rw [← hst]
    rfl
  have e5 : p.vt_pix_div = a.bpp >>> k := by
    conv_lhs => rw [← hst]
    rfl
  replace hguard : u32 (v * (op0 >>> k)) ≤ a.limits.vt_div_lim.max := hguard
  obtain ⟨g1, g2, g3, g4, g5, g6⟩ := hg
  have hvr : 1 ≤ v ∧ v ≤ 16 := by
    unfold pll_vt_step at g3
    omega
  rw [e1, e2, e3, e4, e5, hd, hm, hv]
  rw [hv] at hguard
  refine ⟨⟨g1, g2⟩, ⟨g6, g4, g5⟩, hvr, ?_, ?_⟩
  · rw [Nat.mul_comm]
    exact hguard
  · rcases hk with hk | hk
    · interval_cases k
      · exact Or.inl rfl
      · exact Or.inr (by rw [Nat.shiftRight_eq_div_pow])
    · rw [hk]
      exact Or.inl (Nat.zero_shiftRight k)

/-- C25: with either chip limit table, every configuration returned by a
successful `ar0144_calculate_pll` has its register values inside the
hardware ranges: `pre_pll_div` in [div_min, div_max], `pre_pll_mul` even and
in [mul_min, mul_max], `vt_sys_div` in [vt_min, vt_max],
`op_sys_div <= vt_max`, and `vt_pix_div` equal to `bpp` or to `bpp / 2`. -/
theorem calculate_pll_registers (sensor : ar0144) (pll : ar0144_pll_config)
    (ext_freq link_freq bpp : Nat) (hmodel : sensor.model ∈ ar0144_models) :
    ∃ r : Int × ar0144_pll_config,
      (∀ fuel, pll_fuel sensor ≤ fuel →
        ar0144_calculate_pll fuel sensor pll ext_freq link_freq bpp = some r) ∧
      (r.1 = 0 →
        (sensor.model.data.limits.div_lim.min ≤ r.2.pre_pll_div ∧
          r.2.pre_pll_div ≤ sensor.model.data.limits.div_lim.max) ∧
        (r.2.pre_pll_mul % 2 = 0 ∧
          sensor.model.data.limits.mul_lim.min ≤ r.2.pre_pll_mul ∧
          r.2.pre_pll_mul ≤ sensor.model.data.limits.mul_lim.max) ∧
        (sensor.model.data.limits.vt_div_lim.min ≤ r.2.vt_sys_div ∧
          r.2.vt_sys_div ≤ sensor.model.data.limits.vt_div_lim.max) ∧
        r.2.op_sys_div ≤ sensor.model.data.limits.vt_div_lim.max ∧
        (r.2.vt_pix_div = bpp ∨ r.2.vt_pix_div = bpp / 2)) := by
  have hl := models_limits_ok sensor.model hmodel
  obtain ⟨s, hinv, -, hres⟩ := calculate_pll_run sensor pll ext_freq link_freq bpp hl
  refine ⟨_, hres, ?_⟩
  intro h0
  have hne : s.pll.pre_pll_mul ≠ 0 := by
    intro hz
    rw [if_pos hz] at h0
    have h1 : (-EINVAL : Int) = 0 := h0
    exact absurd h1 (by decide)
  obtain ⟨hst, -, -⟩ := hinv.2.2.2.2 hne
  exact pll_stored_registers (pll_setup sensor ext_freq link_freq bpp) hl _ _ hst

/-- Witness for C25: an AR0144 on the parallel bus with a 24 MHz clock, a
74.25 MHz link and 12 bits per pixel gets a configuration inside the
register ranges of the AR0144 table. -/
theorem calculate_pll_registers_witness :
    (ar0144_on_parallel 74250000).model ∈ ar0144_models ∧
    ∃ r : Int × ar0144_pll_config,
      (∀ fuel, pll_fuel (ar0144_on_parallel 74250000) ≤ fuel →
        ar0144_calculate_pll fuel (ar0144_on_parallel 74250000) pll_zero
          24000000 74250000 12 = some r) ∧
      r.1 = 0 ∧
      (1 ≤ r.2.pre_pll_div ∧ r.2.pre_pll_div ≤ 63) ∧
      (r.2.pre_pll_mul % 2 = 0 ∧ 32 ≤ r.2.pre_pll_mul ∧ r.2.pre_pll_mul ≤ 254) ∧
      (1 ≤ r.2.vt_sys_div ∧ r.2.vt_sys_div ≤ 16) ∧
      r.2.op_sys_div ≤ 16 ∧
      (r.2.vt_pix_div = 12 ∨ r.2.vt_pix_div = 12 / 2) := by
  refine ⟨by decide, ?_⟩
  obtain ⟨r, h1, h2⟩ :=
    calculate_pll_registers (ar0144_on_parallel 74250000) pll_zero 24000000 74250000 12
      (by decide)
  have h0 : r.1 = 0 :=
    calculate_pll_success (ar0144_on_parallel 74250000) pll_zero 24000000 74250000 12
      (by decide) 1 1 32 (by decide) (by decide) (by decide) _ (le_refl _) r (h1 _ (le_refl _))
  exact ⟨r, h1, h0, h2 h0⟩

end pll_registers

section live_update_defects

/-- C21 fails on the code: on the streaming AR0144 whose transport fails at
the first geometry write, a live crop change through `ar0144_set_selection`
and live blanking changes through `ar0144_s_ctrl` return `- EIO` with the
grouped parameter hold bit still set in the reset register; the transfers
issued are the read and the write of the hold and the failed geometry
write, and no release follows. -/
theorem live_update_hold_stuck :
    ((ar0144_set_selection ar0144_streaming_glitch state_zero
        ⟨V4L2_SUBDEV_FORMAT_ACTIVE, V4L2_SEL_TGT_CROP, ⟨4, 4, 1280, 800⟩⟩).1 = - EIO ∧
      (ar0144_set_selection ar0144_streaming_glitch state_zero
        ⟨V4L2_SUBDEV_FORMAT_ACTIVE, V4L2_SEL_TGT_CROP, ⟨4, 4, 1280, 800⟩⟩).2.1.i2c.regs
          AR0144_RESET_REGISTER &&& BIT_GROUPED_PARAM_HOLD = BIT_GROUPED_PARAM_HOLD ∧
      (ar0144_set_selection ar0144_streaming_glitch state_zero
        ⟨V4L2_SUBDEV_FORMAT_ACTIVE, V4L2_SEL_TGT_CROP, ⟨4, 4, 1280, 800⟩⟩).2.1.i2c.log =
        [i2c_msg.read AR0144_RESET_REGISTER,
          i2c_msg.write AR0144_RESET_REGISTER BIT_GROUPED_PARAM_HOLD,
          i2c_msg.write AR0144_Y_ADDR_START 4]) ∧
    ((ar0144_s_ctrl ar0144_streaming_glitch V4L2_CID_VBLANK 100).1 = - EIO ∧
      (ar0144_s_ctrl ar0144_streaming_glitch V4L2_CID_VBLANK 100).2.i2c.regs
          AR0144_RESET_REGISTER &&& BIT_GROUPED_PARAM_HOLD = BIT_GROUPED_PARAM_HOLD ∧
      (ar0144_s_ctrl ar0144_streaming_glitch V4L2_CID_VBLANK 100).2.i2c.log =
        [i2c_msg.read AR0144_RESET_REGISTER,
          i2c_msg.write AR0144_RESET_REGISTER BIT_GROUPED_PARAM_HOLD,
          i2c_msg.write AR0144_Y_ADDR_START 4]) ∧
    ((ar0144_s_ctrl ar0144_streaming_glitch V4L2_CID_HBLANK 300).1 = - EIO ∧
      (ar0144_s_ctrl ar0144_streaming_glitch V4L2_CID_HBLANK 300).2.i2c.regs
          AR0144_RESET_REGISTER &&& BIT_GROUPED_PARAM_HOLD = BIT_GROUPED_PARAM_HOLD ∧
      (ar0144_s_ctrl ar0144_streaming_glitch V4L2_CID_HBLANK 300).2.i2c.log =
        [i2c_msg.read AR0144_RESET_REGISTER,
          i2c_msg.write AR0144_RESET_REGISTER BIT_GROUPED_PARAM_HOLD,
          i2c_msg.write AR0144_Y_ADDR_START 4]) := by
  refine ⟨⟨?_, ?_, ?_⟩, ⟨?_, ?_, ?_⟩, ⟨?_, ?_, ?_⟩⟩ <;> decide

/-- C28 fails on the code: the streaming AR0144 with the active crop
1280x800 at (4, 4) accepts a crop request of the same size at left offset
100; the call returns 0 and the active crop width has become 1196, while
the format width stays 1280. -/
theorem live_crop_shrinks :
    ar0144_streaming.is_streaming = true ∧
    ar0144_streaming.crop = ⟨4, 4, 1280, 800⟩ ∧
    (ar0144_set_selection ar0144_streaming state_zero
      ⟨V4L2_SUBDEV_FORMAT_ACTIVE, V4L2_SEL_TGT_CROP, ⟨100, 4, 1280, 800⟩⟩).1 = 0 ∧
    (ar0144_set_selection ar0144_streaming state_zero
      ⟨V4L2_SUBDEV_FORMAT_ACTIVE, V4L2_SEL_TGT_CROP, ⟨100, 4, 1280, 800⟩⟩).2.1.crop =
      ⟨100, 4, 1196, 800⟩ ∧
    (ar0144_set_selection ar0144_streaming state_zero
      ⟨V4L2_SUBDEV_FORMAT_ACTIVE, V4L2_SEL_TGT_CROP, ⟨100, 4, 1280, 800⟩⟩).2.1.fmt.width =
      1280 ∧
    (ar0144_set_selection ar0144_streaming state_zero
      ⟨V4L2_SUBDEV_FORMAT_ACTIVE, V4L2_SEL_TGT_CROP, ⟨100, 4, 1280, 800⟩⟩).2.1.i2c.regs
        AR0144_X_ADRR_END = 1379 := by
  refine ⟨?_, ?_, ?_, ?_, ?_, ?_⟩ <;> decide

/-- C29 fails on the code: `ar0144_s_power` off on the registered AR0144
with a power count of zero returns `-EINVAL` and leaves the count at -1; a
following power on returns 0 and brings the count to 0. -/
theorem s_power_count_negative :
    ar0144_registered.power_user = 0 ∧
    (ar0144_s_power ar0144_registered 0 0).1 = -EINVAL ∧
    (ar0144_s_power ar0144_registered 0 0).2.power_user = -1 ∧
    (ar0144_s_power (ar0144_s_power ar0144_registered 0 0).2 0 1).1 = 0 ∧
    (ar0144_s_power (ar0144_s_power ar0144_registered 0 0).2 0 1).2.power_user = 0 := by
  refine ⟨?_, ?_, ?_, ?_, ?_⟩ <;> decide

/-- C30 fails on the code: for a requested frame rate of zero the divisor
`fps * hlen` of `ar0144_vv_set_fps` is zero on every device, and the
function divides by zero; on the registered AR0144 with a 64 MHz pixel clock
the limits are `min_fps = 6` and `max_fps = 19083`, so a frame rate limited
to that interval would not be zero, and every argument below 103 behaves the
same. -/
theorem vv_set_fps_zero_divisor :
    (∀ sensor : ar0144, vv_fps_divisor sensor 0 = 0 ∧ ar0144_vv_set_fps sensor 0 = none) ∧
    vv_fps_range ar0144_clocked = some (6, 19083) ∧
    vv_fps_divisor ar0144_clocked 102 = 0 ∧
    ar0144_vv_set_fps ar0144_clocked 102 = none ∧
    ar0144_vv_set_fps ar0144_clocked 30720 = some (0, 633) := by
  refine ⟨fun sensor => ⟨?_, ?_⟩, ?_, ?_, ?_, ?_⟩
  · simp [vv_fps_divisor, vv_fps_scaled, u32]
  · unfold ar0144_vv_set_fps
    cases vv_fps_range sensor with
    | none => rfl
    | some range => simp [vv_fps_scaled, u32, div_u64]
  · decide
  · decide
  · decide
  · decide

end live_update_defects

section pll_ties

/-- The configuration kept when the loop is left belongs to the first
examined candidate that reaches the smallest difference: either no examined
candidate came closer than the best one at loop entry, or the list of
examined candidates splits at a stored candidate `t0` with every passing
candidate before it strictly farther from the target and every passing one
after it not closer. -/
theorem pll_loop_first (a : pll_args) (hl : pll_limits_ok a.limits) :
    ∀ (n : Nat) (s r : pll_sweep), pll_head s → pll_loop a n s = some r →
      (r.pll = s.pll ∧ r.diff_old = s.diff_old ∧
        ∀ t ∈ pll_visited a n s, pll_passes a t →
          s.diff_old ≤ a.pix_target - pll_pix_clk a t) ∨
      (∃ pre t0 post, pll_visited a n s = pre ++ t0 :: post ∧ pll_passes a t0 ∧
        r.pll = pll_store a t0 ∧ r.diff_old = a.pix_target - pll_pix_clk a t0 ∧
        r.diff_old < s.diff_old ∧
        (∀ t ∈ pre, pll_passes a t → r.diff_old < a.pix_target - pll_pix_clk a t) ∧
        (∀ t ∈ post, pll_passes a t → r.diff_old ≤ a.pix_target - pll_pix_clk a t)) := by
  intro n
  induction n with
  | zero => intro s r _ h; cases h
  | succ n ih =>
    intro s r hs h
    unfold pll_loop at h
    cases hit : pll_iter a s with
    | none =>
      rw [hit] at h
      cases h
      rw [pll_visited_none a n s hit]
      exact Or.inl ⟨rfl, rfl, fun t ht => absurd ht (List.not_mem_nil t)⟩
    | some s1 =>
      rw [hit] at h
      obtain ⟨hc, t, ht, rfl⟩ := pll_iter_some a s s1 hit
      rw [pll_visited_some a n s t hc ht]
      obtain ⟨a1, a2, -, -⟩ := pll_advance_some a hl s t hs ht
      obtain ⟨-, -, -, -, -, hcase⟩ := pll_try_spec a t
      have k1 : (pll_try a t).diff_old ≤ s.diff_old := by
        rcases hcase with ⟨-, c2, c3, -⟩ | ⟨-, c3, -⟩ <;> omega
      have k2 : pll_passes a t → (pll_try a t).diff_old ≤ a.pix_target - pll_pix_clk a t := by
        intro hp
        rcases hcase with ⟨-, -, c3, -⟩ | ⟨c1, c3, -⟩
        · omega
        · have : ¬ (a.pix_target - pll_pix_clk a t < t.diff_old) := fun hlt => c1 ⟨hp, hlt⟩
          omega
      rcases ih (pll_try a t) r (pll_head_step a hl s t hs ht) h with
        ⟨i1, i2, i3⟩ | ⟨pre, t0, post, j1, j2, j3, j4, j5, j6, j7⟩
      · rcases hcase with ⟨c1, c2, c3, c4⟩ | ⟨c1, c3, c4⟩
        · refine Or.inr ⟨[], t, pll_visited a n (pll_try a t), rfl, c1, ?_, ?_, ?_, ?_, ?_⟩
          · rw [i1, c4]
          · rw [i2, c3]
          · rw [i2, c3]
            omega
          · intro t1 ht1
            exact absurd ht1 (List.not_mem_nil t1)
          · intro t1 ht1 hp
            have := i3 t1 ht1 hp
            omega
        · refine Or.inl ⟨?_, ?_, ?_⟩
          · rw [i1, c4, a1]
          · rw [i2, c3, a2]
          · intro t1 ht1 hp
            rcases List.mem_cons.mp ht1 with rfl | hmem
            · have : ¬ (a.pix_target - pll_pix_clk a t1 < t1.diff_old) :=
                fun hlt => c1 ⟨hp, hlt⟩
              omega
            · have := i3 t1 hmem hp
              omega
      · refine Or.inr ⟨t :: pre, t0, post, ?_, j2, j3, j4, by omega, ?_, j7⟩
        · rw [j1]
          rfl
        · intro t1 ht1 hp
          rcases List.mem_cons.mp ht1 with rfl | hmem
          · have := k2 hp
            omega
          · exact j6 t1 hmem hp

/-- Counterexample to C22 as stated: on an AR0144 on the parallel bus with
a 12 MHz clock, a 32 MHz link and 12 bits per pixel, the first examined
candidate (divider 1, multiplier 32) and the later candidate (divider 2,
multiplier 64) both pass the checks and reach the returned pixel clock, and
`ar0144_calculate_pll` returns divider 1 and multiplier 32: the values of
the candidate visited first of the two, not of the one visited last. -/
theorem calculate_pll_tie_counterexample :
    ∃ r : Int × ar0144_pll_config,
      (∀ fuel, pll_fuel (ar0144_on_parallel 32000000) ≤ fuel →
        ar0144_calculate_pll fuel (ar0144_on_parallel 32000000) pll_zero
          12000000 32000000 12 = some r) ∧
      r.1 = 0 ∧
      ∃ tA tB rest,
        pll_sweep_points (ar0144_on_parallel 32000000) pll_zero 12000000 32000000 12 =
          tA :: rest ∧
        tB ∈ rest ∧
        pll_passes (pll_setup (ar0144_on_parallel 32000000) 12000000 32000000 12) tA ∧
        pll_passes (pll_setup (ar0144_on_parallel 32000000) 12000000 32000000 12) tB ∧
        pll_pix_clk (pll_setup (ar0144_on_parallel 32000000) 12000000 32000000 12) tA =
          r.2.pix_freq ∧
        pll_pix_clk (pll_setup (ar0144_on_parallel 32000000) 12000000 32000000 12) tB =
          r.2.pix_freq ∧
        (tA.div = 1 ∧ tA.mul = 32) ∧ (tB.div = 2 ∧ tB.mul = 64) ∧
        r.2.pre_pll_div = 1 ∧ r.2.pre_pll_mul = 32 := by
  have hl : pll_limits_ok (ar0144_on_parallel 32000000).model.data.limits := by decide
  obtain ⟨s, -, hs, hres⟩ :=
    calculate_pll_run (ar0144_on_parallel 32000000) pll_zero 12000000 32000000 12 hl
  have hf : pll_fuel (ar0144_on_parallel 32000000) = 258047 + 1 := by
    have e : pll_op_multiplier (ar0144_on_parallel 32000000) = 1 := rfl
    unfold pll_fuel
    rw [e]
    simp
  have hhead := (pll_inv_start (ar0144_on_parallel 32000000) pll_zero 12000000 32000000 12 hl).1
  generalize ha : pll_setup (ar0144_on_parallel 32000000) 12000000 32000000 12 = a at hs hres ⊢
  generalize hst : pll_start (ar0144_on_parallel 32000000) pll_zero 12000000 32000000 12 =
    start at hs hhead
  have hl2 : pll_limits_ok a.limits := by rw [← ha]; exact hl
  have hadv : pll_advance a start = some start := by rw [← ha, ← hst]; rfl
  have hdiff : (pll_try a start).diff_old = 0 := by rw [← ha, ← hst]; rfl
  have hmul : (pll_try a start).pll.pre_pll_mul = 32 := by rw [← ha, ← hst]; rfl
  have hdiv : (pll_try a start).pll.pre_pll_div = 1 := by rw [← ha, ← hst]; rfl
  have hpix : (pll_try a start).pll.pix_freq = 32000000 := by rw [← ha, ← hst]; rfl
  have hpA : pll_passes a start := by rw [← ha, ← hst]; decide
  have hxA : pll_pix_clk a start = 32000000 := by rw [← ha, ← hst]; rfl
  have hdA : start.div = 1 ∧ start.mul = 32 := by rw [← hst]; exact ⟨rfl, rfl⟩
  have hd1 : (pll_try a start).div = 1 := by rw [← ha, ← hst]; rfl
  have hv1 : (pll_try a start).vt_pix_div = 12 := by rw [← ha, ← hst]; rfl
  have ho1 : (pll_try a start).op_multiplier = 1 := by rw [← ha, ← hst]; rfl
  have hc : start.div ≤ a.limits.div_lim.max := by rw [← ha, ← hst]; decide
  rw [hf] at hs
  have hloop : pll_loop a 258047 (pll_try a start) = some s := by
    unfold pll_loop at hs
    rw [pll_iter_of_advance a hl2 start start hhead hadv] at hs
    exact hs
  have hh1 := pll_head_step a hl2 start start hhead hadv
  have hpll : s.pll = (pll_try a start).pll := by
    rcases pll_loop_first a hl2 _ _ _ hh1 hloop with ⟨i1, -, -⟩ | ⟨_, _, _, -, -, -, -, j5, -, -⟩
    · exact i1
    · rw [hdiff] at j5
      exact absurd j5 (Nat.not_lt_zero _)
  obtain ⟨tB, mB, q1, q2, q3, q4, q5⟩ :=
    pll_loop_covers a hl2 _ _ _ hh1 hloop 2 1 64 (by decide)
      (Or.inl (by rw [hd1]; decide))
  have hcong := pll_passes_congr a tB ⟨2, 64, 1, 12, 1, 0, pll_zero⟩ q1 q3 q2
    (q4.trans hv1) (q5.trans ho1)
  have hpB : pll_passes a tB := hcong.1.mpr (by rw [← ha]; decide)
  have hxB : pll_pix_clk a tB = 32000000 := by
    rw [hcong.2, ← ha]
    rfl
  have hvis : pll_sweep_points (ar0144_on_parallel 32000000) pll_zero 12000000 32000000 12 =
      start :: pll_visited a 258047 (pll_try a start) := by
    unfold pll_sweep_points
    rw [ha, hst, hf]
    exact pll_visited_some a _ start start hc hadv
  have hne : s.pll.pre_pll_mul ≠ 0 := by rw [hpll, hmul]; decide
  refine ⟨_, hres, ?_, start, tB, _, hvis, mB, hpA, hpB, ?_, ?_, hdA, ⟨q1, q3⟩, ?_, ?_⟩
  · exact if_neg hne
  · show pll_pix_clk a start = s.pll.pix_freq
    rw [hpll, hpix, hxA]
  · show pll_pix_clk a tB = s.pll.pix_freq
    rw [hpll, hpix, hxB]
  · show s.pll.pre_pll_div = 1
    rw [hpll, hdiv]
  · show s.pll.pre_pll_mul = 32
    rw [hpll, hmul]

/-- Amended C22: when `ar0144_calculate_pll` succeeds, the returned divider
and multiplier are those of the first candidate in sweep order that reaches
the returned pixel clock: the list of examined candidates splits at a
candidate `t0` that passes the checks and gives the returned divider,
multiplier and pixel clock, every accepted candidate visited before `t0`
has a strictly smaller pixel clock, and every accepted candidate visited
after it has a pixel clock that is not greater. So of two accepted
candidates that tie at the returned pixel clock, the one visited first is
returned. -/
theorem calculate_pll_tie_first (sensor : ar0144) (pll : ar0144_pll_config)
    (ext_freq link_freq bpp : Nat) (hmodel : sensor.model ∈ ar0144_models) :
    ∃ r : Int × ar0144_pll_config,
      (∀ fuel, pll_fuel sensor ≤ fuel →
        ar0144_calculate_pll fuel sensor pll ext_freq link_freq bpp = some r) ∧
      (r.1 = 0 →
        ∃ pre t0 post,
          pll_sweep_points sensor pll ext_freq link_freq bpp = pre ++ t0 :: post ∧
          pll_passes (pll_setup sensor ext_freq link_freq bpp) t0 ∧
          r.2.pre_pll_div = t0.div ∧ r.2.pre_pll_mul = t0.mul ∧
          r.2.pix_freq = pll_pix_clk (pll_setup sensor ext_freq link_freq bpp) t0 ∧
          (∀ t ∈ pre, pll_passes (pll_setup sensor ext_freq link_freq bpp) t →
            pll_pix_clk (pll_setup sensor ext_freq link_freq bpp) t < r.2.pix_freq) ∧
          (∀ t ∈ post, pll_passes (pll_setup sensor ext_freq link_freq bpp) t →
            pll_pix_clk (pll_setup sensor ext_freq link_freq bpp) t ≤ r.2.pix_freq)) := by
  have hl := models_limits_ok sensor.model hmodel
  obtain ⟨s, -, hs, hres⟩ := calculate_pll_run sensor pll ext_freq link_freq bpp hl
  have h0 := pll_inv_start sensor pll ext_freq link_freq bpp hl
  refine ⟨_, hres, ?_⟩
  intro hz
  have hne : s.pll.pre_pll_mul ≠ 0 := by
    intro hzero
    rw [if_pos hzero] at hz
    have h1 : (-EINVAL : Int) = 0 := hz
    exact absurd h1 (by decide)
  rcases pll_loop_first (pll_setup sensor ext_freq link_freq bpp) hl _ _ _ h0.1 hs with
    ⟨i1, -, -⟩ | ⟨pre, t0, post, j1, j2, j3, j4, -, j6, j7⟩
  · exact absurd (by rw [i1]; rfl) hne
  · have hp0 : pll_pix_clk (pll_setup sensor ext_freq link_freq bpp) t0 ≤
        (pll_setup sensor ext_freq link_freq bpp).pix_target := j2.2.2.2
    have e1 : s.pll.pre_pll_div = t0.div := by rw [j3]; rfl
    have e2 : s.pll.pre_pll_mul = t0.mul := by rw [j3]; rfl
    have e3 : s.pll.pix_freq = pll_pix_clk (pll_setup sensor ext_freq link_freq bpp) t0 := by
      rw [j3]; rfl
    refine ⟨pre, t0, post, j1, j2, e1, e2, e3, ?_, ?_⟩
    · intro t ht hp
      have hpt : pll_pix_clk (pll_setup sensor ext_freq link_freq bpp) t ≤
          (pll_setup sensor ext_freq link_freq bpp).pix_target := hp.2.2.2
      have := j6 t ht hp
      show _ < s.pll.pix_freq
      rw [e3]
      omega
    · intro t ht hp
      have hpt : pll_pix_clk (pll_setup sensor ext_freq link_freq bpp) t ≤
          (pll_setup sensor ext_freq link_freq bpp).pix_target := hp.2.2.2
      have := j7 t ht hp
      show _ ≤ s.pll.pix_freq
      rw [e3]
      omega

/-- Witness for amended C22: on the AR0144 on the parallel bus with a
12 MHz clock, a 32 MHz link and 12 bits per pixel the call succeeds and the
examined candidates split at the returned one as stated. -/
theorem calculate_pll_tie_first_witness :
    (ar0144_on_parallel 32000000).model ∈ ar0144_models ∧
    ∃ r : Int × ar0144_pll_config,
      (∀ fuel, pll_fuel (ar0144_on_parallel 32000000) ≤ fuel →
        ar0144_calculate_pll fuel (ar0144_on_parallel 32000000) pll_zero
          12000000 32000000 12 = some r) ∧
      r.1 = 0 ∧
      ∃ pre t0 post,
        pll_sweep_points (ar0144_on_parallel 32000000) pll_zero 12000000 32000000 12 =
          pre ++ t0 :: post ∧
        pll_passes (pll_setup (ar0144_on_parallel 32000000) 12000000 32000000 12) t0 ∧
        r.2.pre_pll_div = t0.div ∧ r.2.pre_pll_mul = t0.mul ∧
        r.2.pix_freq =
          pll_pix_clk (pll_setup (ar0144_on_parallel 32000000) 12000000 32000000 12) t0 ∧
        (∀ t ∈ pre,
          pll_passes (pll_setup (ar0144_on_parallel 32000000) 12000000 32000000 12) t →
          pll_pix_clk (pll_setup (ar0144_on_parallel 32000000) 12000000 32000000 12) t <
            r.2.pix_freq) ∧
        (∀ t ∈ post,
          pll_passes (pll_setup (ar0144_on_parallel 32000000) 12000000 32000000 12) t →
          pll_pix_clk (pll_setup (ar0144_on_parallel 32000000) 12000000 32000000 12) t ≤
            r.2.pix_freq) := by
  refine ⟨by decide, ?_⟩
  obtain ⟨r, h1, h2⟩ :=
    calculate_pll_tie_first (ar0144_on_parallel 32000000) pll_zero 12000000 32000000 12
      (by decide)
  have h0 : r.1 = 0 :=
    calculate_pll_success (ar0144_on_parallel 32000000) pll_zero 12000000 32000000 12
      (by decide) 1 1 32 (by decide) (by decide) (by decide) _ (le_refl _) r (h1 _ (le_refl _))
  exact ⟨r, h1, h0, h2 h0⟩

end pll_ties

section pll_termination

/-- The three ways through the first half of the loop body: the sweep goes
on inside the current pass, the loop is left, or a new pass starts with the
pixel divider and the operational multiplier halved. -/
theorem pll_pass_cases (a : pll_args) (hl : pll_limits_ok a.limits) (s : pll_sweep)
    (hs : pll_head s) :
    ((pll_carry_vt a (pll_carry_mul a (pll_round_mul s))).div ≤ a.limits.div_lim.max ∧
      ∃ t, pll_advance a s = some t ∧ t.vt_pix_div = s.vt_pix_div ∧
        t.op_multiplier = s.op_multiplier) ∨
    ((pll_carry_vt a (pll_carry_mul a (pll_round_mul s))).div > a.limits.div_lim.max ∧
      pll_advance a s = none ∧ (s.vt_pix_div < a.bpp ∨ s.op_multiplier ≤ 1)) ∨
    ((pll_carry_vt a (pll_carry_mul a (pll_round_mul s))).div > a.limits.div_lim.max ∧
      ¬ s.vt_pix_div < a.bpp ∧ 2 ≤ s.op_multiplier ∧
      ∃ t, pll_advance a s = some t ∧ t.vt_pix_div = s.vt_pix_div >>> 1 ∧
        t.op_multiplier = s.op_multiplier >>> 1) := by
  obtain ⟨hd, hm, hv, -, -⟩ := hl
  obtain ⟨h1, h2, h3, h4, h5⟩ := hs
  have hmax : a.limits.div_lim.max = 63 := by rw [hd]
  unfold pll_vt_step at h5
  unfold pll_advance
  obtain ⟨a1, a2, a3, a4, -, -, a7⟩ := pll_round_mul_spec s h4
  obtain ⟨b1, b3, b4, -, -, b7⟩ :=
    pll_carry_mul_spec a hm (pll_round_mul s) (by rw [a2]; omega)
  obtain ⟨-, c3, c4, -, -, -⟩ :=
    pll_carry_vt_spec a hv (pll_carry_mul a (pll_round_mul s)) (by rw [b1, a1]; omega)
  have e3 : (pll_carry_vt a (pll_carry_mul a (pll_round_mul s))).vt_pix_div = s.vt_pix_div := by
    rw [c3, b3, a3]
  have e4 : (pll_carry_vt a (pll_carry_mul a (pll_round_mul s))).op_multiplier =
      s.op_multiplier := by
    rw [c4, b4, a4]
  generalize pll_carry_vt a (pll_carry_mul a (pll_round_mul s)) = c at e3 e4 ⊢
  rw [hmax]
  rcases pll_next_pass_spec a hd c with ⟨n1, n2⟩ | ⟨n1, n2, n3⟩ | ⟨n1, n2, n3, n4⟩
  · exact Or.inl ⟨n1, c, n2, e3, e4⟩
  · rw [e3, e4] at n2
    exact Or.inr (Or.inl ⟨n1, n3, n2⟩)
  · rw [e3] at n2
    rw [e4] at n3
    exact Or.inr (Or.inr ⟨n1, n2, n3, _, n4, by rw [← e3], by rw [← e4]⟩)

/-- One iteration of the counter. -/
theorem pll_restarts_step (a : pll_args) (hl : pll_limits_ok a.limits) (n : Nat)
    (s t : pll_sweep) (hs : pll_head s) (h : pll_advance a s = some t) :
    pll_restarts a (n + 1) s =
      (if (pll_carry_vt a (pll_carry_mul a (pll_round_mul s))).div > a.limits.div_lim.max
        then 1 else 0) + pll_restarts a n (pll_try a t) := by
  have hmax : a.limits.div_lim.max = 63 := by rw [hl.1]
  conv_lhs => unfold pll_restarts
  rw [if_pos (by rw [hmax]; exact hs.2.1), h]

theorem pll_restarts_stop (a : pll_args) (n : Nat) (s : pll_sweep)
    (h : pll_advance a s = none) : pll_restarts a (n + 1) s = 0 := by
  conv_lhs => unfold pll_restarts
  rw [h]
  split_ifs <;> rfl

/-- With a bit depth of at least 1 the sweep restarts at most once, and not
at all once the pixel divider has been halved. -/
theorem pll_restarts_le_one (a : pll_args) (hl : pll_limits_ok a.limits) (hb : 1 ≤ a.bpp) :
    ∀ (n : Nat) (s : pll_sweep), pll_head s → s.vt_pix_div ≤ a.bpp →
      pll_restarts a n s ≤ (if s.vt_pix_div < a.bpp then 0 else 1) := by
  intro n
  induction n with
  | zero => intro s _ _; exact Nat.zero_le _
  | succ n ih =>
    intro s hs hv
    rcases pll_pass_cases a hl s hs with ⟨c1, t, ht, t1, -⟩ | ⟨-, hnone, -⟩ |
      ⟨c1, c2, -, t, ht, t1, -⟩
    · obtain ⟨-, -, -, e4, -, -⟩ := pll_try_spec a t
      have := ih (pll_try a t) (pll_head_step a hl s t hs ht) (by rw [e4, t1]; exact hv)
      rw [pll_restarts_step a hl n s t hs ht, if_neg (by omega), Nat.zero_add]
      rw [e4, t1] at this
      exact this
    · rw [pll_restarts_stop a n s hnone]
      exact Nat.zero_le _
    · obtain ⟨-, -, -, e4, -, -⟩ := pll_try_spec a t
      have hlt : s.vt_pix_div >>> 1 < a.bpp := by
        have : s.vt_pix_div = a.bpp := by omega
        rw [this]
        exact shiftRight_lt_self a.bpp 1 (by omega) (by omega)
      have := ih (pll_try a t) (pll_head_step a hl s t hs ht) (by rw [e4, t1]; omega)
      rw [e4, t1, if_pos hlt] at this
      rw [pll_restarts_step a hl n s t hs ht, if_pos c1, if_neg c2]
      omega

/-- Every restart halves the operational multiplier, so their number is at
most its binary logarithm. -/
theorem pll_restarts_le_log (a : pll_args) (hl : pll_limits_ok a.limits) :
    ∀ (n : Nat) (s : pll_sweep), pll_head s →
      pll_restarts a n s ≤ Nat.log 2 s.op_multiplier := by
  intro n
  induction n with
  | zero => intro s _; exact Nat.zero_le _
  | succ n ih =>
    intro s hs
    rcases pll_pass_cases a hl s hs with ⟨c1, t, ht, -, t2⟩ | ⟨-, hnone, -⟩ |
      ⟨c1, -, c3, t, ht, -, t2⟩
    · obtain ⟨-, -, -, -, e5, -⟩ := pll_try_spec a t
      have := ih (pll_try a t) (pll_head_step a hl s t hs ht)
      rw [e5, t2] at this
      rw [pll_restarts_step a hl n s t hs ht, if_neg (by omega), Nat.zero_add]
      exact this
    · rw [pll_restarts_stop a n s hnone]
      exact Nat.zero_le _
    · obtain ⟨-, -, -, -, e5, -⟩ := pll_try_spec a t
      have := ih (pll_try a t) (pll_head_step a hl s t hs ht)
      rw [e5, t2] at this
      have hlog := log_shiftRight_one s.op_multiplier c3
      rw [pll_restarts_step a hl n s t hs ht, if_pos c1]
      omega

/-- With a bit depth of 0 the test `vt_pix_div < bpp` never ends the
sweep: it restarts until the operational multiplier has come down to 1. -/
theorem pll_restarts_ge_log (a : pll_args) (hl : pll_limits_ok a.limits) (hb : a.bpp = 0) :
    ∀ (n : Nat) (s : pll_sweep), pll_head s → pll_measure s < n →
      Nat.log 2 s.op_multiplier ≤ pll_restarts a n s := by
  intro n
  induction n with
  | zero => intro s _ h; omega
  | succ n ih =>
    intro s hs hm
    rcases pll_pass_cases a hl s hs with ⟨c1, t, ht, -, t2⟩ | ⟨-, hnone, c2⟩ |
      ⟨c1, -, c3, t, ht, -, t2⟩
    · obtain ⟨-, -, -, -, e5, -⟩ := pll_try_spec a t
      have hstep := pll_measure_step a hl s t hs ht
      have := ih (pll_try a t) (pll_head_step a hl s t hs ht) (by omega)
      rw [e5, t2] at this
      rw [pll_restarts_step a hl n s t hs ht]
      omega
    · have hop : s.op_multiplier ≤ 1 := by
        rcases c2 with c2 | c2
        · omega
        · exact c2
      have : Nat.log 2 s.op_multiplier = 0 := Nat.log_eq_zero_iff.mpr (Or.inl (by omega))
      omega
    · obtain ⟨-, -, -, -, e5, -⟩ := pll_try_spec a t
      have hstep := pll_measure_step a hl s t hs ht
      have := ih (pll_try a t) (pll_head_step a hl s t hs ht) (by omega)
      rw [e5, t2] at this
      have hlog := log_shiftRight_one s.op_multiplier c3
      rw [pll_restarts_step a hl n s t hs ht, if_pos c1]
      omega

/-- The hypothesis of the pass bound cannot be dropped: on an AR0144 context
with four lanes and a bit depth of 0, values that the driver never passes,
the sweep restarts twice, with the operational multiplier 4, 2 and 1. -/
theorem pll_restarts_four_lanes :
    ar0144_four_lanes.model ∈ ar0144_models ∧
    pll_restarts (pll_setup ar0144_four_lanes 24000000 384000000 0)
      (pll_fuel ar0144_four_lanes)
      (pll_start ar0144_four_lanes pll_zero 24000000 384000000 0) = 2 := by
  have hl : pll_limits_ok ar0144_four_lanes.model.data.limits := by decide
  have hl2 : pll_limits_ok (pll_setup ar0144_four_lanes 24000000 384000000 0).limits := hl
  have h0 := (pll_inv_start ar0144_four_lanes pll_zero 24000000 384000000 0 hl).1
  have hop : (pll_start ar0144_four_lanes pll_zero 24000000 384000000 0).op_multiplier = 4 :=
    rfl
  have hlog : Nat.log 2 4 = 2 := Nat.log_eq_of_pow_le_of_lt_pow (by norm_num) (by norm_num)
  have hop2 : pll_op_multiplier ar0144_four_lanes = 4 := rfl
  have hmeas : pll_measure (pll_start ar0144_four_lanes pll_zero 24000000 384000000 0) <
      pll_fuel ar0144_four_lanes := by
    have e1 : (pll_start ar0144_four_lanes pll_zero 24000000 384000000 0).div = 1 := rfl
    have e2 : (pll_start ar0144_four_lanes pll_zero 24000000 384000000 0).mul = 32 := rfl
    have e3 : (pll_start ar0144_four_lanes pll_zero 24000000 384000000 0).vt_sys_div = 1 := rfl
    unfold pll_measure pll_fuel
    rw [hop, hop2, e1, e2, e3, hlog]
    norm_num
  have hge := pll_restarts_ge_log _ hl2 rfl (pll_fuel ar0144_four_lanes) _ h0 hmeas
  have hle := pll_restarts_le_log _ hl2 (pll_fuel ar0144_four_lanes) _ h0
  rw [hop, hlog] at hge hle
  exact ⟨by decide, le_antisymm hle hge⟩

/-- C26: the PLL search loop of `ar0144_calculate_pll` terminates for every
input: with either chip limit table and any external clock, link
frequency, lane count and bits-per-pixel the function returns, the loop
variables stay in their loop-head range and every iteration strictly
lowers the rank `pll_measure` of the sweep position (pass, pre-divider,
system divider, multiplier); and the sweep restarts at most once, that is,
it makes at most two passes over the pre-divider range, whenever the
bits-per-pixel value is at least 1 or the initial operational multiplier is
below 4. Every call of the driver meets both conditions:
`ar0144_setup_pll` passes the bit depths 8, 10 and 12, and the initial
operational multiplier is 2 on the AR0234 and the lane count on the AR0144,
which `ar0144_parse_mipi_props` limits to 2 (1 on the parallel bus). -/
theorem calculate_pll_terminates (sensor : ar0144) (pll : ar0144_pll_config)
    (ext_freq link_freq bpp : Nat) (hmodel : sensor.model ∈ ar0144_models) :
    (∃ r : Int × ar0144_pll_config, ∀ fuel, pll_fuel sensor ≤ fuel →
        ar0144_calculate_pll fuel sensor pll ext_freq link_freq bpp = some r) ∧
    pll_head (pll_start sensor pll ext_freq link_freq bpp) ∧
    (∀ s s1, pll_head s → pll_iter (pll_setup sensor ext_freq link_freq bpp) s = some s1 →
      pll_head s1 ∧ pll_measure s1 < pll_measure s) ∧
    ((1 ≤ bpp ∨ pll_op_multiplier sensor < 4) →
      ∀ fuel, pll_restarts (pll_setup sensor ext_freq link_freq bpp) fuel
        (pll_start sensor pll ext_freq link_freq bpp) ≤ 1) := by
  have hl := models_limits_ok sensor.model hmodel
  have hl2 : pll_limits_ok (pll_setup sensor ext_freq link_freq bpp).limits := hl
  obtain ⟨s, -, -, hres⟩ := calculate_pll_run sensor pll ext_freq link_freq bpp hl
  have h0 := (pll_inv_start sensor pll ext_freq link_freq bpp hl).1
  refine ⟨⟨_, hres⟩, h0, ?_, ?_⟩
  · intro s s1 hs hit
    obtain ⟨-, t, ht, rfl⟩ := pll_iter_some _ s s1 hit
    exact ⟨pll_head_step _ hl2 s t hs ht, pll_measure_step _ hl2 s t hs ht⟩
  · intro hb fuel
    rcases hb with hb | hb
    · have := pll_restarts_le_one (pll_setup sensor ext_freq link_freq bpp) hl2 hb fuel _ h0
        (le_refl _)
      have hv : ¬ (pll_start sensor pll ext_freq link_freq bpp).vt_pix_div <
          (pll_setup sensor ext_freq link_freq bpp).bpp := lt_irrefl bpp
      rw [if_neg hv] at this
      exact this
    · have := pll_restarts_le_log (pll_setup sensor ext_freq link_freq bpp) hl2 fuel _ h0
      have hop : (pll_start sensor pll ext_freq link_freq bpp).op_multiplier =
          pll_op_multiplier sensor := rfl
      rw [hop] at this
      have hlog : Nat.log 2 (pll_op_multiplier sensor) < 2 := by
        by_cases hz : pll_op_multiplier sensor = 0
        · rw [hz]
          simp
        · exact Nat.log_lt_of_lt_pow hz (by norm_num; exact hb)
      omega

/-- Witness for C26: an AR0144 on two MIPI lanes with a 24 MHz
clock, a 384 MHz link and 12 bits per pixel. -/
theorem calculate_pll_terminates_witness :
    (ar0144_on_mipi 384000000 2).model ∈ ar0144_models ∧
    (∃ r : Int × ar0144_pll_config, ∀ fuel, pll_fuel (ar0144_on_mipi 384000000 2) ≤ fuel →
        ar0144_calculate_pll fuel (ar0144_on_mipi 384000000 2) pll_zero
          24000000 384000000 12 = some r) ∧
    (1 ≤ 12 ∨ pll_op_multiplier (ar0144_on_mipi 384000000 2) < 4) ∧
    ∀ fuel, pll_restarts (pll_setup (ar0144_on_mipi 384000000 2) 24000000 384000000 12) fuel
      (pll_start (ar0144_on_mipi 384000000 2) pll_zero 24000000 384000000 12) ≤ 1 :=
  ⟨by decide,
    (calculate_pll_terminates (ar0144_on_mipi 384000000 2) pll_zero 24000000 384000000 12
      (by decide)).1,
    Or.inl (by decide),
    (calculate_pll_terminates (ar0144_on_mipi 384000000 2) pll_zero 24000000 384000000 12
      (by decide)).2.2.2 (Or.inl (by decide))⟩

end pll_termination

end AR0144
